import Mathlib

/-!
# UUID generation in `contrib/uuid/uuid.c` and `contrib/uuid-ossp/uuid-ossp.c`

A shallow embedding of the two UUID generator modules (non-OSSP builds) and the
properties of the UUIDs they hand to `uuid_in`.

Conventions of the embedding:

* a C `char`/`unsigned char` is a `Nat` (its code), a C string is the list of the
  codes before its terminating NUL, a byte buffer is a `List Nat`;
* machine integers are `Nat`, reduced modulo `2 ^ w` where the C type does so; the selector
  `int v` is an `Int`, the length `int len` a `Nat` (every caller passes a length that is
  not negative), a pointer that may be `NULL` an `Option`;
* a read through a null pointer, a read past the end of a buffer and a write past the end of
  an object are undefined in C: the run ends there in `PgError.null_pointer_read`,
  `PgError.out_of_bounds_read` or `PgError.out_of_bounds_write`, and no result is attributed
  to it;
* `HAVE_BSD_UUID` / `HAVE_LINUX_UUID` (resp. `HAVE_UUID_BSD` / `HAVE_UUID_LINUX`)
  select the build, the host byte order is a `Bool`, MD5 and SHA1 are abstract
  functions on byte lists;
* the random source and the time-based generator of the system library are
  streams in an explicit `World` that every entry point threads through.
-/

namespace PgUuid

/-! ## C strings and `printf` -/

/-- The C string stored at a pointer: the characters before the first NUL. -/
def c_str (p : List Nat) : List Nat := p.takeWhile (fun c => c != 0)

/-- `strlcpy(dst, src, size)`: the string left in `dst`, at most `size - 1` characters of `src`. -/
def strlcpy (src : List Nat) (size : Nat) : List Nat := (c_str src).take (size - 1)

/-- `strcpy(dst + off, src)`: the string in `dst` afterwards. A write past the terminator of `dst`
is not visible in the string. -/
def strcpy_at (dst : List Nat) (off : Nat) (src : List Nat) : List Nat :=
  if off ≤ dst.length then dst.take off ++ c_str src else dst

/-- The code of the lowercase hexadecimal digit `d`, as `%x` prints it. -/
def hexDigit (d : Nat) : Nat := if d < 10 then 48 + d else 87 + d

/-- Hexadecimal digits of `n`, most significant first, no leading zero (`"0"` for zero). -/
def hexDigitsAux : Nat → Nat → List Nat
  | 0, _ => []
  | fuel + 1, n =>
    if n < 16 then [hexDigit n] else hexDigitsAux fuel (n / 16) ++ [hexDigit (n % 16)]

/-- The digits `%x` prints for `n`. -/
def hexDigits (n : Nat) : List Nat := hexDigitsAux (n + 1) n

/-- The conversion `%0<width>x` (also `%0<width>lx`): zero padding up to a minimum width. -/
def fmt_0x (width n : Nat) : List Nat :=
  List.replicate (width - (hexDigits n).length) 48 ++ hexDigits n

/-- The character `-`. -/
def hyphen : Nat := 45

/-- The codes of the characters of a string literal. -/
def lit (s : String) : List Nat := s.toList.map Char.toNat

/-! ## The DCE structure, byte order, and the three macros -/

/-- The structure `dce_uuid_t` (the system `uuid_t` on BSD). -/
structure dce_uuid_t where
  time_low : Nat
  time_mid : Nat
  time_hi_and_version : Nat
  clock_seq_hi_and_reserved : Nat
  clock_seq_low : Nat
  node : List Nat
deriving DecidableEq, Repr

/-- Reverse the two bytes of a 16-bit value. -/
def bswap16 (x : Nat) : Nat := (x % 256) * 256 + x / 256 % 256

/-- Reverse the four bytes of a 32-bit value. -/
def bswap32 (x : Nat) : Nat :=
  (x % 256) * 16777216 + (x / 256 % 256) * 65536 + (x / 65536 % 256) * 256 + x / 16777216 % 256

/-- `htonl` on a host that is little-endian (`le = true`) or big-endian. -/
def htonl (le : Bool) (x : Nat) : Nat := if le then bswap32 x else x

/-- `htons`. -/
def htons (le : Bool) (x : Nat) : Nat := if le then bswap16 x else x

/-- `ntohl`. -/
def ntohl (le : Bool) (x : Nat) : Nat := if le then bswap32 x else x

/-- `ntohs`. -/
def ntohs (le : Bool) (x : Nat) : Nat := if le then bswap16 x else x

/-- `UUID_TO_NETWORK(uu)` (same text in `uuid.c` and `uuid-ossp.h`). -/
def UUID_TO_NETWORK (le : Bool) (uu : dce_uuid_t) : dce_uuid_t :=
  { uu with
    time_low := htonl le uu.time_low
    time_mid := htons le uu.time_mid
    time_hi_and_version := htons le uu.time_hi_and_version }

/-- `UUID_TO_LOCAL(uu)` (same text in `uuid.c` and `uuid-ossp.h`). -/
def UUID_TO_LOCAL (le : Bool) (uu : dce_uuid_t) : dce_uuid_t :=
  { uu with
    time_low := ntohl le uu.time_low
    time_mid := ntohs le uu.time_mid
    time_hi_and_version := ntohs le uu.time_hi_and_version }

/-- `UUID_V3_OR_V5(uu, v)` (same text in `uuid.c` and `uuid-ossp.h`); the two fields are a
`uint16_t` and a `uint8_t`, so the stored values are reduced. -/
def UUID_V3_OR_V5 (uu : dce_uuid_t) (v : Nat) : dce_uuid_t :=
  { uu with
    time_hi_and_version := ((uu.time_hi_and_version &&& 0x0FFF) ||| (v <<< 12)) % 65536
    clock_seq_hi_and_reserved := ((uu.clock_seq_hi_and_reserved &&& 0x3F) ||| 0x80) % 256 }

/-- The `n` unsigned chars a routine writes through an `unsigned char *` destination. -/
def uchars : Nat → List Nat → List Nat
  | 0, _ => []
  | n + 1, l => l.headD 0 % 256 :: uchars n l.tail

/-- The integer held by two bytes of memory. -/
def load16 (le : Bool) (b0 b1 : Nat) : Nat := if le then b0 + 256 * b1 else 256 * b0 + b1

/-- The integer held by four bytes of memory. -/
def load32 (le : Bool) (b0 b1 b2 b3 : Nat) : Nat :=
  if le then b0 + 256 * b1 + 65536 * b2 + 16777216 * b3
  else 16777216 * b0 + 65536 * b1 + 256 * b2 + b3

/-- The two bytes of memory of a `uint16_t`. -/
def store16 (le : Bool) (x : Nat) : List Nat :=
  if le then [x % 256, x / 256 % 256] else [x / 256 % 256, x % 256]

/-- The four bytes of memory of a `uint32_t`. -/
def store32 (le : Bool) (x : Nat) : List Nat :=
  if le then [x % 256, x / 256 % 256, x / 65536 % 256, x / 16777216 % 256]
  else [x / 16777216 % 256, x / 65536 % 256, x / 256 % 256, x % 256]

/-- The structure found in 16 bytes of memory (what `(unsigned char *)&uu` was written to). -/
def of_mem (le : Bool) (m : List Nat) : dce_uuid_t :=
  { time_low := load32 le (m.getD 0 0) (m.getD 1 0) (m.getD 2 0) (m.getD 3 0)
    time_mid := load16 le (m.getD 4 0) (m.getD 5 0)
    time_hi_and_version := load16 le (m.getD 6 0) (m.getD 7 0)
    clock_seq_hi_and_reserved := m.getD 8 0
    clock_seq_low := m.getD 9 0
    node := (m.drop 10).take 6 }

/-- The 16 bytes of memory of a structure (what `(unsigned char *)&uu` reads). -/
def to_mem (le : Bool) (uu : dce_uuid_t) : List Nat :=
  store32 le uu.time_low ++ store16 le uu.time_mid ++ store16 le uu.time_hi_and_version
    ++ [uu.clock_seq_hi_and_reserved, uu.clock_seq_low] ++ uu.node

/-! ## Library routines -/

/-- `uuid_unparse` of libuuid: the 16 bytes in memory order, two lowercase hexadecimal digits
each, with hyphens after bytes 4, 6, 8 and 10. -/
def uuid_unparse (uu : List Nat) : List Nat :=
  fmt_0x 2 (uu.getD 0 0) ++ fmt_0x 2 (uu.getD 1 0) ++ fmt_0x 2 (uu.getD 2 0)
    ++ fmt_0x 2 (uu.getD 3 0) ++ [hyphen]
    ++ fmt_0x 2 (uu.getD 4 0) ++ fmt_0x 2 (uu.getD 5 0) ++ [hyphen]
    ++ fmt_0x 2 (uu.getD 6 0) ++ fmt_0x 2 (uu.getD 7 0) ++ [hyphen]
    ++ fmt_0x 2 (uu.getD 8 0) ++ fmt_0x 2 (uu.getD 9 0) ++ [hyphen]
    ++ fmt_0x 2 (uu.getD 10 0) ++ fmt_0x 2 (uu.getD 11 0) ++ fmt_0x 2 (uu.getD 12 0)
    ++ fmt_0x 2 (uu.getD 13 0) ++ fmt_0x 2 (uu.getD 14 0) ++ fmt_0x 2 (uu.getD 15 0)

/-- The text of the BSD `uuid_to_string`: the format
`%08x-%04x-%04x-%02x%02x-%02x%02x%02x%02x%02x%02x` on the fields as host integers. -/
def uuid_to_string_text (uu : dce_uuid_t) : List Nat :=
  fmt_0x 8 uu.time_low ++ [hyphen] ++ fmt_0x 4 uu.time_mid ++ [hyphen]
    ++ fmt_0x 4 uu.time_hi_and_version ++ [hyphen]
    ++ fmt_0x 2 uu.clock_seq_hi_and_reserved ++ fmt_0x 2 uu.clock_seq_low ++ [hyphen]
    ++ fmt_0x 2 (uu.node.getD 0 0) ++ fmt_0x 2 (uu.node.getD 1 0) ++ fmt_0x 2 (uu.node.getD 2 0)
    ++ fmt_0x 2 (uu.node.getD 3 0) ++ fmt_0x 2 (uu.node.getD 4 0) ++ fmt_0x 2 (uu.node.getD 5 0)

/-- The status `uuid_s_ok`. -/
def uuid_s_ok : Nat := 0

/-- The abnormal ends of a call: the errors raised by `ereport(ERROR, ...)`, and the events by
which the C code leaves defined behaviour, after which the run has no result. -/
inductive PgError where
  /-- `ERRCODE_EXTERNAL_ROUTINE_EXCEPTION`, "uuid library failure: %d". -/
  | external_routine_exception (status : Nat)
  /-- The parse failure of `uuid_in`. -/
  | malformed_uuid
  /-- The error kind `InvalidArgument` of the specification; no `ereport` of the two files
  raises it. -/
  | invalid_argument
  /-- Undefined behaviour: a read through a null pointer. -/
  | null_pointer_read
  /-- Undefined behaviour: a read of `excess` bytes past the end of a buffer. -/
  | out_of_bounds_read (excess : Nat)
  /-- Undefined behaviour: a write of `excess` bytes past the end of an object. -/
  | out_of_bounds_write (excess : Nat)
deriving DecidableEq, Repr

/-- The value of a hexadecimal digit character, either case. -/
def hexval (c : Nat) : Option Nat :=
  if 48 ≤ c ∧ c ≤ 57 then some (c - 48)
  else if 97 ≤ c ∧ c ≤ 102 then some (c - 87)
  else if 65 ≤ c ∧ c ≤ 70 then some (c - 55)
  else none

/-- Bytes from consecutive pairs of hexadecimal digits. -/
def parse_hex_pairs : List Nat → Option (List Nat)
  | [] => some []
  | [_] => none
  | a :: b :: rest =>
    match hexval a, hexval b, parse_hex_pairs rest with
    | some x, some y, some r => some ((x * 16 + y) :: r)
    | _, _, _ => none

/-- Modelled from the spec: `uuid_in`, the text parser of the host system, is not part of the
sources at hand. Per the specification of `fromText` it accepts exactly the texts of 36
characters with hyphens at indices 8, 13, 18, 23 and hexadecimal digits (either case) elsewhere,
yields their 16 bytes, and fails with `MalformedUuid` otherwise. -/
def uuid_in (s : List Nat) : Except PgError (List Nat) :=
  if s.length = 36 ∧ s.getD 8 0 = hyphen ∧ s.getD 13 0 = hyphen ∧ s.getD 18 0 = hyphen
      ∧ s.getD 23 0 = hyphen then
    match parse_hex_pairs (s.take 8 ++ (s.drop 9).take 4 ++ (s.drop 14).take 4
        ++ (s.drop 19).take 4 ++ s.drop 24) with
    | some bytes => Except.ok bytes
    | none => Except.error PgError.malformed_uuid
  else Except.error PgError.malformed_uuid

/-! ## The host, the random source and the clock -/

/-- The system UUID library the module is built against: `HAVE_BSD_UUID` / `HAVE_LINUX_UUID`
in `uuid.c`, `HAVE_UUID_BSD` / `HAVE_UUID_LINUX` in `uuid-ossp.c`. -/
inductive UuidLib where
  | bsd
  | linux
deriving DecidableEq, Repr

/-- What is fixed for a run: the build, the byte order of the host, the two hash functions
(from `md5.h` and `sha1.h`), and the status the BSD `uuid_to_string` reports. -/
structure Host where
  lib : UuidLib
  little_endian : Bool
  MD5 : List Nat → List Nat
  SHA1 : List Nat → List Nat
  to_string_status : Nat

/-- The random source and the clock: the values the next calls of `arc4random`,
`uuid_generate_random`, `uuid_create` and `uuid_generate_time` return, and how many calls of
each kind were made. -/
structure World where
  arc4 : Nat → Nat
  random_uuid : Nat → List Nat
  draws : Nat
  created : Nat → Nat × dce_uuid_t
  time_uuid : Nat → List Nat
  ticks : Nat

/-- `arc4random()`: a `uint32_t` from the random source. -/
def arc4random (w : World) : Nat × World :=
  (w.arc4 w.draws % 4294967296, { w with draws := w.draws + 1 })

/-- `uuid_generate_random(uu)` of libuuid: 16 bytes from the random source. -/
def uuid_generate_random (w : World) : List Nat × World :=
  (uchars 16 (w.random_uuid w.draws), { w with draws := w.draws + 1 })

/-- `uuid_generate_time(uu)` of libuuid: the 16 bytes of a time-based UUID. -/
def uuid_generate_time (w : World) : List Nat × World :=
  (uchars 16 (w.time_uuid w.ticks), { w with ticks := w.ticks + 1 })

/-- The values a `uuid_t` structure can hold. -/
def as_uuid_t (u : dce_uuid_t) : dce_uuid_t :=
  { time_low := u.time_low % 4294967296
    time_mid := u.time_mid % 65536
    time_hi_and_version := u.time_hi_and_version % 65536
    clock_seq_hi_and_reserved := u.clock_seq_hi_and_reserved % 256
    clock_seq_low := u.clock_seq_low % 256
    node := uchars 6 u.node }

/-- `uuid_create(&uu, &status)` of the BSD library: a status and a time-based UUID. -/
def uuid_create (w : World) : (Nat × dce_uuid_t) × World :=
  (((w.created w.ticks).1, as_uuid_t (w.created w.ticks).2), { w with ticks := w.ticks + 1 })

/-- `uuid_to_string(&uu, &str, &status)` of the BSD library: the allocated text (or `NULL`)
and the status. -/
def uuid_to_string (h : Host) (uu : dce_uuid_t) : Option (List Nat) × Nat :=
  if h.to_string_status = uuid_s_ok then (some (uuid_to_string_text uu), uuid_s_ok)
  else (none, h.to_string_status)

/-- `MD5Init` / `SHA1Init`: the context is the message fed so far. -/
def HashInit : List Nat := []

/-- The `len` bytes a routine reads through the pointer `p`: the first `len` bytes of the
buffer. Reading through a null pointer, or more bytes than the buffer holds, is undefined;
with `len = 0` no byte is read. -/
def read_bytes (p : Option (List Nat)) (len : Nat) : Except PgError (List Nat) :=
  match p with
  | none => if len = 0 then Except.ok [] else Except.error PgError.null_pointer_read
  | some b =>
    if len ≤ b.length then Except.ok (b.take len)
    else Except.error (PgError.out_of_bounds_read (len - b.length))

/-- `MD5Update(&ctx, data, len)` / `SHA1Update`: `len` more bytes of input, read through
`data`. -/
def HashUpdate (ctx : List Nat) (data : Option (List Nat)) (len : Nat) :
    Except PgError (List Nat) :=
  match read_bytes data len with
  | Except.ok bytes => Except.ok (ctx ++ bytes)
  | Except.error e => Except.error e

/-- `MD5Final(dst, &ctx)`: the 16 bytes written at `dst`. -/
def MD5Final (h : Host) (ctx : List Nat) : List Nat := uchars 16 (h.MD5 ctx)

/-- `SHA1Final(dst, &ctx)`: the 20 bytes written at `dst`. -/
def SHA1Final (h : Host) (ctx : List Nat) : List Nat := uchars 20 (h.SHA1 ctx)

/-- The memory of the local `dce_uuid_t uu` (`sizeof(uu)` is 16) after a routine has written
`data` at `(unsigned char *)&uu`. A write of more than 16 bytes runs past the end of `uu` into
the rest of the stack frame: undefined behaviour. -/
def write_uu (data : List Nat) : Except PgError (List Nat) :=
  if data.length ≤ 16 then Except.ok data
  else Except.error (PgError.out_of_bounds_write (data.length - 16))

/-- The hashing of `case 3` (same calls in both files): `MD5Init(&ctx)`,
`MD5Update(&ctx, ns, sizeof(uu))`, `MD5Update(&ctx, (unsigned char *)ptr, len)`,
`MD5Final((unsigned char *)&uu, &ctx)`; the memory of `uu` afterwards. -/
def md5_into_uu (h : Host) (ns ptr : Option (List Nat)) (len : Nat) : Except PgError (List Nat) :=
  let ctx := HashInit
  match HashUpdate ctx ns 16 with
  | Except.error e => Except.error e
  | Except.ok ctx =>
    match HashUpdate ctx ptr len with
    | Except.error e => Except.error e
    | Except.ok ctx => write_uu (MD5Final h ctx)

/-- The hashing of `case 5` (same calls in both files): `SHA1Init(&ctx)`,
`SHA1Update(&ctx, ns, sizeof(uu))`, `SHA1Update(&ctx, (unsigned char *)ptr, len)`,
`SHA1Final((unsigned char *)&uu, &ctx)`, which writes the 20 bytes of the digest at the
16-byte `uu`. -/
def sha1_into_uu (h : Host) (ns ptr : Option (List Nat)) (len : Nat) : Except PgError (List Nat) :=
  let ctx := HashInit
  match HashUpdate ctx ns 16 with
  | Except.error e => Except.error e
  | Except.ok ctx =>
    match HashUpdate ctx ptr len with
    | Except.error e => Except.error e
    | Except.ok ctx => write_uu (SHA1Final h ctx)

/-- The random-UUID text printed from six `arc4random` results by the format
`%08lx-%04x-%04x-%04x-%04x%08lx` (same call in both files). -/
def sprintf_v4 (r1 r2 r3 r4 r5 r6 : Nat) : List Nat :=
  fmt_0x 8 r1 ++ [hyphen] ++ fmt_0x 4 (r2 &&& 0xffff) ++ [hyphen]
    ++ fmt_0x 4 ((r3 &&& 0xfff) ||| 0x4000) ++ [hyphen]
    ++ fmt_0x 4 ((r4 &&& 0x3fff) ||| 0x8000) ++ [hyphen]
    ++ fmt_0x 4 (r5 &&& 0xffff) ++ fmt_0x 8 r6

/-- Six successive `arc4random()` results and the world after them; the arguments of the
`sprintf` call are taken to be evaluated from left to right. -/
def arc4random6 (w : World) : (Nat × Nat × Nat × Nat × Nat × Nat) × World :=
  let (r1, w1) := arc4random w
  let (r2, w2) := arc4random w1
  let (r3, w3) := arc4random w2
  let (r4, w4) := arc4random w3
  let (r5, w5) := arc4random w4
  let (r6, w6) := arc4random w5
  ((r1, r2, r3, r4, r5, r6), w6)

/-- The tail common to the name-based cases: on Linux `UUID_TO_LOCAL` and `uuid_unparse` of
the memory of the structure, otherwise `uuid_to_string`, `strlcpy(strbuf, str, 37)` on
success and `ereport` on failure. -/
def name_based_text (h : Host) (uu : dce_uuid_t) : Except PgError (List Nat) :=
  match h.lib with
  | UuidLib.linux => Except.ok (uuid_unparse (to_mem h.little_endian (UUID_TO_LOCAL h.little_endian uu)))
  | UuidLib.bsd =>
    match uuid_to_string h uu with
    | (str, status) =>
      if status = uuid_s_ok then
        match str with
        | some text => Except.ok (strlcpy text 37)
        | none => Except.error PgError.null_pointer_read
      else Except.error (PgError.external_routine_exception status)

/-- The time-based case on BSD (`case 1` under `HAVE_BSD_UUID` / `HAVE_UUID_BSD`, same text in
both files): `uuid_create`, `uuid_to_string`, `strlcpy(strbuf, str, 37)`, and when `ptr` is set
and `len <= 36`, `strcpy(strbuf + (36 - len), ptr)`. -/
def time_based_bsd (h : Host) (ptr : Option (List Nat)) (len : Nat) (w : World) :
    Except PgError (List Nat) × World :=
  match uuid_create w with
  | ((status, uu), w1) =>
    if status = uuid_s_ok then
      match uuid_to_string h uu with
      | (str, status2) =>
        if status2 = uuid_s_ok then
          match str with
          | none => (Except.error PgError.null_pointer_read, w1)
          | some text =>
            let strbuf := strlcpy text 37
            match ptr with
            | some p =>
              if len ≤ 36 then (Except.ok (strcpy_at strbuf (36 - len) p), w1)
              else (Except.ok strbuf, w1)
            | none => (Except.ok strbuf, w1)
        else (Except.error (PgError.external_routine_exception status2), w1)
    else (Except.error (PgError.external_routine_exception status), w1)

/-- The final step of both generators: `DirectFunctionCall1(uuid_in, CStringGetDatum(strbuf))`. -/
def call_uuid_in (r : Except PgError (List Nat) × World) : Except PgError (List Nat) × World :=
  match r with
  | (Except.ok strbuf, w) => (uuid_in strbuf, w)
  | (Except.error e, w) => (Except.error e, w)

/-! ## `contrib/uuid/uuid.c` -/

namespace UuidC

/-- The `switch` of `internal_uuid_create`: the text left in `strbuf`. -/
def internal_uuid_create_strbuf (h : Host) (v : Int) (ns ptr : Option (List Nat)) (len : Nat)
    (w : World) : Except PgError (List Nat) × World :=
  if v = 0 then
    match ptr with
    | some p => (Except.ok (strlcpy p 37), w)
    | none => (Except.error PgError.null_pointer_read, w)
  else if v = 1 then
    match h.lib with
    | UuidLib.bsd => time_based_bsd h ptr len w
    | UuidLib.linux =>
      match uuid_generate_time w with
      | (uu, w1) => (Except.ok (uuid_unparse uu), w1)
  else if v = -1 ∧ h.lib = UuidLib.linux then
    match uuid_generate_time w with
    | (ut, w1) =>
      match uuid_generate_random w1 with
      | (ur, w2) =>
        let strbuf := uuid_unparse ut
        let buf := uuid_unparse ur
        (Except.ok (strbuf.take 18 ++ strlcpy (buf.drop 18) 19), w2)
  else if v = 3 then
    match md5_into_uu h ns ptr len with
    | Except.error e => (Except.error e, w)
    | Except.ok mem =>
      let uu := of_mem h.little_endian mem
      let uu := UUID_TO_NETWORK h.little_endian uu
      let uu := UUID_V3_OR_V5 uu 3
      (name_based_text h uu, w)
  else if v = 5 then
    match sha1_into_uu h ns ptr len with
    | Except.error e => (Except.error e, w)
    | Except.ok mem =>
      let uu := of_mem h.little_endian mem
      let uu := UUID_TO_NETWORK h.little_endian uu
      let uu := UUID_V3_OR_V5 uu 5
      (name_based_text h uu, w)
  else
    match h.lib with
    | UuidLib.linux =>
      match uuid_generate_random w with
      | (uu, w1) => (Except.ok (uuid_unparse uu), w1)
    | UuidLib.bsd =>
      match arc4random6 w with
      | ((r1, r2, r3, r4, r5, r6), w6) => (Except.ok (sprintf_v4 r1 r2 r3 r4 r5 r6), w6)

/-- `internal_uuid_create(v, ns, ptr, len)`. -/
def internal_uuid_create (h : Host) (v : Int) (ns ptr : Option (List Nat)) (len : Nat)
    (w : World) : Except PgError (List Nat) × World :=
  call_uuid_in (internal_uuid_create_strbuf h v ns ptr len w)

/-- `uuid_nil`. -/
def uuid_nil (h : Host) (w : World) : Except PgError (List Nat) × World :=
  internal_uuid_create h 0 none (some (lit "00000000-0000-0000-0000-000000000000")) 36 w

/-- `uuid_ns_dns`. -/
def uuid_ns_dns (h : Host) (w : World) : Except PgError (List Nat) × World :=
  internal_uuid_create h 0 none (some (lit "6ba7b810-9dad-11d1-80b4-00c04fd430c8")) 36 w

/-- `uuid_ns_url`. -/
def uuid_ns_url (h : Host) (w : World) : Except PgError (List Nat) × World :=
  internal_uuid_create h 0 none (some (lit "6ba7b811-9dad-11d1-80b4-00c04fd430c8")) 36 w

/-- `uuid_ns_oid`. -/
def uuid_ns_oid (h : Host) (w : World) : Except PgError (List Nat) × World :=
  internal_uuid_create h 0 none (some (lit "6ba7b812-9dad-11d1-80b4-00c04fd430c8")) 36 w

/-- `uuid_ns_x500`. -/
def uuid_ns_x500 (h : Host) (w : World) : Except PgError (List Nat) × World :=
  internal_uuid_create h 0 none (some (lit "6ba7b814-9dad-11d1-80b4-00c04fd430c8")) 36 w

/-- `uuid_generate_v1`. -/
def uuid_generate_v1 (h : Host) (w : World) : Except PgError (List Nat) × World :=
  internal_uuid_create h 1 none none 0 w

/-- The buffer `buf` of `uuid_generate_v1mc` on BSD: `sprintf(buf, "-%04x-%04x%08lx", ...)`. -/
def v1mc_buf (r1 r2 r3 : Nat) : List Nat :=
  [hyphen] ++ fmt_0x 4 ((r1 &&& 0x3FFF) ||| 0x8000) ++ [hyphen]
    ++ fmt_0x 4 ((r2 &&& 0xffff) ||| 0x0300) ++ fmt_0x 8 r3

/-- The arguments `uuid_generate_v1mc` passes to `internal_uuid_create`. -/
def uuid_generate_v1mc_args (h : Host) (w : World) : (Int × Option (List Nat) × Nat) × World :=
  match h.lib with
  | UuidLib.bsd =>
    match arc4random w with
    | (r1, w1) =>
      match arc4random w1 with
      | (r2, w2) =>
        match arc4random w2 with
        | (r3, w3) => ((1, some (v1mc_buf r1 r2 r3), 18), w3)
  | UuidLib.linux => ((-1, none, 0), w)

/-- The text `uuid_generate_v1mc` hands to `uuid_in`. -/
def uuid_generate_v1mc_strbuf (h : Host) (w : World) : Except PgError (List Nat) × World :=
  match uuid_generate_v1mc_args h w with
  | ((v, ptr, len), w1) => internal_uuid_create_strbuf h v none ptr len w1

/-- `uuid_generate_v1mc`. -/
def uuid_generate_v1mc (h : Host) (w : World) : Except PgError (List Nat) × World :=
  match uuid_generate_v1mc_args h w with
  | ((v, ptr, len), w1) => internal_uuid_create h v none ptr len w1

/-- `uuid_generate_v3`: `ns` is the pointer `PG_GETARG_UUID_P(0)` to the 16 bytes of the
namespace datum, `name` the pointer `PG_GETARG_TEXT_P(1)` to the text datum. No test is made
on either; `VARSIZE(name)` and `VARDATA(name)` read the datum through `name`: the bytes of the
text, whose count is `VARSIZE(name) - VARHDRSZ`. -/
def uuid_generate_v3 (h : Host) (ns name : Option (List Nat)) (w : World) :
    Except PgError (List Nat) × World :=
  match name with
  | none => (Except.error PgError.null_pointer_read, w)
  | some data => internal_uuid_create h 3 ns (some data) data.length w

/-- `uuid_generate_v4`. -/
def uuid_generate_v4 (h : Host) (w : World) : Except PgError (List Nat) × World :=
  internal_uuid_create h 4 none none 0 w

/-- `uuid_generate_v5`, with the arguments of `uuid_generate_v3`. -/
def uuid_generate_v5 (h : Host) (ns name : Option (List Nat)) (w : World) :
    Except PgError (List Nat) × World :=
  match name with
  | none => (Except.error PgError.null_pointer_read, w)
  | some data => internal_uuid_create h 5 ns (some data) data.length w

end UuidC

/-! ## `contrib/uuid-ossp/uuid-ossp.c`, built without the OSSP library -/

namespace UuidOssp

/-- The `switch` of `uuid_generate_internal`: the text left in `strbuf`. -/
def uuid_generate_internal_strbuf (h : Host) (v : Int) (ns ptr : Option (List Nat)) (len : Nat)
    (w : World) : Except PgError (List Nat) × World :=
  if v = 0 then
    match ptr with
    | some p => (Except.ok (strlcpy p 37), w)
    | none => (Except.error PgError.null_pointer_read, w)
  else if v = 1 then
    match h.lib with
    | UuidLib.bsd => time_based_bsd h ptr len w
    | UuidLib.linux =>
      match uuid_generate_time w with
      | (uu, w1) =>
        let strbuf := uuid_unparse uu
        match ptr with
        | some p =>
          if len ≤ 36 then (Except.ok (strcpy_at strbuf (36 - len) p), w1)
          else (Except.ok strbuf, w1)
        | none => (Except.ok strbuf, w1)
  else if v = 3 ∨ v = 5 then
    match (if v = 3 then md5_into_uu h ns ptr len else sha1_into_uu h ns ptr len) with
    | Except.error e => (Except.error e, w)
    | Except.ok mem =>
      let uu := of_mem h.little_endian mem
      let uu := UUID_TO_NETWORK h.little_endian uu
      let uu := UUID_V3_OR_V5 uu v.toNat
      (name_based_text h uu, w)
  else
    match h.lib with
    | UuidLib.linux =>
      match uuid_generate_random w with
      | (uu, w1) => (Except.ok (uuid_unparse uu), w1)
    | UuidLib.bsd =>
      match arc4random6 w with
      | ((r1, r2, r3, r4, r5, r6), w6) => (Except.ok (sprintf_v4 r1 r2 r3 r4 r5 r6), w6)

/-- `uuid_generate_internal(v, ns, ptr, len)`. -/
def uuid_generate_internal (h : Host) (v : Int) (ns ptr : Option (List Nat)) (len : Nat)
    (w : World) : Except PgError (List Nat) × World :=
  call_uuid_in (uuid_generate_internal_strbuf h v ns ptr len w)

/-- `uuid_nil`. -/
def uuid_nil (h : Host) (w : World) : Except PgError (List Nat) × World :=
  uuid_generate_internal h 0 none (some (lit "00000000-0000-0000-0000-000000000000")) 36 w

/-- `uuid_ns_dns`. -/
def uuid_ns_dns (h : Host) (w : World) : Except PgError (List Nat) × World :=
  uuid_generate_internal h 0 none (some (lit "6ba7b810-9dad-11d1-80b4-00c04fd430c8")) 36 w

/-- `uuid_ns_url`. -/
def uuid_ns_url (h : Host) (w : World) : Except PgError (List Nat) × World :=
  uuid_generate_internal h 0 none (some (lit "6ba7b811-9dad-11d1-80b4-00c04fd430c8")) 36 w

/-- `uuid_ns_oid`. -/
def uuid_ns_oid (h : Host) (w : World) : Except PgError (List Nat) × World :=
  uuid_generate_internal h 0 none (some (lit "6ba7b812-9dad-11d1-80b4-00c04fd430c8")) 36 w

/-- `uuid_ns_x500`. -/
def uuid_ns_x500 (h : Host) (w : World) : Except PgError (List Nat) × World :=
  uuid_generate_internal h 0 none (some (lit "6ba7b814-9dad-11d1-80b4-00c04fd430c8")) 36 w

/-- `uuid_generate_v1`. -/
def uuid_generate_v1 (h : Host) (w : World) : Except PgError (List Nat) × World :=
  uuid_generate_internal h 1 none none 0 w

/-- The buffer `buf` of `uuid_generate_v1mc` on BSD: `sprintf(buf, "-%04x%08lx", ...)`. -/
def v1mc_buf (r1 r2 : Nat) : List Nat :=
  [hyphen] ++ fmt_0x 4 ((r1 &&& 0xffff) ||| 0x0300) ++ fmt_0x 8 r2

/-- The string `buf` that `uuid_generate_v1mc` passes with `len = 13`: on Linux
`strbuf + 24` after `uuid_generate_random` and `uuid_unparse`, on BSD the `sprintf` result. -/
def uuid_generate_v1mc_buf (h : Host) (w : World) : List Nat × World :=
  match h.lib with
  | UuidLib.linux =>
    match uuid_generate_random w with
    | (uu, w1) => ((uuid_unparse uu).drop 24, w1)
  | UuidLib.bsd =>
    match arc4random w with
    | (r1, w1) =>
      match arc4random w1 with
      | (r2, w2) => (v1mc_buf r1 r2, w2)

/-- The text `uuid_generate_v1mc` hands to `uuid_in`. -/
def uuid_generate_v1mc_strbuf (h : Host) (w : World) : Except PgError (List Nat) × World :=
  match uuid_generate_v1mc_buf h w with
  | (buf, w1) => uuid_generate_internal_strbuf h 1 none (some buf) 13 w1

/-- `uuid_generate_v1mc`. -/
def uuid_generate_v1mc (h : Host) (w : World) : Except PgError (List Nat) × World :=
  match uuid_generate_v1mc_buf h w with
  | (buf, w1) => uuid_generate_internal h 1 none (some buf) 13 w1

/-- `uuid_generate_v3` (non-OSSP branch): `ns` is the pointer `PG_GETARG_UUID_P(0)`, `name`
the pointer `PG_GETARG_TEXT_P(1)`; no test is made on either, and `VARSIZE(name)` and
`VARDATA(name)` read the text datum through `name`. -/
def uuid_generate_v3 (h : Host) (ns name : Option (List Nat)) (w : World) :
    Except PgError (List Nat) × World :=
  match name with
  | none => (Except.error PgError.null_pointer_read, w)
  | some data => uuid_generate_internal h 3 ns (some data) data.length w

/-- `uuid_generate_v4`. -/
def uuid_generate_v4 (h : Host) (w : World) : Except PgError (List Nat) × World :=
  uuid_generate_internal h 4 none none 0 w

/-- `uuid_generate_v5` (non-OSSP branch), with the arguments of `uuid_generate_v3`. -/
def uuid_generate_v5 (h : Host) (ns name : Option (List Nat)) (w : World) :
    Except PgError (List Nat) × World :=
  match name with
  | none => (Except.error PgError.null_pointer_read, w)
  | some data => uuid_generate_internal h 5 ns (some data) data.length w

end UuidOssp

/-! ## Observations on a 16-byte UUID value -/

/-- Bits 12-15 of `time_hi_and_version`: the high nibble of byte 6 in network order. -/
def version_of (u : List Nat) : Nat := u.getD 6 0 / 16

/-- Bits 6-7 of `clock_seq_hi_and_reserved`: the two high bits of byte 8. -/
def variant_of (u : List Nat) : Nat := u.getD 8 0 / 64

/-- Exactly `w` hexadecimal digits of `n`, most significant first. -/
def hex_fixed : Nat → Nat → List Nat
  | 0, _ => []
  | w + 1, n => hex_fixed w (n / 16) ++ [hexDigit (n % 16)]

/-- The bytes the specification gives a name-based UUID: the first 16 bytes of the digest `d`
with byte 6 replaced by `(d[6] & 0x0F) | (v << 4)` and byte 8 by `(d[8] & 0x3F) | 0x80`. -/
def patched_digest (v : Nat) (d : List Nat) : List Nat :=
  ((d.take 16).set 6 ((d.getD 6 0 &&& 0x0F) ||| (v <<< 4))).set 8 ((d.getD 8 0 &&& 0x3F) ||| 0x80)

/-- The library calls of the name-based path succeed: always on Linux, and on BSD when
`uuid_to_string` reports `uuid_s_ok`. -/
def to_string_ok (h : Host) : Prop := h.lib = UuidLib.linux ∨ h.to_string_status = uuid_s_ok

/-- The text of six fields printed as `%08x-%04x-%04x-%04x-%04x%08x`, each reduced to its
width: the common shape of every text the generators build. -/
def canon_fields (a b c d e f : Nat) : List Nat :=
  hex_fixed 8 a ++ [hyphen] ++ hex_fixed 4 b ++ [hyphen] ++ hex_fixed 4 c ++ [hyphen]
    ++ hex_fixed 4 d ++ [hyphen] ++ hex_fixed 4 e ++ hex_fixed 8 f

/-- The 16 bytes, in network order, of six fields of widths 4, 2, 2, 2, 2 and 4. -/
def canon_bytes (a b c d e f : Nat) : List Nat :=
  store32 false a ++ store16 false b ++ store16 false c ++ store16 false d ++ store16 false e
    ++ store32 false f

/-- The time-based UUID that libuuid's `uuid_generate_time` supplies next. -/
def next_time_uuid (w : World) : List Nat := uchars 16 (w.time_uuid w.ticks)

/-- The random UUID that libuuid's `uuid_generate_random` supplies next. -/
def next_random_uuid (w : World) : List Nat := uchars 16 (w.random_uuid w.draws)

/-- The time-based UUID that the BSD `uuid_create` supplies next. -/
def next_created (w : World) : dce_uuid_t := as_uuid_t (w.created w.ticks).2

/-- The value `arc4random` returns at its `i`-th next call. -/
def next_arc4 (w : World) (i : Nat) : Nat := w.arc4 (w.draws + i) % 4294967296

/-! ## Sample inputs -/

/-- A host for worked examples: the stand-in hash functions return bytes computed from the sum
of the message, the library calls succeed. -/
def sample_host (lib : UuidLib) (le : Bool) : Host :=
  { lib := lib
    little_endian := le
    MD5 := fun m => (List.range 16).map (fun i => (m.sum + 37 * i + 200) % 256)
    SHA1 := fun m => (List.range 20).map (fun i => (m.sum + 59 * i + 11) % 256)
    to_string_status := 0 }

/-- The bytes of the time-based UUID `6ba7b810-9dad-11d1-80b4-00c04fd430c8`. -/
def sample_time_bytes : List Nat :=
  [0x6b, 0xa7, 0xb8, 0x10, 0x9d, 0xad, 0x11, 0xd1, 0x80, 0xb4, 0x00, 0xc0, 0x4f, 0xd4, 0x30, 0xc8]

/-- The bytes of the random (version 4) UUID `3d5e9a01-7c2b-4f60-9a17-2c8e4b5d6f70`. -/
def sample_random_bytes : List Nat :=
  [0x3d, 0x5e, 0x9a, 0x01, 0x7c, 0x2b, 0x4f, 0x60, 0x9a, 0x17, 0x2c, 0x8e, 0x4b, 0x5d, 0x6f, 0x70]

/-- A world for worked examples: the system libraries return the sample time-based and random
UUIDs, `arc4random` returns multiples of a constant. -/
def sample_world : World :=
  { arc4 := fun i => 2654435761 * (i + 1)
    random_uuid := fun _ => sample_random_bytes
    draws := 0
    created := fun _ => (0, of_mem false sample_time_bytes)
    time_uuid := fun _ => sample_time_bytes
    ticks := 0 }

/-- Another world, with other values and other call counts. -/
def sample_world2 : World :=
  { arc4 := fun i => 40503 * i + 7
    random_uuid := fun i => List.replicate 16 (i + 1)
    draws := 5
    created := fun _ => (0, of_mem false (List.replicate 16 0x5a))
    time_uuid := fun _ => List.replicate 16 0x5a
    ticks := 9 }

/-- A world in which the next calls of `arc4random` return the values of a list in turn. -/
def world_with_arc4 (rs : List Nat) : World :=
  { sample_world with arc4 := (fun i => rs.getD i 0), draws := 0 }

/-- The multicast bit (0x01) and the local-administration bit (0x02) of the first node octet
(byte 10) are both set. -/
def node_is_local_multicast (u : List Nat) : Bool :=
  (u.getD 10 0).testBit 0 && (u.getD 10 0).testBit 1

/-- A hexadecimal digit character in lower case. -/
def is_lower_hex (c : Nat) : Bool := (48 ≤ c && c ≤ 57) || (97 ≤ c && c ≤ 102)

/-- The canonical text shape: 36 characters, hyphens exactly at indices 8, 13, 18 and 23,
lowercase hexadecimal digits at the other indices. -/
def canonical_text (s : List Nat) : Bool :=
  s.length == 36 &&
  (List.range 36).all (fun i =>
    if i = 8 ∨ i = 13 ∨ i = 18 ∨ i = 23 then s.getD i 0 == hyphen
    else is_lower_hex (s.getD i 0))

/-! # Properties -/

/-! ## Arithmetic of the masks -/

theorem and_0F (x : Nat) : x &&& 0x0F = x % 16 := Nat.and_pow_two_sub_one_eq_mod x 4

theorem and_3F (x : Nat) : x &&& 0x3F = x % 64 := Nat.and_pow_two_sub_one_eq_mod x 6

theorem and_0FFF (x : Nat) : x &&& 0x0FFF = x % 4096 := Nat.and_pow_two_sub_one_eq_mod x 12

theorem and_3FFF (x : Nat) : x &&& 0x3FFF = x % 16384 := Nat.and_pow_two_sub_one_eq_mod x 14

theorem and_FFFF (x : Nat) : x &&& 0xffff = x % 65536 := Nat.and_pow_two_sub_one_eq_mod x 16

/-- Or-ing bits above a small value adds them. -/
theorem or_shiftLeft_of_lt (lo k hi : Nat) (h : lo < 2 ^ k) :
    lo ||| (hi <<< k) = hi * 2 ^ k + lo := by
  rw [Nat.shiftLeft_eq, Nat.or_comm, Nat.mul_comm hi, ← Nat.mul_add_lt_is_or h]

theorem or_0x80 {x : Nat} (h : x < 128) : x ||| 0x80 = x + 128 := by
  have := or_shiftLeft_of_lt x 7 1 (by simpa using h)
  simpa [Nat.add_comm] using this

theorem or_0x4000 {x : Nat} (h : x < 16384) : x ||| 0x4000 = x + 16384 := by
  have := or_shiftLeft_of_lt x 14 1 (by simpa using h)
  simpa [Nat.add_comm] using this

theorem or_0x8000 {x : Nat} (h : x < 32768) : x ||| 0x8000 = x + 32768 := by
  have := or_shiftLeft_of_lt x 15 1 (by simpa using h)
  simpa [Nat.add_comm] using this

/-- The version patch on a network-order `time_hi_and_version` with high byte `a`, low byte `b`. -/
theorem patch_time_hi (a b v : Nat) (hb : b < 256) (hv : v < 16) :
    (((256 * a + b) &&& 0x0FFF) ||| (v <<< 12)) % 65536 = 256 * (a % 16 + 16 * v) + b := by
  rw [and_0FFF, or_shiftLeft_of_lt _ 12 v (by omega)]
  omega

/-- The patched byte 6 as the claim writes it. -/
theorem byte6_patch (a v : Nat) : (a &&& 0x0F) ||| (v <<< 4) = a % 16 + 16 * v := by
  rw [and_0F, or_shiftLeft_of_lt _ 4 v (by omega)]
  omega

/-- The variant patch on `clock_seq_hi_and_reserved`. -/
theorem patch_clock_seq (c : Nat) : ((c &&& 0x3F) ||| 0x80) % 256 = c % 64 + 128 := by
  rw [and_3F, or_0x80 (by omega)]
  omega

/-- The patched byte 8 as the claim writes it. -/
theorem byte8_patch (c : Nat) : (c &&& 0x3F) ||| 0x80 = c % 64 + 128 := by
  rw [and_3F, or_0x80 (by omega)]

/-! ## `%x` with a minimum width -/

theorem hex_fixed_length (w n : Nat) : (hex_fixed w n).length = w := by
  induction w generalizing n with
  | zero => rfl
  | succ w ih => simp [hex_fixed, ih]

theorem hex_fixed_zero (w : Nat) : hex_fixed w 0 = List.replicate w 48 := by
  induction w with
  | zero => rfl
  | succ w ih =>
    simp only [hex_fixed, Nat.zero_div, ih, Nat.zero_mod]
    rw [List.replicate_succ']
    rfl

theorem hexDigitsAux_pad (w : Nat) :
    ∀ fuel n, n < 16 ^ (w + 1) → n < fuel →
      List.replicate (w + 1 - (hexDigitsAux fuel n).length) 48 ++ hexDigitsAux fuel n
        = hex_fixed (w + 1) n := by
  induction w with
  | zero =>
    intro fuel n hn hf
    obtain ⟨f, rfl⟩ : ∃ f, fuel = f + 1 := ⟨fuel - 1, by omega⟩
    have h16 : n < 16 := by simpa using hn
    simp [hexDigitsAux, h16, hex_fixed, Nat.mod_eq_of_lt h16]
  | succ w ih =>
    intro fuel n hn hf
    obtain ⟨f, rfl⟩ : ∃ f, fuel = f + 1 := ⟨fuel - 1, by omega⟩
    by_cases h16 : n < 16
    · have hz : n / 16 = 0 := Nat.div_eq_of_lt h16
      have hex : hex_fixed (w + 1 + 1) n = hex_fixed (w + 1) (n / 16) ++ [hexDigit (n % 16)] := rfl
      rw [hex, hz, hex_fixed_zero, Nat.mod_eq_of_lt h16]
      simp [hexDigitsAux, h16]
    · have hlt : n / 16 < 16 ^ (w + 1) := by
        rw [Nat.div_lt_iff_lt_mul (by decide)]
        simpa [Nat.pow_succ] using hn
      have hfl : n / 16 < f := by omega
      have hex : hex_fixed (w + 1 + 1) n = hex_fixed (w + 1) (n / 16) ++ [hexDigit (n % 16)] := rfl
      rw [hex, ← ih f (n / 16) hlt hfl]
      simp [hexDigitsAux, h16]

/-- Within its width, `%0<w>x` prints exactly `w` digits. -/
theorem fmt_0x_eq_hex_fixed {w n : Nat} (hw : 0 < w) (hn : n < 16 ^ w) :
    fmt_0x w n = hex_fixed w n := by
  obtain ⟨k, rfl⟩ : ∃ k, w = k + 1 := ⟨w - 1, by omega⟩
  exact hexDigitsAux_pad k (n + 1) n hn (Nat.lt_succ_self n)

theorem fmt_0x_2 {b : Nat} (h : b < 256) : fmt_0x 2 b = [hexDigit (b / 16), hexDigit (b % 16)] := by
  rw [fmt_0x_eq_hex_fixed (by decide) (by simpa using h)]
  have : b / 16 % 16 = b / 16 := by omega
  simp [hex_fixed, this]

theorem fmt_0x_4 {a b : Nat} (ha : a < 256) (hb : b < 256) :
    fmt_0x 4 (256 * a + b) = fmt_0x 2 a ++ fmt_0x 2 b := by
  rw [fmt_0x_eq_hex_fixed (by decide) (by norm_num; omega), fmt_0x_2 ha, fmt_0x_2 hb]
  have h1 : (256 * a + b) / 16 / 16 / 16 % 16 = a / 16 := by omega
  have h2 : (256 * a + b) / 16 / 16 % 16 = a % 16 := by omega
  have h3 : (256 * a + b) / 16 % 16 = b / 16 := by omega
  have h4 : (256 * a + b) % 16 = b % 16 := by omega
  simp [hex_fixed, h1, h2, h3, h4]

theorem fmt_0x_8 {a b c d : Nat} (ha : a < 256) (hb : b < 256) (hc : c < 256) (hd : d < 256) :
    fmt_0x 8 (16777216 * a + 65536 * b + 256 * c + d)
      = fmt_0x 2 a ++ fmt_0x 2 b ++ fmt_0x 2 c ++ fmt_0x 2 d := by
  rw [fmt_0x_eq_hex_fixed (by decide) (by norm_num; omega), fmt_0x_2 ha, fmt_0x_2 hb,
    fmt_0x_2 hc, fmt_0x_2 hd]
  generalize hx : 16777216 * a + 65536 * b + 256 * c + d = x
  have h1 : x / 16 / 16 / 16 / 16 / 16 / 16 / 16 % 16 = a / 16 := by omega
  have h2 : x / 16 / 16 / 16 / 16 / 16 / 16 % 16 = a % 16 := by omega
  have h3 : x / 16 / 16 / 16 / 16 / 16 % 16 = b / 16 := by omega
  have h4 : x / 16 / 16 / 16 / 16 % 16 = b % 16 := by omega
  have h5 : x / 16 / 16 / 16 % 16 = c / 16 := by omega
  have h6 : x / 16 / 16 % 16 = c % 16 := by omega
  have h7 : x / 16 % 16 = d / 16 := by omega
  have h8 : x % 16 = d % 16 := by omega
  simp only [hex_fixed, h1, h2, h3, h4, h5, h6, h7, h8, List.nil_append, List.cons_append,
    List.append_assoc]

/-! ## Byte order -/

theorem htonl_load32 (le : Bool) {a b c d : Nat} (ha : a < 256) (hb : b < 256) (hc : c < 256)
    (hd : d < 256) :
    htonl le (load32 le a b c d) = 16777216 * a + 65536 * b + 256 * c + d := by
  cases le
  · simp [htonl, load32]
  · simp only [htonl, load32, bswap32, if_true]
    omega

theorem htons_load16 (le : Bool) {a b : Nat} (ha : a < 256) (hb : b < 256) :
    htons le (load16 le a b) = 256 * a + b := by
  cases le
  · simp [htons, load16]
  · simp only [htons, load16, bswap16, if_true]
    omega

theorem store32_ntohl (le : Bool) {a b c d : Nat} (ha : a < 256) (hb : b < 256) (hc : c < 256)
    (hd : d < 256) :
    store32 le (ntohl le (16777216 * a + 65536 * b + 256 * c + d)) = [a, b, c, d] := by
  generalize hx : 16777216 * a + 65536 * b + 256 * c + d = x
  have h1 : x % 256 = d := by omega
  have h2 : x / 256 % 256 = c := by omega
  have h3 : x / 65536 % 256 = b := by omega
  have h4 : x / 16777216 % 256 = a := by omega
  cases le
  · simp only [store32, ntohl, Bool.false_eq_true, if_false, h1, h2, h3, h4]
  · simp only [store32, ntohl, bswap32, if_true, h1, h2, h3, h4]
    clear h1 h2 h3 h4 hx x
    generalize hy : d * 16777216 + c * 65536 + b * 256 + a = y
    have g1 : y % 256 = a := by omega
    have g2 : y / 256 % 256 = b := by omega
    have g3 : y / 65536 % 256 = c := by omega
    have g4 : y / 16777216 % 256 = d := by omega
    rw [g1, g2, g3, g4]

theorem store16_ntohs (le : Bool) {a b : Nat} (ha : a < 256) (hb : b < 256) :
    store16 le (ntohs le (256 * a + b)) = [a, b] := by
  generalize hx : 256 * a + b = x
  have h1 : x % 256 = b := by omega
  have h2 : x / 256 % 256 = a := by omega
  cases le
  · simp only [store16, ntohs, Bool.false_eq_true, if_false, h1, h2]
  · simp only [store16, ntohs, bswap16, if_true, h1, h2]
    clear h1 h2 hx x
    generalize hy : b * 256 + a = y
    have g1 : y % 256 = a := by omega
    have g2 : y / 256 % 256 = b := by omega
    rw [g1, g2]

/-- A list of 16 elements, written out. -/
theorem list16_eq (d : List Nat) (h : d.length = 16) :
    d = [d.getD 0 0, d.getD 1 0, d.getD 2 0, d.getD 3 0, d.getD 4 0, d.getD 5 0, d.getD 6 0,
      d.getD 7 0, d.getD 8 0, d.getD 9 0, d.getD 10 0, d.getD 11 0, d.getD 12 0, d.getD 13 0,
      d.getD 14 0, d.getD 15 0] := by
  rcases d with _ | ⟨d0, _ | ⟨d1, _ | ⟨d2, _ | ⟨d3, _ | ⟨d4, _ | ⟨d5, _ | ⟨d6, _ | ⟨d7, _ | ⟨d8,
    _ | ⟨d9, _ | ⟨d10, _ | ⟨d11, _ | ⟨d12, _ | ⟨d13, _ | ⟨d14, _ | ⟨d15, _ | ⟨d16, t⟩⟩⟩⟩⟩⟩⟩⟩⟩⟩⟩⟩⟩⟩⟩⟩⟩
    <;> simp at h
  simp

theorem getD_lt_256 {d : List Nat} (h : ∀ b ∈ d, b < 256) (i : Nat) : d.getD i 0 < 256 := by
  by_cases hi : i < d.length
  · rw [List.getD_eq_getElem d 0 hi]
    exact h _ (List.getElem_mem hi)
  · rw [List.getD_eq_default d 0 (by omega)]
    decide

theorem uchars_length (n : Nat) (l : List Nat) : (uchars n l).length = n := by
  induction n generalizing l with
  | zero => rfl
  | succ n ih => simp [uchars, ih]

theorem uchars_lt (n : Nat) (l : List Nat) : ∀ b ∈ uchars n l, b < 256 := by
  induction n generalizing l with
  | zero => simp [uchars]
  | succ n ih =>
    intro b hb
    simp only [uchars, List.mem_cons] at hb
    rcases hb with rfl | hb
    · exact Nat.mod_lt _ (by decide)
    · exact ih _ b hb

/-- Writing bytes that already are `n` unsigned chars changes nothing. -/
theorem uchars_of_bytes (n : Nat) (l : List Nat) (hl : l.length = n) (hb : ∀ b ∈ l, b < 256) :
    uchars n l = l := by
  induction n generalizing l with
  | zero => simpa [uchars] using (List.length_eq_zero.mp hl).symm
  | succ n ih =>
    rcases l with _ | ⟨x, t⟩
    · simp at hl
    · have hx : x < 256 := hb x (List.mem_cons_self _ _)
      simp only [uchars, List.headD_cons, List.tail_cons, Nat.mod_eq_of_lt hx]
      rw [ih t (by simpa using hl) (fun b hb' => hb b (List.mem_cons_of_mem _ hb'))]

/-- Reading a longer buffer as 16 unsigned chars keeps its first 16. -/
theorem uchars_take (n m : Nat) (l : List Nat) (h : n ≤ m) : (uchars m l).take n = uchars n l := by
  induction n generalizing m l with
  | zero => simp [uchars]
  | succ n ih =>
    obtain ⟨k, rfl⟩ : ∃ k, m = k + 1 := ⟨m - 1, by omega⟩
    simp [uchars, ih k l.tail (by omega)]

theorem name_mem_explicit (le : Bool) (v d0 d1 d2 d3 d4 d5 d6 d7 d8 d9 d10 d11 d12 d13 d14 d15 : Nat)
    (h0 : d0 < 256) (h1 : d1 < 256) (h2 : d2 < 256) (h3 : d3 < 256) (h4 : d4 < 256)
    (h5 : d5 < 256) (h6 : d6 < 256) (h7 : d7 < 256) (hv : v < 16) :
    to_mem le (UUID_TO_LOCAL le (UUID_V3_OR_V5 (UUID_TO_NETWORK le
        (of_mem le [d0, d1, d2, d3, d4, d5, d6, d7, d8, d9, d10, d11, d12, d13, d14, d15])) v))
      = [d0, d1, d2, d3, d4, d5, d6 % 16 + 16 * v, d7, d8 % 64 + 128, d9, d10, d11, d12, d13,
          d14, d15] := by
  have hp : d6 % 16 + 16 * v < 256 := by omega
  simp only [of_mem, UUID_TO_NETWORK, UUID_V3_OR_V5, UUID_TO_LOCAL, to_mem, List.getD_cons_zero,
    List.getD_cons_succ, htonl_load32 le h0 h1 h2 h3, htons_load16 le h4 h5,
    htons_load16 le h6 h7, patch_time_hi d6 d7 v h7 hv, patch_clock_seq,
    store32_ntohl le h0 h1 h2 h3, store16_ntohs le h4 h5, store16_ntohs le hp h7]
  simp

/-! ## The canonical text of 16 bytes -/

theorem hexDigit_ne_zero (n : Nat) : hexDigit n ≠ 0 := by
  unfold hexDigit
  split <;> omega

theorem hexDigit_bne_zero (n : Nat) : (hexDigit n != 0) = true := by
  simpa using hexDigit_ne_zero n

theorem hexval_hexDigit {n : Nat} (h : n < 16) : hexval (hexDigit n) = some n := by
  unfold hexval hexDigit
  by_cases h10 : n < 10
  · have h1 : 48 ≤ 48 + n ∧ 48 + n ≤ 57 := by omega
    simp [h10, h1]
  · have h1 : ¬ (48 ≤ 87 + n ∧ 87 + n ≤ 57) := by omega
    have h2 : 97 ≤ 87 + n ∧ 87 + n ≤ 102 := by omega
    simp [h10, h1, h2]

theorem hexval_hexDigit_div {b : Nat} (h : b < 256) : hexval (hexDigit (b / 16)) = some (b / 16) :=
  hexval_hexDigit (by omega)

theorem hexval_hexDigit_mod (b : Nat) : hexval (hexDigit (b % 16)) = some (b % 16) :=
  hexval_hexDigit (Nat.mod_lt _ (by decide))

theorem is_lower_hex_hexDigit {n : Nat} (h : n < 16) : is_lower_hex (hexDigit n) = true := by
  unfold is_lower_hex hexDigit
  by_cases h10 : n < 10
  · simp [h10]; omega
  · simp [h10]; omega

theorem is_lower_hex_hexDigit_div {b : Nat} (h : b < 256) :
    is_lower_hex (hexDigit (b / 16)) = true :=
  is_lower_hex_hexDigit (by omega)

theorem is_lower_hex_hexDigit_mod (b : Nat) : is_lower_hex (hexDigit (b % 16)) = true :=
  is_lower_hex_hexDigit (Nat.mod_lt _ (by decide))

/-- A property of all 16-byte buffers follows from the property of the written-out ones. -/
theorem bytes16_cases (P : List Nat → Prop)
    (h : ∀ b0 b1 b2 b3 b4 b5 b6 b7 b8 b9 b10 b11 b12 b13 b14 b15 : Nat,
      b0 < 256 → b1 < 256 → b2 < 256 → b3 < 256 → b4 < 256 → b5 < 256 → b6 < 256 → b7 < 256 → b8 < 256 → b9 < 256 → b10 < 256 → b11 < 256 → b12 < 256 → b13 < 256 → b14 < 256 → b15 < 256 → P [b0, b1, b2, b3, b4, b5, b6, b7, b8, b9, b10, b11, b12, b13, b14, b15])
    (u : List Nat) (hl : u.length = 16) (hb : ∀ b ∈ u, b < 256) : P u := by
  rw [list16_eq u hl]
  exact h _ _ _ _ _ _ _ _ _ _ _ _ _ _ _ _ (getD_lt_256 hb 0) (getD_lt_256 hb 1)
    (getD_lt_256 hb 2) (getD_lt_256 hb 3) (getD_lt_256 hb 4) (getD_lt_256 hb 5)
    (getD_lt_256 hb 6) (getD_lt_256 hb 7) (getD_lt_256 hb 8) (getD_lt_256 hb 9)
    (getD_lt_256 hb 10) (getD_lt_256 hb 11) (getD_lt_256 hb 12) (getD_lt_256 hb 13)
    (getD_lt_256 hb 14) (getD_lt_256 hb 15)

/-- The 36 characters `uuid_unparse` prints for 16 bytes. -/
theorem uuid_unparse_explicit (b0 b1 b2 b3 b4 b5 b6 b7 b8 b9 b10 b11 b12 b13 b14 b15 : Nat)
    (h0 : b0 < 256) (h1 : b1 < 256) (h2 : b2 < 256) (h3 : b3 < 256) (h4 : b4 < 256)
    (h5 : b5 < 256) (h6 : b6 < 256) (h7 : b7 < 256) (h8 : b8 < 256) (h9 : b9 < 256)
    (h10 : b10 < 256) (h11 : b11 < 256) (h12 : b12 < 256) (h13 : b13 < 256) (h14 : b14 < 256)
    (h15 : b15 < 256) :
    uuid_unparse [b0, b1, b2, b3, b4, b5, b6, b7, b8, b9, b10, b11, b12, b13, b14, b15]
      = [hexDigit (b0 / 16), hexDigit (b0 % 16), hexDigit (b1 / 16), hexDigit (b1 % 16),
      hexDigit (b2 / 16), hexDigit (b2 % 16), hexDigit (b3 / 16), hexDigit (b3 % 16), hyphen,
      hexDigit (b4 / 16), hexDigit (b4 % 16), hexDigit (b5 / 16), hexDigit (b5 % 16), hyphen,
      hexDigit (b6 / 16), hexDigit (b6 % 16), hexDigit (b7 / 16), hexDigit (b7 % 16), hyphen,
      hexDigit (b8 / 16), hexDigit (b8 % 16), hexDigit (b9 / 16), hexDigit (b9 % 16), hyphen,
      hexDigit (b10 / 16), hexDigit (b10 % 16), hexDigit (b11 / 16), hexDigit (b11 % 16),
      hexDigit (b12 / 16), hexDigit (b12 % 16), hexDigit (b13 / 16), hexDigit (b13 % 16),
      hexDigit (b14 / 16), hexDigit (b14 % 16), hexDigit (b15 / 16), hexDigit (b15 % 16)] := by
  unfold uuid_unparse
  simp only [List.getD_cons_zero, List.getD_cons_succ]
  rw [fmt_0x_2 h0, fmt_0x_2 h1, fmt_0x_2 h2, fmt_0x_2 h3, fmt_0x_2 h4, fmt_0x_2 h5, fmt_0x_2 h6,
    fmt_0x_2 h7, fmt_0x_2 h8, fmt_0x_2 h9, fmt_0x_2 h10, fmt_0x_2 h11, fmt_0x_2 h12,
    fmt_0x_2 h13, fmt_0x_2 h14, fmt_0x_2 h15]
  simp only [List.cons_append, List.nil_append, List.append_assoc]

theorem uuid_unparse_length (u : List Nat) (hl : u.length = 16) (hb : ∀ b ∈ u, b < 256) :
    (uuid_unparse u).length = 36 := by
  refine bytes16_cases (fun u => (uuid_unparse u).length = 36) ?_ u hl hb
  intro b0 b1 b2 b3 b4 b5 b6 b7 b8 b9 b10 b11 b12 b13 b14 b15 h0 h1 h2 h3 h4 h5 h6 h7 h8 h9 h10 h11 h12 h13 h14 h15
  rw [uuid_unparse_explicit b0 b1 b2 b3 b4 b5 b6 b7 b8 b9 b10 b11 b12 b13 b14 b15 h0 h1 h2 h3 h4 h5 h6 h7 h8 h9 h10 h11 h12 h13 h14 h15]
  rfl

theorem uuid_unparse_c_str (u : List Nat) (hl : u.length = 16) (hb : ∀ b ∈ u, b < 256) :
    c_str (uuid_unparse u) = uuid_unparse u := by
  refine bytes16_cases (fun u => c_str (uuid_unparse u) = uuid_unparse u) ?_ u hl hb
  intro b0 b1 b2 b3 b4 b5 b6 b7 b8 b9 b10 b11 b12 b13 b14 b15 h0 h1 h2 h3 h4 h5 h6 h7 h8 h9 h10 h11 h12 h13 h14 h15
  rw [uuid_unparse_explicit b0 b1 b2 b3 b4 b5 b6 b7 b8 b9 b10 b11 b12 b13 b14 b15 h0 h1 h2 h3 h4 h5 h6 h7 h8 h9 h10 h11 h12 h13 h14 h15]
  simp only [c_str, List.takeWhile, hexDigit_bne_zero]
  rfl

theorem uuid_unparse_strlcpy (u : List Nat) (hl : u.length = 16) (hb : ∀ b ∈ u, b < 256) :
    strlcpy (uuid_unparse u) 37 = uuid_unparse u := by
  unfold strlcpy
  rw [uuid_unparse_c_str u hl hb, List.take_of_length_le]
  rw [uuid_unparse_length u hl hb]

theorem uuid_unparse_canonical (u : List Nat) (hl : u.length = 16) (hb : ∀ b ∈ u, b < 256) :
    canonical_text (uuid_unparse u) = true := by
  refine bytes16_cases (fun u => canonical_text (uuid_unparse u) = true) ?_ u hl hb
  intro b0 b1 b2 b3 b4 b5 b6 b7 b8 b9 b10 b11 b12 b13 b14 b15 h0 h1 h2 h3 h4 h5 h6 h7 h8 h9 h10 h11 h12 h13 h14 h15
  rw [uuid_unparse_explicit b0 b1 b2 b3 b4 b5 b6 b7 b8 b9 b10 b11 b12 b13 b14 b15 h0 h1 h2 h3 h4 h5 h6 h7 h8 h9 h10 h11 h12 h13 h14 h15]
  simp only [canonical_text, List.length_cons, List.length_nil, Nat.reduceAdd, beq_self_eq_true,
    Bool.true_and, List.all_eq_true, List.mem_range]
  intro i hi
  interval_cases i <;>
    simp [is_lower_hex_hexDigit_mod, is_lower_hex_hexDigit_div, h0, h1, h2, h3, h4, h5, h6, h7, h8, h9, h10, h11, h12, h13, h14, h15]

/-- Parsing the canonical text of 16 bytes gives the bytes back. -/
theorem uuid_in_unparse (u : List Nat) (hl : u.length = 16) (hb : ∀ b ∈ u, b < 256) :
    uuid_in (uuid_unparse u) = Except.ok u := by
  refine bytes16_cases (fun u => uuid_in (uuid_unparse u) = Except.ok u) ?_ u hl hb
  intro b0 b1 b2 b3 b4 b5 b6 b7 b8 b9 b10 b11 b12 b13 b14 b15 h0 h1 h2 h3 h4 h5 h6 h7 h8 h9 h10 h11 h12 h13 h14 h15
  have hdm : ∀ x : Nat, x / 16 * 16 + x % 16 = x := fun x => by omega
  rw [uuid_unparse_explicit b0 b1 b2 b3 b4 b5 b6 b7 b8 b9 b10 b11 b12 b13 b14 b15 h0 h1 h2 h3 h4 h5 h6 h7 h8 h9 h10 h11 h12 h13 h14 h15]
  simp [uuid_in, parse_hex_pairs, hexval_hexDigit_mod, hexval_hexDigit_div, h0, h1, h2, h3, h4, h5, h6, h7, h8, h9, h10, h11, h12, h13, h14, h15, hdm]


/-! ## The name-based text -/

theorem patched_digest_explicit (v d0 d1 d2 d3 d4 d5 d6 d7 d8 d9 d10 d11 d12 d13 d14 d15 : Nat) :
    patched_digest v [d0, d1, d2, d3, d4, d5, d6, d7, d8, d9, d10, d11, d12, d13, d14, d15]
      = [d0, d1, d2, d3, d4, d5, d6 % 16 + 16 * v, d7, d8 % 64 + 128, d9, d10, d11, d12, d13,
          d14, d15] := by
  simp only [patched_digest, List.getD_cons_zero, List.getD_cons_succ, byte6_patch, byte8_patch]
  rfl

theorem name_text_explicit (le : Bool) (v d0 d1 d2 d3 d4 d5 d6 d7 d8 d9 d10 d11 d12 d13 d14 d15 : Nat)
    (h0 : d0 < 256) (h1 : d1 < 256) (h2 : d2 < 256) (h3 : d3 < 256) (h4 : d4 < 256)
    (h5 : d5 < 256) (h6 : d6 < 256) (h7 : d7 < 256) (hv : v < 16) :
    uuid_to_string_text (UUID_V3_OR_V5 (UUID_TO_NETWORK le (of_mem le [d0, d1, d2, d3, d4, d5, d6, d7, d8, d9, d10, d11, d12, d13, d14, d15])) v)
      = uuid_unparse [d0, d1, d2, d3, d4, d5, d6 % 16 + 16 * v, d7, d8 % 64 + 128, d9, d10, d11, d12, d13,
          d14, d15] := by
  have hp : d6 % 16 + 16 * v < 256 := by omega
  simp only [of_mem, UUID_TO_NETWORK, UUID_V3_OR_V5, uuid_to_string_text, uuid_unparse,
    List.getD_cons_zero, List.getD_cons_succ, htonl_load32 le h0 h1 h2 h3, htons_load16 le h4 h5,
    htons_load16 le h6 h7, patch_time_hi d6 d7 v h7 hv, patch_clock_seq,
    fmt_0x_8 h0 h1 h2 h3, fmt_0x_4 h4 h5, fmt_0x_4 hp h7, List.drop_succ_cons, List.drop_zero,
    List.take_succ_cons, List.take_zero, List.append_assoc]

/-- On every host, the structure after `UUID_TO_NETWORK` and `UUID_V3_OR_V5` prints, on the
Linux path and on the BSD path alike, as the canonical text of the patched digest bytes. -/
theorem name_based_text_eq (h : Host) (d : List Nat) (hl : d.length = 16)
    (hb : ∀ b ∈ d, b < 256) (v : Nat) (hv : v < 16)
    (hok : h.lib = UuidLib.linux ∨ h.to_string_status = uuid_s_ok) :
    name_based_text h (UUID_V3_OR_V5 (UUID_TO_NETWORK h.little_endian (of_mem h.little_endian d)) v)
      = Except.ok (uuid_unparse (patched_digest v d)) := by
  revert hok
  refine bytes16_cases (fun d => (h.lib = UuidLib.linux ∨ h.to_string_status = uuid_s_ok) →
    name_based_text h (UUID_V3_OR_V5 (UUID_TO_NETWORK h.little_endian
      (of_mem h.little_endian d)) v) = Except.ok (uuid_unparse (patched_digest v d))) ?_ d hl hb
  intro d0 d1 d2 d3 d4 d5 d6 d7 d8 d9 d10 d11 d12 d13 d14 d15
    h0 h1 h2 h3 h4 h5 h6 h7 h8 h9 h10 h11 h12 h13 h14 h15 hok
  have hpl : ([d0, d1, d2, d3, d4, d5, d6 % 16 + 16 * v, d7, d8 % 64 + 128, d9, d10, d11, d12, d13,
          d14, d15]).length = 16 := rfl
  have hpb : ∀ b ∈ [d0, d1, d2, d3, d4, d5, d6 % 16 + 16 * v, d7, d8 % 64 + 128, d9, d10, d11, d12, d13,
          d14, d15], b < 256 := by
    intro b hb
    simp only [List.mem_cons, List.mem_singleton, List.not_mem_nil, or_false] at hb
    omega
  rw [patched_digest_explicit]
  unfold name_based_text
  cases hlib : h.lib with
  | linux =>
    simp only []
    rw [name_mem_explicit h.little_endian v d0 d1 d2 d3 d4 d5 d6 d7 d8 d9 d10 d11 d12 d13 d14 d15
      h0 h1 h2 h3 h4 h5 h6 h7 hv]
  | bsd =>
    have hs : h.to_string_status = uuid_s_ok := by
      rcases hok with hk | hk
      · rw [hlib] at hk; cases hk
      · exact hk
    simp only [uuid_to_string, hs, if_true, Option.getD_some]
    rw [name_text_explicit h.little_endian v d0 d1 d2 d3 d4 d5 d6 d7 d8 d9 d10 d11 d12 d13 d14 d15
      h0 h1 h2 h3 h4 h5 h6 h7 hv, uuid_unparse_strlcpy _ hpl hpb]

/-- When the BSD `uuid_to_string` reports a failure, the name-based path raises it. -/
theorem name_based_text_error (h : Host) (uu : dce_uuid_t) (hlib : h.lib = UuidLib.bsd)
    (hs : h.to_string_status ≠ uuid_s_ok) :
    name_based_text h uu
      = Except.error (PgError.external_routine_exception h.to_string_status) := by
  simp [name_based_text, hlib, uuid_to_string, hs]

theorem of_mem_take (le : Bool) (m : List Nat) : of_mem le (m.take 16) = of_mem le m := by
  simp [of_mem, List.getD_eq_getElem?_getD, List.getElem?_take, List.take_drop, List.take_take]

theorem patched_digest_take (v : Nat) (d : List Nat) :
    patched_digest v (d.take 16) = patched_digest v d := by
  simp [patched_digest, List.getD_eq_getElem?_getD, List.getElem?_take, List.take_take]

theorem patched_digest_length (v : Nat) (d : List Nat) (h : 16 ≤ d.length) :
    (patched_digest v d).length = 16 := by
  simp [patched_digest, h]

theorem patched_digest_lt (v : Nat) (d : List Nat) (hl : d.length = 16) (hb : ∀ b ∈ d, b < 256)
    (hv : v < 16) : ∀ b ∈ patched_digest v d, b < 256 := by
  revert hl hb
  intro hl hb
  refine bytes16_cases (fun d => ∀ b ∈ patched_digest v d, b < 256) ?_ d hl hb
  intro d0 d1 d2 d3 d4 d5 d6 d7 d8 d9 d10 d11 d12 d13 d14 d15
    h0 h1 h2 h3 h4 h5 h6 h7 h8 h9 h10 h11 h12 h13 h14 h15 b hb
  rw [patched_digest_explicit] at hb
  simp only [List.mem_cons, List.mem_singleton, List.not_mem_nil, or_false] at hb
  omega


/-! ## The hashing of the name-based cases -/

theorem MD5Final_length (h : Host) (ctx : List Nat) : (MD5Final h ctx).length = 16 :=
  uchars_length _ _

theorem MD5Final_lt (h : Host) (ctx : List Nat) : ∀ b ∈ MD5Final h ctx, b < 256 :=
  uchars_lt _ _

theorem SHA1Final_length (h : Host) (ctx : List Nat) : (SHA1Final h ctx).length = 20 :=
  uchars_length _ _

/-- A write of the MD5 digest fits `uu`. -/
theorem write_uu_MD5Final (h : Host) (ctx : List Nat) :
    write_uu (MD5Final h ctx) = Except.ok (MD5Final h ctx) := by
  simp [write_uu, MD5Final_length]

/-- A write of the SHA1 digest runs 4 bytes past the end of `uu`. -/
theorem write_uu_SHA1Final (h : Host) (ctx : List Nat) :
    write_uu (SHA1Final h ctx) = Except.error (PgError.out_of_bounds_write 4) := by
  simp [write_uu, SHA1Final_length]

/-- What a read through a pointer yields: bytes, or one of the two undefined reads. -/
theorem HashUpdate_cases (ctx : List Nat) (data : Option (List Nat)) (len : Nat) :
    (∃ c, HashUpdate ctx data len = Except.ok c) ∨
    HashUpdate ctx data len = Except.error PgError.null_pointer_read ∨
    ∃ n, HashUpdate ctx data len = Except.error (PgError.out_of_bounds_read n) := by
  cases data with
  | none =>
    by_cases hl : len = 0
    · subst hl
      exact Or.inl ⟨ctx ++ [], rfl⟩
    · have e : HashUpdate ctx none len = Except.error PgError.null_pointer_read := by
        simp [HashUpdate, read_bytes, hl]
      exact Or.inr (Or.inl e)
  | some b =>
    by_cases hl : len ≤ b.length
    · have e : HashUpdate ctx (some b) len = Except.ok (ctx ++ b.take len) := by
        simp [HashUpdate, read_bytes, hl]
      exact Or.inl ⟨_, e⟩
    · have e : HashUpdate ctx (some b) len
          = Except.error (PgError.out_of_bounds_read (len - b.length)) := by
        simp [HashUpdate, read_bytes, hl]
      exact Or.inr (Or.inr ⟨_, e⟩)

theorem HashUpdate_some (ctx p : List Nat) (len : Nat) (hlen : len ≤ p.length) :
    HashUpdate ctx (some p) len = Except.ok (ctx ++ p.take len) := by
  simp [HashUpdate, read_bytes, hlen]

/-- With a 16-byte namespace and at least `len` bytes of name in its buffer, the MD5 case
leaves the digest of `ns || ptr[0..len)` in `uu`. -/
theorem md5_into_uu_ok (h : Host) (ns p : List Nat) (len : Nat) (hns : ns.length = 16)
    (hlen : len ≤ p.length) :
    md5_into_uu h (some ns) (some p) len = Except.ok (MD5Final h (ns ++ p.take len)) := by
  have hnst : ns.take 16 = ns := List.take_of_length_le (by omega)
  unfold md5_into_uu
  simp only [HashInit, HashUpdate_some [] ns 16 (by omega), hnst, List.nil_append,
    HashUpdate_some ns p len hlen, write_uu_MD5Final]

/-- With the same arguments the SHA1 case writes 4 bytes past the end of `uu`. -/
theorem sha1_into_uu_overflow (h : Host) (ns p : List Nat) (len : Nat) (hns : ns.length = 16)
    (hlen : len ≤ p.length) :
    sha1_into_uu h (some ns) (some p) len = Except.error (PgError.out_of_bounds_write 4) := by
  have hnst : ns.take 16 = ns := List.take_of_length_le (by omega)
  unfold sha1_into_uu
  simp only [HashInit, HashUpdate_some [] ns 16 (by omega), hnst, List.nil_append,
    HashUpdate_some ns p len hlen, write_uu_SHA1Final]

/-- The MD5 case leaves 16 bytes in `uu`, unless a read through `ns` or `ptr` is undefined. -/
theorem md5_into_uu_cases (h : Host) (ns ptr : Option (List Nat)) (len : Nat) :
    (∃ d, md5_into_uu h ns ptr len = Except.ok d ∧ d.length = 16 ∧ ∀ b ∈ d, b < 256) ∨
    md5_into_uu h ns ptr len = Except.error PgError.null_pointer_read ∨
    ∃ n, md5_into_uu h ns ptr len = Except.error (PgError.out_of_bounds_read n) := by
  rcases HashUpdate_cases HashInit ns 16 with ⟨c, hc⟩ | hc | ⟨n, hc⟩
  · rcases HashUpdate_cases c ptr len with ⟨c2, hc2⟩ | hc2 | ⟨n, hc2⟩
    · have e : md5_into_uu h ns ptr len = Except.ok (MD5Final h c2) := by
        simp only [md5_into_uu, hc, hc2, write_uu_MD5Final]
      exact Or.inl ⟨_, e, MD5Final_length _ _, MD5Final_lt _ _⟩
    · have e : md5_into_uu h ns ptr len = Except.error PgError.null_pointer_read := by
        simp only [md5_into_uu, hc, hc2]
      exact Or.inr (Or.inl e)
    · have e : md5_into_uu h ns ptr len = Except.error (PgError.out_of_bounds_read n) := by
        simp only [md5_into_uu, hc, hc2]
      exact Or.inr (Or.inr ⟨n, e⟩)
  · have e : md5_into_uu h ns ptr len = Except.error PgError.null_pointer_read := by
      simp only [md5_into_uu, hc]
    exact Or.inr (Or.inl e)
  · have e : md5_into_uu h ns ptr len = Except.error (PgError.out_of_bounds_read n) := by
      simp only [md5_into_uu, hc]
    exact Or.inr (Or.inr ⟨n, e⟩)

/-- The SHA1 case never leaves a defined value in `uu`: a read through `ns` or `ptr` is
undefined, or else the write of the digest is. -/
theorem sha1_into_uu_cases (h : Host) (ns ptr : Option (List Nat)) (len : Nat) :
    sha1_into_uu h ns ptr len = Except.error (PgError.out_of_bounds_write 4) ∨
    sha1_into_uu h ns ptr len = Except.error PgError.null_pointer_read ∨
    ∃ n, sha1_into_uu h ns ptr len = Except.error (PgError.out_of_bounds_read n) := by
  rcases HashUpdate_cases HashInit ns 16 with ⟨c, hc⟩ | hc | ⟨n, hc⟩
  · rcases HashUpdate_cases c ptr len with ⟨c2, hc2⟩ | hc2 | ⟨n, hc2⟩
    · have e : sha1_into_uu h ns ptr len = Except.error (PgError.out_of_bounds_write 4) := by
        simp only [sha1_into_uu, hc, hc2, write_uu_SHA1Final]
      exact Or.inl e
    · have e : sha1_into_uu h ns ptr len = Except.error PgError.null_pointer_read := by
        simp only [sha1_into_uu, hc, hc2]
      exact Or.inr (Or.inl e)
    · have e : sha1_into_uu h ns ptr len = Except.error (PgError.out_of_bounds_read n) := by
        simp only [sha1_into_uu, hc, hc2]
      exact Or.inr (Or.inr ⟨n, e⟩)
  · have e : sha1_into_uu h ns ptr len = Except.error PgError.null_pointer_read := by
      simp only [sha1_into_uu, hc]
    exact Or.inr (Or.inl e)
  · have e : sha1_into_uu h ns ptr len = Except.error (PgError.out_of_bounds_read n) := by
      simp only [sha1_into_uu, hc]
    exact Or.inr (Or.inr ⟨n, e⟩)

/-- `case 3` of `internal_uuid_create` once the digest is in `uu`. -/
theorem uuidc_v3_of_ok (h : Host) (ns ptr : Option (List Nat)) (len : Nat) (w : World)
    (mem : List Nat) (hm : md5_into_uu h ns ptr len = Except.ok mem) :
    UuidC.internal_uuid_create_strbuf h 3 ns ptr len w
      = (name_based_text h (UUID_V3_OR_V5 (UUID_TO_NETWORK h.little_endian
          (of_mem h.little_endian mem)) 3), w) := by
  simp only [UuidC.internal_uuid_create_strbuf, hm,
    show ((3 : Int) = 0) = False from by decide, show ((3 : Int) = 1) = False from by decide,
    show ((3 : Int) = -1) = False from by decide, if_false, false_and, if_true]

/-- `case 3` of `internal_uuid_create` when the hashing leaves defined behaviour. -/
theorem uuidc_v3_of_error (h : Host) (ns ptr : Option (List Nat)) (len : Nat) (w : World)
    (e : PgError) (hm : md5_into_uu h ns ptr len = Except.error e) :
    UuidC.internal_uuid_create_strbuf h 3 ns ptr len w = (Except.error e, w) := by
  simp only [UuidC.internal_uuid_create_strbuf, hm,
    show ((3 : Int) = 0) = False from by decide, show ((3 : Int) = 1) = False from by decide,
    show ((3 : Int) = -1) = False from by decide, if_false, false_and, if_true]

/-- `case 5` of `internal_uuid_create` when the hashing leaves defined behaviour. -/
theorem uuidc_v5_of_error (h : Host) (ns ptr : Option (List Nat)) (len : Nat) (w : World)
    (e : PgError) (hm : sha1_into_uu h ns ptr len = Except.error e) :
    UuidC.internal_uuid_create_strbuf h 5 ns ptr len w = (Except.error e, w) := by
  simp only [UuidC.internal_uuid_create_strbuf, hm,
    show ((5 : Int) = 0) = False from by decide, show ((5 : Int) = 1) = False from by decide,
    show ((5 : Int) = -1) = False from by decide, show ((5 : Int) = 3) = False from by decide,
    if_false, false_and, if_true]

/-- The merged case of `uuid_generate_internal` with `v = 3` once the digest is in `uu`. -/
theorem ossp_v3_of_ok (h : Host) (ns ptr : Option (List Nat)) (len : Nat) (w : World)
    (mem : List Nat) (hm : md5_into_uu h ns ptr len = Except.ok mem) :
    UuidOssp.uuid_generate_internal_strbuf h 3 ns ptr len w
      = (name_based_text h (UUID_V3_OR_V5 (UUID_TO_NETWORK h.little_endian
          (of_mem h.little_endian mem)) 3), w) := by
  simp only [UuidOssp.uuid_generate_internal_strbuf, hm,
    show ((3 : Int) = 0) = False from by decide, show ((3 : Int) = 1) = False from by decide,
    if_false, true_or, if_true]
  rfl

/-- The merged case of `uuid_generate_internal` with `v = 5` when the hashing leaves defined
behaviour. -/
theorem ossp_v5_of_error (h : Host) (ns ptr : Option (List Nat)) (len : Nat) (w : World)
    (e : PgError) (hm : sha1_into_uu h ns ptr len = Except.error e) :
    UuidOssp.uuid_generate_internal_strbuf h 5 ns ptr len w = (Except.error e, w) := by
  simp only [UuidOssp.uuid_generate_internal_strbuf, hm,
    show ((5 : Int) = 0) = False from by decide, show ((5 : Int) = 1) = False from by decide,
    show ((5 : Int) = 3) = False from by decide, if_false, or_true, if_true]

/-- The parser returns the patched digest from its canonical text. -/
theorem uuid_in_patched (v : Nat) (hv : v < 16) (d : List Nat) (hl : d.length = 16)
    (hb : ∀ b ∈ d, b < 256) :
    uuid_in (uuid_unparse (patched_digest v d)) = Except.ok (patched_digest v d) :=
  uuid_in_unparse _ (patched_digest_length _ _ (by omega)) (patched_digest_lt _ _ hl hb hv)

/-- The V3 text of `internal_uuid_create`. -/
theorem uuidc_v3_strbuf (h : Host) (ns p : List Nat) (len : Nat) (w : World)
    (hns : ns.length = 16) (hlen : len ≤ p.length) (hok : to_string_ok h) :
    UuidC.internal_uuid_create_strbuf h 3 (some ns) (some p) len w
      = (Except.ok (uuid_unparse (patched_digest 3 (MD5Final h (ns ++ p.take len)))), w) := by
  rw [uuidc_v3_of_ok h _ _ len w _ (md5_into_uu_ok h ns p len hns hlen),
    name_based_text_eq h _ (MD5Final_length _ _) (MD5Final_lt _ _) 3 (by decide) hok]

/-- The V3 text of `uuid_generate_internal`. -/
theorem ossp_v3_strbuf (h : Host) (ns p : List Nat) (len : Nat) (w : World)
    (hns : ns.length = 16) (hlen : len ≤ p.length) (hok : to_string_ok h) :
    UuidOssp.uuid_generate_internal_strbuf h 3 (some ns) (some p) len w
      = (Except.ok (uuid_unparse (patched_digest 3 (MD5Final h (ns ++ p.take len)))), w) := by
  rw [ossp_v3_of_ok h _ _ len w _ (md5_into_uu_ok h ns p len hns hlen),
    name_based_text_eq h _ (MD5Final_length _ _) (MD5Final_lt _ _) 3 (by decide) hok]

/-- The V3 result of `internal_uuid_create`. -/
theorem uuidc_v3_result (h : Host) (ns p : List Nat) (len : Nat) (w : World)
    (hns : ns.length = 16) (hlen : len ≤ p.length) (hok : to_string_ok h) :
    UuidC.internal_uuid_create h 3 (some ns) (some p) len w
      = (Except.ok (patched_digest 3 (MD5Final h (ns ++ p.take len))), w) := by
  unfold UuidC.internal_uuid_create
  rw [uuidc_v3_strbuf h ns p len w hns hlen hok]
  simp only [call_uuid_in,
    uuid_in_patched 3 (by decide) _ (MD5Final_length _ _) (MD5Final_lt _ _)]

/-- The V3 result of `uuid_generate_internal`. -/
theorem ossp_v3_result (h : Host) (ns p : List Nat) (len : Nat) (w : World)
    (hns : ns.length = 16) (hlen : len ≤ p.length) (hok : to_string_ok h) :
    UuidOssp.uuid_generate_internal h 3 (some ns) (some p) len w
      = (Except.ok (patched_digest 3 (MD5Final h (ns ++ p.take len))), w) := by
  unfold UuidOssp.uuid_generate_internal
  rw [ossp_v3_strbuf h ns p len w hns hlen hok]
  simp only [call_uuid_in,
    uuid_in_patched 3 (by decide) _ (MD5Final_length _ _) (MD5Final_lt _ _)]

/-- A V5 call of `internal_uuid_create` with readable arguments ends in the write past `uu`. -/
theorem uuidc_v5_overflow (h : Host) (ns p : List Nat) (len : Nat) (w : World)
    (hns : ns.length = 16) (hlen : len ≤ p.length) :
    UuidC.internal_uuid_create_strbuf h 5 (some ns) (some p) len w
        = (Except.error (PgError.out_of_bounds_write 4), w) ∧
    UuidC.internal_uuid_create h 5 (some ns) (some p) len w
        = (Except.error (PgError.out_of_bounds_write 4), w) := by
  have key := uuidc_v5_of_error h (some ns) (some p) len w _ (sha1_into_uu_overflow h ns p len hns hlen)
  refine ⟨key, ?_⟩
  unfold UuidC.internal_uuid_create
  rw [key]
  rfl

/-- A V5 call of `uuid_generate_internal` with readable arguments ends in the write past
`uu`. -/
theorem ossp_v5_overflow (h : Host) (ns p : List Nat) (len : Nat) (w : World)
    (hns : ns.length = 16) (hlen : len ≤ p.length) :
    UuidOssp.uuid_generate_internal_strbuf h 5 (some ns) (some p) len w
        = (Except.error (PgError.out_of_bounds_write 4), w) ∧
    UuidOssp.uuid_generate_internal h 5 (some ns) (some p) len w
        = (Except.error (PgError.out_of_bounds_write 4), w) := by
  have key := ossp_v5_of_error h (some ns) (some p) len w _ (sha1_into_uu_overflow h ns p len hns hlen)
  refine ⟨key, ?_⟩
  unfold UuidOssp.uuid_generate_internal
  rw [key]
  rfl

/-! ## Name-based UUIDs -/

/-- The version nibble, the variant bits and the two marker characters of a patched digest. -/
theorem patched_digest_markers (v : Nat) (hv : v < 16) (d : List Nat) (hl : d.length = 16)
    (hb : ∀ b ∈ d, b < 256) :
    version_of (patched_digest v d) = v ∧ variant_of (patched_digest v d) = 2 ∧
      (uuid_unparse (patched_digest v d)).getD 14 0 = hexDigit v ∧
      (uuid_unparse (patched_digest v d)).getD 19 0 ∈ [56, 57, 97, 98] := by
  refine bytes16_cases (fun d => version_of (patched_digest v d) = v ∧
    variant_of (patched_digest v d) = 2 ∧
    (uuid_unparse (patched_digest v d)).getD 14 0 = hexDigit v ∧
    (uuid_unparse (patched_digest v d)).getD 19 0 ∈ [56, 57, 97, 98]) ?_ d hl hb
  intro d0 d1 d2 d3 d4 d5 d6 d7 d8 d9 d10 d11 d12 d13 d14 d15
    h0 h1 h2 h3 h4 h5 h6 h7 h8 h9 h10 h11 h12 h13 h14 h15
  have hp6 : d6 % 16 + 16 * v < 256 := by omega
  have hp8 : d8 % 64 + 128 < 256 := by omega
  rw [patched_digest_explicit, uuid_unparse_explicit _ _ _ _ _ _ _ _ _ _ _ _ _ _ _ _
    h0 h1 h2 h3 h4 h5 hp6 h7 hp8 h9 h10 h11 h12 h13 h14 h15]
  have e6 : (d6 % 16 + 16 * v) / 16 = v := by omega
  have e8 : (d8 % 64 + 128) / 64 = 2 := by omega
  refine ⟨by simp [version_of, e6], by simp [variant_of, e8], by simp [e6], ?_⟩
  have c8 : (d8 % 64 + 128) / 16 = 8 ∨ (d8 % 64 + 128) / 16 = 9 ∨ (d8 % 64 + 128) / 16 = 10 ∨
      (d8 % 64 + 128) / 16 = 11 := by omega
  rcases c8 with c | c | c | c <;> simp [c, hexDigit]


/-- The name-based text is the same on little-endian and big-endian hosts, also when the
library call fails. -/
theorem name_based_text_endian (h : Host) (d : List Nat) (hl : d.length = 16)
    (hb : ∀ b ∈ d, b < 256) (v : Nat) (hv : v < 16) (le : Bool) :
    name_based_text { h with little_endian := le }
        (UUID_V3_OR_V5 (UUID_TO_NETWORK le (of_mem le d)) v)
      = name_based_text { h with little_endian := false }
        (UUID_V3_OR_V5 (UUID_TO_NETWORK false (of_mem false d)) v) := by
  by_cases hok : h.lib = UuidLib.linux ∨ h.to_string_status = uuid_s_ok
  · rw [name_based_text_eq { h with little_endian := le } d hl hb v hv hok,
      name_based_text_eq { h with little_endian := false } d hl hb v hv hok]
  · have hlib : h.lib = UuidLib.bsd := by
      cases hk : h.lib with
      | bsd => rfl
      | linux => exact absurd (Or.inl hk) hok
    have hs : h.to_string_status ≠ uuid_s_ok := fun hk => hok (Or.inr hk)
    rw [name_based_text_error { h with little_endian := le } _ hlib hs,
      name_based_text_error { h with little_endian := false } _ hlib hs]

/-- The steps after the hashing, for any 16 bytes left in `uu`: the text printed is the
canonical text of the patched bytes, and the parser returns them. -/
theorem name_based_text_patched (h : Host) (v : Nat) (hv : v < 16) (d : List Nat)
    (hl : d.length = 16) (hb : ∀ b ∈ d, b < 256) (hok : to_string_ok h) :
    name_based_text h (UUID_V3_OR_V5 (UUID_TO_NETWORK h.little_endian
        (of_mem h.little_endian d)) v) = Except.ok (uuid_unparse (patched_digest v d)) ∧
    uuid_in (uuid_unparse (patched_digest v d)) = Except.ok (patched_digest v d) :=
  ⟨name_based_text_eq h d hl hb v hv hok, uuid_in_patched v hv d hl hb⟩

/-- C1: for every 16-byte namespace and every name, on every host (either byte order, any hash
functions) whose library calls succeed, the V3 UUID that `internal_uuid_create` (`uuid.c`) and
`uuid_generate_internal` (`uuid-ossp.c`) build has bits 12-15 of `time_hi_and_version` (high
nibble of byte 6, text index 14) equal to 3 and bits 6-7 of `clock_seq_hi_and_reserved`
(byte 8, text index 19) binary 10; for `v` in {3, 5} the steps after the hashing set version `v`
and variant 10 in whatever 16 bytes are in `uu`. A V5 call does not reach those steps:
`SHA1Final` writes the 20 bytes of the digest at the 16-byte `uu`, 4 bytes past its end, in
both files. -/
theorem name_based_version_variant (h : Host) (ns p : List Nat) (len : Nat) (w : World)
    (hns : ns.length = 16) (hlen : len ≤ p.length) (hok : to_string_ok h) :
    (∃ txt u,
      UuidC.internal_uuid_create_strbuf h 3 (some ns) (some p) len w = (Except.ok txt, w) ∧
      UuidOssp.uuid_generate_internal_strbuf h 3 (some ns) (some p) len w = (Except.ok txt, w) ∧
      UuidC.internal_uuid_create h 3 (some ns) (some p) len w = (Except.ok u, w) ∧
      UuidOssp.uuid_generate_internal h 3 (some ns) (some p) len w = (Except.ok u, w) ∧
      u.length = 16 ∧ version_of u = 3 ∧ variant_of u = 2 ∧
      txt.getD 14 0 = hexDigit 3 ∧ txt.getD 19 0 ∈ [56, 57, 97, 98]) ∧
    (∀ (v : Nat) (d : List Nat), v = 3 ∨ v = 5 → d.length = 16 → (∀ b ∈ d, b < 256) →
      ∃ txt u,
        name_based_text h (UUID_V3_OR_V5 (UUID_TO_NETWORK h.little_endian
          (of_mem h.little_endian d)) v) = Except.ok txt ∧
        uuid_in txt = Except.ok u ∧ u.length = 16 ∧ version_of u = v ∧ variant_of u = 2 ∧
        txt.getD 14 0 = hexDigit v ∧ txt.getD 19 0 ∈ [56, 57, 97, 98]) ∧
    UuidC.internal_uuid_create_strbuf h 5 (some ns) (some p) len w
      = (Except.error (PgError.out_of_bounds_write 4), w) ∧
    UuidOssp.uuid_generate_internal_strbuf h 5 (some ns) (some p) len w
      = (Except.error (PgError.out_of_bounds_write 4), w) ∧
    UuidC.internal_uuid_create h 5 (some ns) (some p) len w
      = (Except.error (PgError.out_of_bounds_write 4), w) ∧
    UuidOssp.uuid_generate_internal h 5 (some ns) (some p) len w
      = (Except.error (PgError.out_of_bounds_write 4), w) := by
  obtain ⟨m1, m2, m3, m4⟩ := patched_digest_markers 3 (by decide) (MD5Final h (ns ++ p.take len))
    (MD5Final_length _ _) (MD5Final_lt _ _)
  refine ⟨⟨_, _, uuidc_v3_strbuf h ns p len w hns hlen hok, ossp_v3_strbuf h ns p len w hns hlen hok,
    uuidc_v3_result h ns p len w hns hlen hok, ossp_v3_result h ns p len w hns hlen hok,
    patched_digest_length _ _ (by rw [MD5Final_length]), m1, m2, m3, m4⟩, ?_,
    (uuidc_v5_overflow h ns p len w hns hlen).1, (ossp_v5_overflow h ns p len w hns hlen).1,
    (uuidc_v5_overflow h ns p len w hns hlen).2, (ossp_v5_overflow h ns p len w hns hlen).2⟩
  intro v d hv hl hb
  have hv16 : v < 16 := by omega
  obtain ⟨k1, k2, k3, k4⟩ := patched_digest_markers v hv16 d hl hb
  exact ⟨_, _, (name_based_text_patched h v hv16 d hl hb hok).1,
    (name_based_text_patched h v hv16 d hl hb hok).2,
    patched_digest_length _ _ (by omega), k1, k2, k3, k4⟩

/-- C1 at a sample input: the name `www` in the sample namespace on a little-endian BSD
host. -/
theorem name_based_version_variant_witness :
    sample_time_bytes.length = 16 ∧ 3 ≤ [119, 119, 119].length ∧
    to_string_ok (sample_host UuidLib.bsd true) ∧
    (∃ txt u,
      UuidC.internal_uuid_create_strbuf (sample_host UuidLib.bsd true) 3
        (some sample_time_bytes) (some [119, 119, 119]) 3 sample_world
          = (Except.ok txt, sample_world) ∧
      UuidOssp.uuid_generate_internal_strbuf (sample_host UuidLib.bsd true) 3
        (some sample_time_bytes) (some [119, 119, 119]) 3 sample_world
          = (Except.ok txt, sample_world) ∧
      UuidC.internal_uuid_create (sample_host UuidLib.bsd true) 3
        (some sample_time_bytes) (some [119, 119, 119]) 3 sample_world
          = (Except.ok u, sample_world) ∧
      UuidOssp.uuid_generate_internal (sample_host UuidLib.bsd true) 3
        (some sample_time_bytes) (some [119, 119, 119]) 3 sample_world
          = (Except.ok u, sample_world) ∧
      u.length = 16 ∧ version_of u = 3 ∧ variant_of u = 2 ∧
      txt.getD 14 0 = hexDigit 3 ∧ txt.getD 19 0 ∈ [56, 57, 97, 98]) ∧
    UuidC.internal_uuid_create (sample_host UuidLib.bsd true) 5
        (some sample_time_bytes) (some [119, 119, 119]) 3 sample_world
      = (Except.error (PgError.out_of_bounds_write 4), sample_world) ∧
    UuidOssp.uuid_generate_internal (sample_host UuidLib.bsd true) 5
        (some sample_time_bytes) (some [119, 119, 119]) 3 sample_world
      = (Except.error (PgError.out_of_bounds_write 4), sample_world) :=
  ⟨rfl, by decide, Or.inr rfl,
    (name_based_version_variant (sample_host UuidLib.bsd true) sample_time_bytes
      [119, 119, 119] 3 sample_world rfl (by decide) (Or.inr rfl)).1,
    (name_based_version_variant (sample_host UuidLib.bsd true) sample_time_bytes
      [119, 119, 119] 3 sample_world rfl (by decide) (Or.inr rfl)).2.2.2.2.1,
    (name_based_version_variant (sample_host UuidLib.bsd true) sample_time_bytes
      [119, 119, 119] 3 sample_world rfl (by decide) (Or.inr rfl)).2.2.2.2.2⟩

/-- The bytes of a patched digest: all but bytes 6 and 8 are the digest's, and so are the low
nibble of byte 6 and the low six bits of byte 8. -/
theorem patched_digest_frame (v : Nat) (d : List Nat) (hl : 16 ≤ d.length) :
    (∀ i, i < 16 → i ≠ 6 → i ≠ 8 → (patched_digest v d).getD i 0 = d.getD i 0) ∧
    (patched_digest v d).getD 6 0 = (d.getD 6 0 &&& 0x0F) ||| (v <<< 4) ∧
    (patched_digest v d).getD 8 0 = (d.getD 8 0 &&& 0x3F) ||| 0x80 ∧
    (patched_digest v d).getD 6 0 % 16 = d.getD 6 0 % 16 ∧
    (patched_digest v d).getD 8 0 % 64 = d.getD 8 0 % 64 := by
  have e6 : (patched_digest v d).getD 6 0 = (d.getD 6 0 &&& 0x0F) ||| (v <<< 4) := by
    have h6 : 6 < d.length := by omega
    simp [patched_digest, List.getD_eq_getElem?_getD, List.getElem?_set, List.getElem?_take, h6]
  have e8 : (patched_digest v d).getD 8 0 = (d.getD 8 0 &&& 0x3F) ||| 0x80 := by
    have h8 : 8 < d.length := by omega
    simp [patched_digest, List.getD_eq_getElem?_getD, List.getElem?_set, List.getElem?_take, h8]
  refine ⟨?_, e6, e8, ?_, ?_⟩
  · intro i hi h6 h8
    have h6' : ¬ 6 = i := fun e => h6 e.symm
    have h8' : ¬ 8 = i := fun e => h8 e.symm
    simp [patched_digest, List.getD_eq_getElem?_getD, List.getElem?_set, List.getElem?_take, hi,
      h6', h8']
  · rw [e6, byte6_patch]
    omega
  · rw [e8, byte8_patch]
    omega

/-- C2: for a 16-byte namespace `ns` and a name of which `len` bytes are passed, with MD5 an
abstract function returning 16 bytes, the V3 result of `internal_uuid_create` is the digest `d`
of `ns || name[0..len)` with byte 6 replaced by `(d[6] & 0x0F) | (3 << 4)` and byte 8 by
`(d[8] & 0x3F) | 0x80`; every other byte, the low nibble of byte 6 and the low six bits of
byte 8 are those of the digest; the steps after the hashing do the same, for `v` in {3, 5}, to
whatever 16 bytes are in `uu`. A V5 call does not reach those steps: the 20 bytes of
`SHA1(ns || name[0..len))` are not truncated to 16 but written at the 16-byte `uu`, 4 bytes
past its end. -/
theorem name_based_bytes (h : Host) (ns p : List Nat) (len : Nat) (w : World)
    (hns : ns.length = 16) (hlen : len ≤ p.length)
    (hmd5 : (h.MD5 (ns ++ p.take len)).length = 16 ∧ ∀ b ∈ h.MD5 (ns ++ p.take len), b < 256)
    (hok : to_string_ok h) :
    (∃ u3,
      UuidC.internal_uuid_create h 3 (some ns) (some p) len w = (Except.ok u3, w) ∧
      u3 = patched_digest 3 (h.MD5 (ns ++ p.take len)) ∧
      (∀ i, i < 16 → i ≠ 6 → i ≠ 8 → u3.getD i 0 = (h.MD5 (ns ++ p.take len)).getD i 0) ∧
      u3.getD 6 0 = ((h.MD5 (ns ++ p.take len)).getD 6 0 &&& 0x0F) ||| (3 <<< 4) ∧
      u3.getD 8 0 = ((h.MD5 (ns ++ p.take len)).getD 8 0 &&& 0x3F) ||| 0x80 ∧
      u3.getD 6 0 % 16 = (h.MD5 (ns ++ p.take len)).getD 6 0 % 16 ∧
      u3.getD 8 0 % 64 = (h.MD5 (ns ++ p.take len)).getD 8 0 % 64) ∧
    (∀ (v : Nat) (d : List Nat), v = 3 ∨ v = 5 → d.length = 16 → (∀ b ∈ d, b < 256) →
      name_based_text h (UUID_V3_OR_V5 (UUID_TO_NETWORK h.little_endian
          (of_mem h.little_endian d)) v) = Except.ok (uuid_unparse (patched_digest v d)) ∧
      uuid_in (uuid_unparse (patched_digest v d)) = Except.ok (patched_digest v d)) ∧
    sha1_into_uu h (some ns) (some p) len = Except.error (PgError.out_of_bounds_write 4) ∧
    UuidC.internal_uuid_create h 5 (some ns) (some p) len w
      = (Except.error (PgError.out_of_bounds_write 4), w) := by
  have e3 : MD5Final h (ns ++ p.take len) = h.MD5 (ns ++ p.take len) :=
    uchars_of_bytes 16 _ hmd5.1 hmd5.2
  have r3 := uuidc_v3_result h ns p len w hns hlen hok
  rw [e3] at r3
  obtain ⟨f1, f2, f3, f4, f5⟩ := patched_digest_frame 3 (h.MD5 (ns ++ p.take len))
    (by rw [hmd5.1])
  refine ⟨⟨_, r3, rfl, f1, f2, f3, f4, f5⟩, ?_, sha1_into_uu_overflow h ns p len hns hlen,
    (uuidc_v5_overflow h ns p len w hns hlen).2⟩
  intro v d hv hl hb
  exact name_based_text_patched h v (by omega) d hl hb hok

/-- C2 at a sample input: the name `www` in the sample namespace. -/
theorem name_based_bytes_witness :
    sample_time_bytes.length = 16 ∧ 3 ≤ [119, 119, 119].length ∧
    ((sample_host UuidLib.linux true).MD5 (sample_time_bytes ++ [119, 119, 119].take 3)).length = 16 ∧
    to_string_ok (sample_host UuidLib.linux true) ∧
    (∃ u3,
      UuidC.internal_uuid_create (sample_host UuidLib.linux true) 3 (some sample_time_bytes)
        (some [119, 119, 119]) 3 sample_world = (Except.ok u3, sample_world) ∧
      u3 = patched_digest 3
        ((sample_host UuidLib.linux true).MD5 (sample_time_bytes ++ [119, 119, 119].take 3))) ∧
    UuidC.internal_uuid_create (sample_host UuidLib.linux true) 5 (some sample_time_bytes)
        (some [119, 119, 119]) 3 sample_world
      = (Except.error (PgError.out_of_bounds_write 4), sample_world) := by
  have hm : ((sample_host UuidLib.linux true).MD5 (sample_time_bytes ++ [119, 119, 119].take 3)).length
      = 16 ∧ ∀ b ∈ (sample_host UuidLib.linux true).MD5 (sample_time_bytes ++ [119, 119, 119].take 3),
        b < 256 := by decide
  obtain ⟨⟨u3, r3, e3, _⟩, _, _, r5⟩ := name_based_bytes (sample_host UuidLib.linux true)
    sample_time_bytes [119, 119, 119] 3 sample_world rfl (by decide) hm (Or.inl rfl)
  exact ⟨rfl, by decide, hm.1, Or.inl rfl, ⟨u3, r3, e3⟩, r5⟩

theorem name_mem_eq (le : Bool) (d : List Nat) (hl : d.length = 16) (hb : ∀ b ∈ d, b < 256)
    (v : Nat) (hv : v < 16) :
    to_mem le (UUID_TO_LOCAL le (UUID_V3_OR_V5 (UUID_TO_NETWORK le (of_mem le d)) v))
      = patched_digest v d := by
  refine bytes16_cases (fun d => to_mem le (UUID_TO_LOCAL le (UUID_V3_OR_V5 (UUID_TO_NETWORK le
    (of_mem le d)) v)) = patched_digest v d) ?_ d hl hb
  intro d0 d1 d2 d3 d4 d5 d6 d7 d8 d9 d10 d11 d12 d13 d14 d15
    h0 h1 h2 h3 h4 h5 h6 h7 h8 h9 h10 h11 h12 h13 h14 h15
  rw [patched_digest_explicit, name_mem_explicit le v d0 d1 d2 d3 d4 d5 d6 d7 d8 d9 d10 d11 d12 d13
    d14 d15 h0 h1 h2 h3 h4 h5 h6 h7 hv]

theorem name_text_eq (le : Bool) (d : List Nat) (hl : d.length = 16) (hb : ∀ b ∈ d, b < 256)
    (v : Nat) (hv : v < 16) :
    uuid_to_string_text (UUID_V3_OR_V5 (UUID_TO_NETWORK le (of_mem le d)) v)
      = uuid_unparse (patched_digest v d) := by
  refine bytes16_cases (fun d => uuid_to_string_text (UUID_V3_OR_V5 (UUID_TO_NETWORK le
    (of_mem le d)) v) = uuid_unparse (patched_digest v d)) ?_ d hl hb
  intro d0 d1 d2 d3 d4 d5 d6 d7 d8 d9 d10 d11 d12 d13 d14 d15
    h0 h1 h2 h3 h4 h5 h6 h7 h8 h9 h10 h11 h12 h13 h14 h15
  rw [patched_digest_explicit, name_text_explicit le v d0 d1 d2 d3 d4 d5 d6 d7 d8 d9 d10 d11 d12 d13
    d14 d15 h0 h1 h2 h3 h4 h5 h6 h7 hv]

/-- The name-based cases of `internal_uuid_create` do the same on a little-endian and on a
big-endian host, whatever the arguments. -/
theorem uuidc_name_endian (h : Host) (v : Int) (hv : v = 3 ∨ v = 5) (ns ptr : Option (List Nat))
    (len : Nat) (w : World) :
    UuidC.internal_uuid_create_strbuf { h with little_endian := true } v ns ptr len w
      = UuidC.internal_uuid_create_strbuf { h with little_endian := false } v ns ptr len w := by
  rcases hv with rfl | rfl
  · have hd : md5_into_uu { h with little_endian := true } ns ptr len
        = md5_into_uu { h with little_endian := false } ns ptr len := rfl
    rcases md5_into_uu_cases { h with little_endian := false } ns ptr len with
      ⟨d, hd2, hl2, hb2⟩ | he | ⟨n, he⟩
    · rw [uuidc_v3_of_ok _ ns ptr len w d (hd.trans hd2), uuidc_v3_of_ok _ ns ptr len w d hd2]
      exact congrArg (fun x => (x, w)) (name_based_text_endian h d hl2 hb2 3 (by decide) true)
    · rw [uuidc_v3_of_error _ ns ptr len w _ (hd.trans he), uuidc_v3_of_error _ ns ptr len w _ he]
    · rw [uuidc_v3_of_error _ ns ptr len w _ (hd.trans he), uuidc_v3_of_error _ ns ptr len w _ he]
  · have hd : sha1_into_uu { h with little_endian := true } ns ptr len
        = sha1_into_uu { h with little_endian := false } ns ptr len := rfl
    rcases sha1_into_uu_cases { h with little_endian := false } ns ptr len with
      he | he | ⟨n, he⟩
    · rw [uuidc_v5_of_error _ ns ptr len w _ (hd.trans he), uuidc_v5_of_error _ ns ptr len w _ he]
    · rw [uuidc_v5_of_error _ ns ptr len w _ (hd.trans he), uuidc_v5_of_error _ ns ptr len w _ he]
    · rw [uuidc_v5_of_error _ ns ptr len w _ (hd.trans he), uuidc_v5_of_error _ ns ptr len w _ he]

/-- C3: for every 16-byte digest and `v` in {3, 5}, the text produced on a little-endian host
(`htonl`, `htons`, `ntohl`, `ntohs` swap bytes) equals the text produced on a big-endian host
(they are identities): on the Linux path (`UUID_TO_NETWORK`, patch, `UUID_TO_LOCAL`,
`uuid_unparse` of the memory), on the BSD path (`UUID_TO_NETWORK`, patch, `uuid_to_string` of
the fields), and so for `internal_uuid_create` and `uuid_generate_internal` as a whole. -/
theorem name_based_endianness (h : Host) (v : Int) (hv : v = 3 ∨ v = 5) (d : List Nat)
    (hl : d.length = 16) (hb : ∀ b ∈ d, b < 256) :
    uuid_unparse (to_mem true (UUID_TO_LOCAL true
        (UUID_V3_OR_V5 (UUID_TO_NETWORK true (of_mem true d)) v.toNat)))
      = uuid_unparse (to_mem false (UUID_TO_LOCAL false
        (UUID_V3_OR_V5 (UUID_TO_NETWORK false (of_mem false d)) v.toNat))) ∧
    uuid_to_string_text (UUID_V3_OR_V5 (UUID_TO_NETWORK true (of_mem true d)) v.toNat)
      = uuid_to_string_text (UUID_V3_OR_V5 (UUID_TO_NETWORK false (of_mem false d)) v.toNat) ∧
    (∀ (ns ptr : Option (List Nat)) (len : Nat) (w : World),
      UuidC.internal_uuid_create_strbuf { h with little_endian := true } v ns ptr len w
        = UuidC.internal_uuid_create_strbuf { h with little_endian := false } v ns ptr len w ∧
      UuidC.internal_uuid_create { h with little_endian := true } v ns ptr len w
        = UuidC.internal_uuid_create { h with little_endian := false } v ns ptr len w) := by
  have hv16 : v.toNat < 16 := by rcases hv with rfl | rfl <;> decide
  refine ⟨?_, ?_, ?_⟩
  · rw [name_mem_eq true d hl hb _ hv16, name_mem_eq false d hl hb _ hv16]
  · rw [name_text_eq true d hl hb _ hv16, name_text_eq false d hl hb _ hv16]
  · intro ns ptr len w
    have key := uuidc_name_endian h v hv ns ptr len w
    exact ⟨key, by unfold UuidC.internal_uuid_create; rw [key]⟩

/-- C3 at a sample input: the digest `00 01 .. 0f` and version 3. -/
theorem name_based_endianness_witness :
    ((3 : Int) = 3 ∨ (3 : Int) = 5) ∧ (List.range 16).length = 16 ∧
    (∀ b ∈ List.range 16, b < 256) ∧
    uuid_unparse (to_mem true (UUID_TO_LOCAL true
        (UUID_V3_OR_V5 (UUID_TO_NETWORK true (of_mem true (List.range 16))) (3 : Int).toNat)))
      = uuid_unparse (to_mem false (UUID_TO_LOCAL false
        (UUID_V3_OR_V5 (UUID_TO_NETWORK false (of_mem false (List.range 16))) (3 : Int).toNat))) :=
  ⟨Or.inl rfl, rfl, by decide,
    (name_based_endianness (sample_host UuidLib.linux true) 3 (Or.inl rfl) (List.range 16) rfl
      (by decide)).1⟩

/-- Two patched digests of versions 3 and 5 differ, and so do their texts. -/
theorem patched_3_ne_5 (d3 d5 : List Nat) (hl3 : d3.length = 16) (hb3 : ∀ b ∈ d3, b < 256)
    (hl5 : d5.length = 16) (hb5 : ∀ b ∈ d5, b < 256) :
    patched_digest 3 d3 ≠ patched_digest 5 d5 ∧
    uuid_unparse (patched_digest 3 d3) ≠ uuid_unparse (patched_digest 5 d5) := by
  obtain ⟨m3, _, t3, _⟩ := patched_digest_markers 3 (by decide) d3 hl3 hb3
  obtain ⟨m5, _, t5, _⟩ := patched_digest_markers 5 (by decide) d5 hl5 hb5
  constructor
  · intro heq
    rw [heq, m5] at m3
    exact absurd m3 (by decide)
  · intro heq
    rw [heq, t5] at t3
    exact absurd t3 (by decide)

/-- C4: for every 16-byte namespace and every name, on every host whose library calls succeed,
the V3 call returns a UUID of version 3, the same in both files, and the steps after the
hashing turn any two digests into different UUIDs for versions 3 and 5, also when the digests
coincide. But there is no V5 result to compare with: a V5 call ends in the write of the
20-byte SHA1 digest at the 16-byte `uu`, in both files. -/
theorem v3_v5_differ (h : Host) (ns p : List Nat) (len : Nat) (w : World)
    (hns : ns.length = 16) (hlen : len ≤ p.length) (hok : to_string_ok h) :
    (∃ u3,
      UuidC.internal_uuid_create h 3 (some ns) (some p) len w = (Except.ok u3, w) ∧
      UuidOssp.uuid_generate_internal h 3 (some ns) (some p) len w = (Except.ok u3, w) ∧
      version_of u3 = 3) ∧
    (∀ d3 d5 : List Nat, d3.length = 16 → (∀ b ∈ d3, b < 256) → d5.length = 16 →
      (∀ b ∈ d5, b < 256) →
      ∃ t3 t5 u3 u5,
        name_based_text h (UUID_V3_OR_V5 (UUID_TO_NETWORK h.little_endian
          (of_mem h.little_endian d3)) 3) = Except.ok t3 ∧
        name_based_text h (UUID_V3_OR_V5 (UUID_TO_NETWORK h.little_endian
          (of_mem h.little_endian d5)) 5) = Except.ok t5 ∧
        uuid_in t3 = Except.ok u3 ∧ uuid_in t5 = Except.ok u5 ∧ t3 ≠ t5 ∧ u3 ≠ u5) ∧
    UuidC.internal_uuid_create h 5 (some ns) (some p) len w
      = (Except.error (PgError.out_of_bounds_write 4), w) ∧
    UuidOssp.uuid_generate_internal h 5 (some ns) (some p) len w
      = (Except.error (PgError.out_of_bounds_write 4), w) := by
  refine ⟨⟨_, uuidc_v3_result h ns p len w hns hlen hok, ossp_v3_result h ns p len w hns hlen hok,
    (patched_digest_markers 3 (by decide) _ (MD5Final_length _ _) (MD5Final_lt _ _)).1⟩, ?_,
    (uuidc_v5_overflow h ns p len w hns hlen).2, (ossp_v5_overflow h ns p len w hns hlen).2⟩
  intro d3 d5 hl3 hb3 hl5 hb5
  exact ⟨_, _, _, _, (name_based_text_patched h 3 (by decide) d3 hl3 hb3 hok).1,
    (name_based_text_patched h 5 (by decide) d5 hl5 hb5 hok).1,
    (name_based_text_patched h 3 (by decide) d3 hl3 hb3 hok).2,
    (name_based_text_patched h 5 (by decide) d5 hl5 hb5 hok).2,
    (patched_3_ne_5 d3 d5 hl3 hb3 hl5 hb5).2, (patched_3_ne_5 d3 d5 hl3 hb3 hl5 hb5).1⟩

/-- C4 at a sample input: hash functions whose first 16 bytes coincide. -/
theorem v3_v5_differ_witness :
    sample_time_bytes.length = 16 ∧ 1 ≤ [119].length ∧
    to_string_ok { sample_host UuidLib.bsd false with SHA1 := fun _ => List.replicate 20 7,
                                                      MD5 := fun _ => List.replicate 16 7 } ∧
    (∃ u3,
      UuidC.internal_uuid_create
          { sample_host UuidLib.bsd false with SHA1 := fun _ => List.replicate 20 7,
                                               MD5 := fun _ => List.replicate 16 7 }
          3 (some sample_time_bytes) (some [119]) 1 sample_world = (Except.ok u3, sample_world) ∧
      version_of u3 = 3) ∧
    UuidC.internal_uuid_create
        { sample_host UuidLib.bsd false with SHA1 := fun _ => List.replicate 20 7,
                                             MD5 := fun _ => List.replicate 16 7 }
        5 (some sample_time_bytes) (some [119]) 1 sample_world
      = (Except.error (PgError.out_of_bounds_write 4), sample_world) := by
  obtain ⟨⟨u3, r3, _, hv3⟩, _, r5, _⟩ := v3_v5_differ
    { sample_host UuidLib.bsd false with SHA1 := fun _ => List.replicate 20 7,
                                         MD5 := fun _ => List.replicate 16 7 }
    sample_time_bytes [119] 1 sample_world rfl (by decide) (Or.inr rfl)
  exact ⟨rfl, by decide, Or.inr rfl, ⟨u3, r3, hv3⟩, r5⟩

/-! ## Texts in field form -/

theorem canon_fields_length (a b c d e f : Nat) : (canon_fields a b c d e f).length = 36 := by
  simp [canon_fields, hex_fixed_length]

theorem canon_fields_canonical (a b c d e f : Nat) :
    canonical_text (canon_fields a b c d e f) = true := by
  simp only [canon_fields, hex_fixed, List.nil_append, List.cons_append, List.append_assoc]
  simp only [canonical_text, List.length_cons, List.length_nil, Nat.reduceAdd,
    beq_self_eq_true, Bool.true_and, List.all_eq_true, List.mem_range]
  intro i hi
  interval_cases i <;> simp [is_lower_hex_hexDigit_mod]

theorem canon_fields_c_str (a b c d e f : Nat) :
    c_str (canon_fields a b c d e f) = canon_fields a b c d e f := by
  simp only [canon_fields, hex_fixed, List.nil_append, List.cons_append, List.append_assoc]
  simp only [c_str, List.takeWhile, hexDigit_bne_zero]
  rfl

theorem canon_fields_strlcpy (a b c d e f : Nat) :
    strlcpy (canon_fields a b c d e f) 37 = canon_fields a b c d e f := by
  unfold strlcpy
  rw [canon_fields_c_str, List.take_of_length_le]
  rw [canon_fields_length]

theorem canon_fields_getD_14 (a b c d e f : Nat) :
    (canon_fields a b c d e f).getD 14 0 = hexDigit (c / 4096 % 16) := by
  have e : c / 16 / 16 / 16 % 16 = c / 4096 % 16 := by omega
  simp [canon_fields, hex_fixed, e]

theorem canon_fields_getD_19 (a b c d e f : Nat) :
    (canon_fields a b c d e f).getD 19 0 = hexDigit (d / 4096 % 16) := by
  have e : d / 16 / 16 / 16 % 16 = d / 4096 % 16 := by omega
  simp [canon_fields, hex_fixed, e]

theorem hex_pair_value (x : Nat) : x / 16 % 16 * 16 + x % 16 = x % 256 := by omega

/-- Parsing a text in field form gives the bytes of the fields. -/
theorem uuid_in_canon_fields (a b c d e f : Nat) :
    uuid_in (canon_fields a b c d e f) = Except.ok (canon_bytes a b c d e f) := by
  have p4 : ∀ x : Nat, x / 16 / 16 / 16 % 16 * 16 + x / 16 / 16 % 16 = x / 256 % 256 :=
    fun x => by omega
  have p8a : ∀ x : Nat, x / 16 / 16 / 16 / 16 / 16 / 16 / 16 % 16 * 16
      + x / 16 / 16 / 16 / 16 / 16 / 16 % 16 = x / 16777216 % 256 := fun x => by omega
  have p8b : ∀ x : Nat, x / 16 / 16 / 16 / 16 / 16 % 16 * 16
      + x / 16 / 16 / 16 / 16 % 16 = x / 65536 % 256 := fun x => by omega
  simp only [canon_fields, hex_fixed, List.nil_append, List.cons_append, List.append_assoc]
  simp [uuid_in, parse_hex_pairs, hexval_hexDigit_mod, canon_bytes, store32, store16, p4, p8a,
    p8b, hex_pair_value]
  refine ⟨?_, ?_, ?_, ?_⟩ <;> omega

/-! ## Random UUIDs from `arc4random` -/

/-- The six fields the random case prints, each within its width. -/
theorem sprintf_v4_eq (r1 r2 r3 r4 r5 r6 : Nat) (h1 : r1 < 4294967296) (h6 : r6 < 4294967296) :
    sprintf_v4 r1 r2 r3 r4 r5 r6
      = canon_fields r1 (r2 % 65536) (r3 % 4096 + 16384) (r4 % 16384 + 32768) (r5 % 65536) r6 := by
  have e3 : (r3 &&& 0xfff) ||| 0x4000 = r3 % 4096 + 16384 := by
    rw [and_0FFF, or_0x4000 (by omega)]
  have e4 : (r4 &&& 0x3fff) ||| 0x8000 = r4 % 16384 + 32768 := by
    rw [and_3FFF, or_0x8000 (by omega)]
  unfold sprintf_v4 canon_fields
  rw [e3, e4, and_FFFF, and_FFFF,
    fmt_0x_eq_hex_fixed (w := 8) (by decide) (by norm_num; omega),
    fmt_0x_eq_hex_fixed (w := 8) (n := r6) (by decide) (by norm_num; omega),
    fmt_0x_eq_hex_fixed (w := 4) (n := r2 % 65536) (by decide) (by norm_num; omega),
    fmt_0x_eq_hex_fixed (w := 4) (n := r5 % 65536) (by decide) (by norm_num; omega),
    fmt_0x_eq_hex_fixed (w := 4) (n := r3 % 4096 + 16384) (by decide) (by norm_num; omega),
    fmt_0x_eq_hex_fixed (w := 4) (n := r4 % 16384 + 32768) (by decide) (by norm_num; omega)]

/-- The shape of the random text: 36 characters in 8-4-4-4-12 groups, `4` at index 14 and one
of `8`, `9`, `a`, `b` at index 19. -/
theorem sprintf_v4_shape (r1 r2 r3 r4 r5 r6 : Nat) (h1 : r1 < 4294967296)
    (h6 : r6 < 4294967296) :
    (sprintf_v4 r1 r2 r3 r4 r5 r6).length = 36 ∧
    canonical_text (sprintf_v4 r1 r2 r3 r4 r5 r6) = true ∧
    (sprintf_v4 r1 r2 r3 r4 r5 r6).getD 14 0 = 52 ∧
    (sprintf_v4 r1 r2 r3 r4 r5 r6).getD 19 0 ∈ [56, 57, 97, 98] := by
  rw [sprintf_v4_eq r1 r2 r3 r4 r5 r6 h1 h6]
  refine ⟨canon_fields_length _ _ _ _ _ _, canon_fields_canonical _ _ _ _ _ _, ?_, ?_⟩
  · rw [canon_fields_getD_14]
    have e : (r3 % 4096 + 16384) / 4096 % 16 = 4 := by omega
    rw [e]
    rfl
  · rw [canon_fields_getD_19]
    have c : (r4 % 16384 + 32768) / 4096 % 16 = 8 ∨ (r4 % 16384 + 32768) / 4096 % 16 = 9 ∨
        (r4 % 16384 + 32768) / 4096 % 16 = 10 ∨ (r4 % 16384 + 32768) / 4096 % 16 = 11 := by
      omega
    rcases c with c | c | c | c <;> rw [c] <;> simp [hexDigit]

/-- The random case on the `arc4random` path, same in both files. -/
theorem v4_arc4random_strbuf (h : Host) (hlib : h.lib = UuidLib.bsd) (w : World) :
    UuidC.internal_uuid_create_strbuf h 4 none none 0 w
      = (Except.ok (sprintf_v4 (w.arc4 w.draws % 4294967296) (w.arc4 (w.draws + 1) % 4294967296)
          (w.arc4 (w.draws + 2) % 4294967296) (w.arc4 (w.draws + 3) % 4294967296)
          (w.arc4 (w.draws + 4) % 4294967296) (w.arc4 (w.draws + 5) % 4294967296)),
        { w with draws := w.draws + 6 }) ∧
    UuidOssp.uuid_generate_internal_strbuf h 4 none none 0 w
      = UuidC.internal_uuid_create_strbuf h 4 none none 0 w := by
  simp only [UuidC.internal_uuid_create_strbuf, UuidOssp.uuid_generate_internal_strbuf,
    show ((4 : Int) = 0) = False from by decide, show ((4 : Int) = 1) = False from by decide,
    show ((4 : Int) = -1) = False from by decide, show ((4 : Int) = 3) = False from by decide,
    show ((4 : Int) = 5) = False from by decide, if_false, false_and, or_self, hlib,
    arc4random6, arc4random, and_self]

/-- C5: on the `arc4random` path of the random (V4) case, whatever six 32-bit values
`arc4random` returns, the text handed to `uuid_in` has exactly 36 characters, lowercase
hexadecimal digits in 8-4-4-4-12 groups with hyphens exactly at indices 8, 13, 18 and 23, the
character `4` (code 52) at index 14 and one of `8`, `9`, `a`, `b` (codes 56, 57, 97, 98) at
index 19; `uuid.c` and `uuid-ossp.c` print the same text. -/
theorem v4_arc4random_text (h : Host) (hlib : h.lib = UuidLib.bsd) (w : World) :
    ∃ txt,
      txt = sprintf_v4 (w.arc4 w.draws % 4294967296) (w.arc4 (w.draws + 1) % 4294967296)
          (w.arc4 (w.draws + 2) % 4294967296) (w.arc4 (w.draws + 3) % 4294967296)
          (w.arc4 (w.draws + 4) % 4294967296) (w.arc4 (w.draws + 5) % 4294967296) ∧
      UuidC.internal_uuid_create_strbuf h 4 none none 0 w
        = (Except.ok txt, { w with draws := w.draws + 6 }) ∧
      UuidOssp.uuid_generate_internal_strbuf h 4 none none 0 w
        = (Except.ok txt, { w with draws := w.draws + 6 }) ∧
      txt.length = 36 ∧ canonical_text txt = true ∧ txt.getD 14 0 = 52 ∧
      txt.getD 19 0 ∈ [56, 57, 97, 98] := by
  obtain ⟨e1, e2⟩ := v4_arc4random_strbuf h hlib w
  obtain ⟨s1, s2, s3, s4⟩ := sprintf_v4_shape (w.arc4 w.draws % 4294967296)
    (w.arc4 (w.draws + 1) % 4294967296) (w.arc4 (w.draws + 2) % 4294967296)
    (w.arc4 (w.draws + 3) % 4294967296) (w.arc4 (w.draws + 4) % 4294967296)
    (w.arc4 (w.draws + 5) % 4294967296) (Nat.mod_lt _ (by decide)) (Nat.mod_lt _ (by decide))
  exact ⟨_, rfl, e1, e2.trans e1, s1, s2, s3, s4⟩

/-- C5 at a sample input: the text printed in the sample world. -/
theorem v4_arc4random_text_witness :
    (sample_host UuidLib.bsd true).lib = UuidLib.bsd ∧
    ∃ txt,
      UuidC.internal_uuid_create_strbuf (sample_host UuidLib.bsd true) 4 none none 0 sample_world
        = (Except.ok txt, { sample_world with draws := sample_world.draws + 6 }) ∧
      txt.length = 36 ∧ canonical_text txt = true ∧ txt.getD 14 0 = 52 ∧
      txt.getD 19 0 ∈ [56, 57, 97, 98] := by
  obtain ⟨txt, _, e1, _, s1, s2, s3, s4⟩ :=
    v4_arc4random_text (sample_host UuidLib.bsd true) rfl sample_world
  exact ⟨rfl, txt, e1, s1, s2, s3, s4⟩

/-! ## Splicing texts -/

theorem hex_fixed_ne_zero (w n : Nat) : ∀ c ∈ hex_fixed w n, c ≠ 0 := by
  induction w generalizing n with
  | zero => simp [hex_fixed]
  | succ w ih =>
    intro c hc
    simp only [hex_fixed, List.mem_append, List.mem_singleton] at hc
    rcases hc with hc | rfl
    · exact ih _ c hc
    · exact hexDigit_ne_zero _

theorem c_str_of_ne_zero (l : List Nat) (h : ∀ c ∈ l, c ≠ 0) : c_str l = l := by
  induction l with
  | nil => rfl
  | cons x t ih =>
    have hx : (x != 0) = true := by simpa using h x (List.mem_cons_self _ _)
    have ht := ih (fun c hc => h c (List.mem_cons_of_mem _ hc))
    unfold c_str at ht ⊢
    rw [List.takeWhile_cons, hx, if_pos rfl, ht]

theorem canon_fields_ne_zero (a b c d e f : Nat) : ∀ x ∈ canon_fields a b c d e f, x ≠ 0 := by
  intro x hx
  simp only [canon_fields, List.mem_append, List.mem_singleton] at hx
  rcases hx with ((((((((hx | rfl) | hx) | rfl) | hx) | rfl) | hx) | rfl) | hx) | hx
  all_goals first
    | exact hex_fixed_ne_zero _ _ x hx
    | (unfold hyphen; decide)

theorem canon_fields_take_18 (a b c d e f : Nat) :
    (canon_fields a b c d e f).take 18
      = hex_fixed 8 a ++ [hyphen] ++ hex_fixed 4 b ++ [hyphen] ++ hex_fixed 4 c := by
  simp only [canon_fields, hex_fixed, List.nil_append, List.cons_append, List.append_assoc]
  rfl

theorem canon_fields_drop_18 (a b c d e f : Nat) :
    (canon_fields a b c d e f).drop 18
      = [hyphen] ++ hex_fixed 4 d ++ [hyphen] ++ hex_fixed 4 e ++ hex_fixed 8 f := by
  simp only [canon_fields, hex_fixed, List.nil_append, List.cons_append, List.append_assoc]
  rfl

theorem canon_fields_take_23 (a b c d e f : Nat) :
    (canon_fields a b c d e f).take 23
      = hex_fixed 8 a ++ [hyphen] ++ hex_fixed 4 b ++ [hyphen] ++ hex_fixed 4 c ++ [hyphen]
        ++ hex_fixed 4 d := by
  simp only [canon_fields, hex_fixed, List.nil_append, List.cons_append, List.append_assoc]
  rfl

theorem canon_fields_drop_24 (a b c d e f : Nat) :
    (canon_fields a b c d e f).drop 24 = hex_fixed 4 e ++ hex_fixed 8 f := by
  simp only [canon_fields, hex_fixed, List.nil_append, List.cons_append, List.append_assoc]
  rfl

/-- The first 18 characters of one text followed by the last 18 of another. -/
theorem canon_fields_splice_18 (a b c d e f a1 b1 c1 d1 e1 f1 : Nat) :
    (canon_fields a b c d e f).take 18 ++ (canon_fields a1 b1 c1 d1 e1 f1).drop 18
      = canon_fields a b c d1 e1 f1 := by
  rw [canon_fields_take_18, canon_fields_drop_18]
  simp only [canon_fields, List.append_assoc]

/-- The first 23 characters of a text, a hyphen, and the last 12 of another. -/
theorem canon_fields_splice_23 (a b c d e f a1 b1 c1 d1 e1 f1 : Nat) :
    (canon_fields a b c d e f).take 23 ++ ([hyphen] ++ (canon_fields a1 b1 c1 d1 e1 f1).drop 24)
      = canon_fields a b c d e1 f1 := by
  rw [canon_fields_take_23, canon_fields_drop_24]
  simp only [canon_fields, List.append_assoc]

theorem drop_ne_zero {l : List Nat} (h : ∀ c ∈ l, c ≠ 0) (n : Nat) : ∀ c ∈ l.drop n, c ≠ 0 :=
  fun c hc => h c (List.mem_of_mem_drop hc)

/-- `uuid_unparse` of 16 bytes, in field form. -/
theorem uuid_unparse_fields (u : List Nat) (hb : ∀ b ∈ u, b < 256) :
    uuid_unparse u = canon_fields
      (load32 false (u.getD 0 0) (u.getD 1 0) (u.getD 2 0) (u.getD 3 0))
      (load16 false (u.getD 4 0) (u.getD 5 0)) (load16 false (u.getD 6 0) (u.getD 7 0))
      (load16 false (u.getD 8 0) (u.getD 9 0)) (load16 false (u.getD 10 0) (u.getD 11 0))
      (load32 false (u.getD 12 0) (u.getD 13 0) (u.getD 14 0) (u.getD 15 0)) := by
  have g := getD_lt_256 hb
  have g0 := g 0
  have g1 := g 1
  have g2 := g 2
  have g3 := g 3
  have g4 := g 4
  have g5 := g 5
  have g6 := g 6
  have g7 := g 7
  have g8 := g 8
  have g9 := g 9
  have g10 := g 10
  have g11 := g 11
  have g12 := g 12
  have g13 := g 13
  have g14 := g 14
  have g15 := g 15
  simp only [load32, load16, Bool.false_eq_true, if_false, canon_fields]
  rw [← fmt_0x_eq_hex_fixed (w := 8) (by decide) (by show _ < 4294967296; omega),
    ← fmt_0x_eq_hex_fixed (w := 8) (by decide) (by show _ < 4294967296; omega),
    ← fmt_0x_eq_hex_fixed (w := 4) (by decide) (by show _ < 65536; omega),
    ← fmt_0x_eq_hex_fixed (w := 4) (by decide) (by show _ < 65536; omega),
    ← fmt_0x_eq_hex_fixed (w := 4) (by decide) (by show _ < 65536; omega),
    ← fmt_0x_eq_hex_fixed (w := 4) (by decide) (by show _ < 65536; omega),
    fmt_0x_8 g0 g1 g2 g3, fmt_0x_8 g12 g13 g14 g15,
    fmt_0x_4 g4 g5, fmt_0x_4 g6 g7, fmt_0x_4 g8 g9, fmt_0x_4 g10 g11]
  simp only [uuid_unparse, List.append_assoc]

/-- The bytes of the fields read from 16 bytes are those bytes. -/
theorem canon_bytes_of_bytes (u : List Nat) (hl : u.length = 16) (hb : ∀ b ∈ u, b < 256) :
    canon_bytes
      (load32 false (u.getD 0 0) (u.getD 1 0) (u.getD 2 0) (u.getD 3 0))
      (load16 false (u.getD 4 0) (u.getD 5 0)) (load16 false (u.getD 6 0) (u.getD 7 0))
      (load16 false (u.getD 8 0) (u.getD 9 0)) (load16 false (u.getD 10 0) (u.getD 11 0))
      (load32 false (u.getD 12 0) (u.getD 13 0) (u.getD 14 0) (u.getD 15 0)) = u := by
  have h1 := uuid_in_unparse u hl hb
  rw [uuid_unparse_fields u hb, uuid_in_canon_fields] at h1
  exact Except.ok.inj h1

theorem canon_bytes_take_8 (a b c d e f d1 e1 f1 : Nat) :
    (canon_bytes a b c d e f).take 8 = (canon_bytes a b c d1 e1 f1).take 8 := by
  simp [canon_bytes, store32, store16]

theorem canon_bytes_take_10 (a b c d e f e1 f1 : Nat) :
    (canon_bytes a b c d e f).take 10 = (canon_bytes a b c d e1 f1).take 10 := by
  simp [canon_bytes, store32, store16]

theorem canon_bytes_getD_10 (a b c d e f : Nat) :
    (canon_bytes a b c d e f).getD 10 0 = e / 256 % 256 := by
  simp [canon_bytes, store32, store16]

/-! ## Time-based texts and the multicast suffix -/

/-- The multicast and local-administration bits in the value printed for the first two node
octets. -/
theorem or_0x0300 (r : Nat) :
    ((r &&& 0xffff) ||| 0x0300) < 65536 ∧
    (((r &&& 0xffff) ||| 0x0300) / 256 % 256).testBit 0 = true ∧
    (((r &&& 0xffff) ||| 0x0300) / 256 % 256).testBit 1 = true := by
  have hlt : ((r &&& 0xffff) ||| 0x0300) < 2 ^ 16 :=
    Nat.or_lt_two_pow (by rw [and_FFFF]; exact Nat.mod_lt _ (by decide)) (by decide)
  have b8 : ((r &&& 0xffff) ||| 0x0300).testBit 8 = true := by
    rw [Nat.testBit_or]
    have : (0x0300 : Nat).testBit 8 = true := by decide
    rw [this, Bool.or_true]
  have b9 : ((r &&& 0xffff) ||| 0x0300).testBit 9 = true := by
    rw [Nat.testBit_or]
    have : (0x0300 : Nat).testBit 9 = true := by decide
    rw [this, Bool.or_true]
  generalize (r &&& 0xffff) ||| 0x0300 = y at hlt b8 b9
  rw [Nat.testBit_to_div_mod, decide_eq_true_eq] at b8 b9
  refine ⟨hlt, ?_, ?_⟩
  · rw [Nat.testBit_to_div_mod, decide_eq_true_eq]
    norm_num at b8 b9 ⊢
    omega
  · rw [Nat.testBit_to_div_mod, decide_eq_true_eq]
    norm_num at b8 b9 ⊢
    omega

/-- The text of the BSD `uuid_to_string` for a `uuid_t`, in field form. -/
theorem uuid_to_string_text_fields (x : dce_uuid_t) :
    uuid_to_string_text (as_uuid_t x)
      = canon_fields (as_uuid_t x).time_low (as_uuid_t x).time_mid
          (as_uuid_t x).time_hi_and_version
          (load16 false (as_uuid_t x).clock_seq_hi_and_reserved (as_uuid_t x).clock_seq_low)
          (load16 false ((as_uuid_t x).node.getD 0 0) ((as_uuid_t x).node.getD 1 0))
          (load32 false ((as_uuid_t x).node.getD 2 0) ((as_uuid_t x).node.getD 3 0)
            ((as_uuid_t x).node.getD 4 0) ((as_uuid_t x).node.getD 5 0)) := by
  have g := getD_lt_256 (uchars_lt 6 x.node)
  have g0 := g 0
  have g1 := g 1
  have g2 := g 2
  have g3 := g 3
  have g4 := g 4
  have g5 := g 5
  have c1 : x.clock_seq_hi_and_reserved % 256 < 256 := Nat.mod_lt _ (by decide)
  have c2 : x.clock_seq_low % 256 < 256 := Nat.mod_lt _ (by decide)
  have t1 : x.time_low % 4294967296 < 16 ^ 8 := Nat.mod_lt _ (by decide)
  have t2 : x.time_mid % 65536 < 16 ^ 4 := Nat.mod_lt _ (by decide)
  have t3 : x.time_hi_and_version % 65536 < 16 ^ 4 := Nat.mod_lt _ (by decide)
  simp only [uuid_to_string_text, as_uuid_t, load32, load16, Bool.false_eq_true, if_false,
    canon_fields]
  have n1 : 256 * (x.clock_seq_hi_and_reserved % 256) + x.clock_seq_low % 256 < 16 ^ 4 := by
    show _ < 65536
    omega
  have n2 : 256 * (uchars 6 x.node).getD 0 0 + (uchars 6 x.node).getD 1 0 < 16 ^ 4 := by
    show _ < 65536
    omega
  have n3 : 16777216 * (uchars 6 x.node).getD 2 0 + 65536 * (uchars 6 x.node).getD 3 0
      + 256 * (uchars 6 x.node).getD 4 0 + (uchars 6 x.node).getD 5 0 < 16 ^ 8 := by
    show _ < 4294967296
    omega
  rw [← fmt_0x_eq_hex_fixed (by decide) n1, ← fmt_0x_eq_hex_fixed (by decide) n2,
    ← fmt_0x_eq_hex_fixed (by decide) n3, ← fmt_0x_eq_hex_fixed (by decide) t1,
    ← fmt_0x_eq_hex_fixed (by decide) t2, ← fmt_0x_eq_hex_fixed (by decide) t3,
    fmt_0x_8 g2 g3 g4 g5, fmt_0x_4 g0 g1, fmt_0x_4 c1 c2]
  simp only [List.append_assoc]

/-- The time-based case on BSD when both library calls succeed. -/
theorem time_based_bsd_ok (h : Host) (ptr : Option (List Nat)) (len : Nat) (w : World)
    (hc : (w.created w.ticks).1 = uuid_s_ok) (hs : h.to_string_status = uuid_s_ok) :
    time_based_bsd h ptr len w
      = (Except.ok (match ptr with
          | some p =>
            if len ≤ 36 then
              strcpy_at (uuid_to_string_text (as_uuid_t (w.created w.ticks).2)) (36 - len) p
            else uuid_to_string_text (as_uuid_t (w.created w.ticks).2)
          | none => uuid_to_string_text (as_uuid_t (w.created w.ticks).2)),
        { w with ticks := w.ticks + 1 }) := by
  have hcopy : strlcpy (uuid_to_string_text (as_uuid_t (w.created w.ticks).2)) 37
      = uuid_to_string_text (as_uuid_t (w.created w.ticks).2) := by
    rw [uuid_to_string_text_fields, canon_fields_strlcpy]
  simp only [time_based_bsd, uuid_create, hc, if_true, uuid_to_string, hs, Option.getD_some, hcopy]
  cases ptr with
  | none => rfl
  | some p =>
    by_cases hl : len ≤ 36
    · simp only [hl, if_true]
    · simp only [hl, if_false]

/-- The suffix printed by `uuid_generate_v1mc` of `uuid.c` on BSD. -/
theorem uuidc_v1mc_buf_eq (r1 r2 r3 : Nat) (h3 : r3 < 4294967296) :
    UuidC.v1mc_buf r1 r2 r3
      = (canon_fields 0 0 0 (r1 % 16384 + 32768) ((r2 &&& 0xffff) ||| 0x0300) r3).drop 18 := by
  have e1 : (r1 &&& 0x3FFF) ||| 0x8000 = r1 % 16384 + 32768 := by
    rw [and_3FFF, or_0x8000 (by omega)]
  rw [canon_fields_drop_18]
  unfold UuidC.v1mc_buf
  rw [e1, fmt_0x_eq_hex_fixed (w := 4) (n := r1 % 16384 + 32768) (by decide)
      (by show _ < 65536; omega),
    fmt_0x_eq_hex_fixed (w := 4) (by decide) (or_0x0300 r2).1,
    fmt_0x_eq_hex_fixed (w := 8) (by decide) h3]

/-- The suffix printed by `uuid_generate_v1mc` of `uuid-ossp.c` on BSD. -/
theorem ossp_v1mc_buf_eq (r1 r2 : Nat) (h2 : r2 < 4294967296) :
    UuidOssp.v1mc_buf r1 r2
      = [hyphen] ++ (canon_fields 0 0 0 0 ((r1 &&& 0xffff) ||| 0x0300) r2).drop 24 := by
  rw [canon_fields_drop_24]
  unfold UuidOssp.v1mc_buf
  rw [fmt_0x_eq_hex_fixed (w := 4) (by decide) (or_0x0300 r1).1,
    fmt_0x_eq_hex_fixed (w := 8) (by decide) h2, List.append_assoc]

/-! ## The time-based generators, path by path -/

theorem strcpy_at_of_le (dst : List Nat) (off : Nat) (src : List Nat) (h : off ≤ dst.length) :
    strcpy_at dst off src = dst.take off ++ c_str src := by
  unfold strcpy_at
  rw [if_pos h]

theorem canon_bytes_splice_8 (a b c d e f a1 b1 c1 d1 e1 f1 : Nat) :
    (canon_bytes a b c d e f).take 8 ++ (canon_bytes a1 b1 c1 d1 e1 f1).drop 8
      = canon_bytes a b c d1 e1 f1 := by
  simp [canon_bytes, store32, store16]

theorem next_time_uuid_valid (w : World) :
    (next_time_uuid w).length = 16 ∧ ∀ b ∈ next_time_uuid w, b < 256 :=
  ⟨uchars_length _ _, uchars_lt _ _⟩

theorem next_random_uuid_valid (w : World) :
    (next_random_uuid w).length = 16 ∧ ∀ b ∈ next_random_uuid w, b < 256 :=
  ⟨uchars_length _ _, uchars_lt _ _⟩

/-- `uuid.c`, Linux, `case -1`: the first 18 characters of the time-based text followed by the
last 18 of the random text. -/
theorem uuidc_v1mc_linux_strbuf (h : Host) (hlib : h.lib = UuidLib.linux) (w : World) :
    UuidC.uuid_generate_v1mc_strbuf h w
      = (Except.ok ((uuid_unparse (next_time_uuid w)).take 18
          ++ (uuid_unparse (next_random_uuid w)).drop 18),
        { w with ticks := w.ticks + 1, draws := w.draws + 1 }) := by
  have hr := next_random_uuid_valid w
  have hcopy : strlcpy ((uuid_unparse (next_random_uuid w)).drop 18) 19
      = (uuid_unparse (next_random_uuid w)).drop 18 := by
    unfold strlcpy
    rw [uuid_unparse_fields _ hr.2, c_str_of_ne_zero _ (drop_ne_zero (canon_fields_ne_zero _ _ _ _ _ _) 18),
      List.take_of_length_le]
    simp [canon_fields_length]
  simp only [UuidC.uuid_generate_v1mc_strbuf, UuidC.uuid_generate_v1mc_args, hlib,
    UuidC.internal_uuid_create_strbuf, show ((-1 : Int) = 0) = False from by decide,
    show ((-1 : Int) = 1) = False from by decide, if_false, true_and, if_true,
    uuid_generate_time, uuid_generate_random]
  rw [show uchars 16 (w.time_uuid w.ticks) = next_time_uuid w from rfl,
    show uchars 16 (w.random_uuid w.draws) = next_random_uuid w from rfl, hcopy]

/-- `uuid.c`, Linux: the V1mc result is the first 8 bytes of the time-based UUID followed by
the last 8 bytes of the random UUID. -/
theorem uuidc_v1mc_linux (h : Host) (hlib : h.lib = UuidLib.linux) (w : World) :
    UuidC.uuid_generate_v1mc h w
      = (Except.ok ((next_time_uuid w).take 8 ++ (next_random_uuid w).drop 8),
        { w with ticks := w.ticks + 1, draws := w.draws + 1 }) := by
  have ht := next_time_uuid_valid w
  have hr := next_random_uuid_valid w
  have hs := uuidc_v1mc_linux_strbuf h hlib w
  simp only [UuidC.uuid_generate_v1mc_strbuf] at hs
  simp only [UuidC.uuid_generate_v1mc, UuidC.internal_uuid_create, hs, call_uuid_in]
  rw [uuid_unparse_fields _ ht.2, uuid_unparse_fields _ hr.2, canon_fields_splice_18,
    uuid_in_canon_fields]
  conv_rhs => rw [← canon_bytes_of_bytes _ ht.1 ht.2, ← canon_bytes_of_bytes _ hr.1 hr.2]
  rw [canon_bytes_splice_8]

/-- `uuid.c` and `uuid-ossp.c`, Linux: the V1 result is the time-based UUID. -/
theorem v1_linux (h : Host) (hlib : h.lib = UuidLib.linux) (w : World) :
    UuidC.uuid_generate_v1 h w = (Except.ok (next_time_uuid w), { w with ticks := w.ticks + 1 }) ∧
    UuidOssp.uuid_generate_v1 h w
      = (Except.ok (next_time_uuid w), { w with ticks := w.ticks + 1 }) := by
  have ht := next_time_uuid_valid w
  simp only [UuidC.uuid_generate_v1, UuidC.internal_uuid_create, UuidC.internal_uuid_create_strbuf,
    UuidOssp.uuid_generate_v1, UuidOssp.uuid_generate_internal,
    UuidOssp.uuid_generate_internal_strbuf, show ((1 : Int) = 0) = False from by decide,
    if_false, if_true, hlib, uuid_generate_time, call_uuid_in]
  rw [show uchars 16 (w.time_uuid w.ticks) = next_time_uuid w from rfl,
    uuid_in_unparse _ ht.1 ht.2]
  exact ⟨rfl, rfl⟩

/-- `uuid-ossp.c`, Linux: the text handed to `uuid_in` is the first 23 characters of the
time-based text followed by the 12 node characters of the random text. -/
theorem ossp_v1mc_linux_strbuf (h : Host) (hlib : h.lib = UuidLib.linux) (w : World) :
    UuidOssp.uuid_generate_v1mc_strbuf h w
      = (Except.ok ((uuid_unparse (next_time_uuid w)).take 23
          ++ (uuid_unparse (next_random_uuid w)).drop 24),
        { w with draws := w.draws + 1, ticks := w.ticks + 1 }) := by
  have ht := next_time_uuid_valid w
  have hr := next_random_uuid_valid w
  have hcs : c_str ((uuid_unparse (next_random_uuid w)).drop 24)
      = (uuid_unparse (next_random_uuid w)).drop 24 := by
    rw [uuid_unparse_fields _ hr.2]
    exact c_str_of_ne_zero _ (drop_ne_zero (canon_fields_ne_zero _ _ _ _ _ _) 24)
  have hlen : 23 ≤ (uuid_unparse (next_time_uuid w)).length := by
    rw [uuid_unparse_length _ ht.1 ht.2]
    decide
  have hsp : strcpy_at (uuid_unparse (next_time_uuid w)) 23
      ((uuid_unparse (next_random_uuid w)).drop 24)
      = (uuid_unparse (next_time_uuid w)).take 23
        ++ (uuid_unparse (next_random_uuid w)).drop 24 := by
    rw [strcpy_at_of_le _ _ _ hlen, hcs]
  simp only [UuidOssp.uuid_generate_v1mc_strbuf, UuidOssp.uuid_generate_v1mc_buf, hlib,
    uuid_generate_random]
  simp only [UuidOssp.uuid_generate_internal_strbuf]
  simp only [show ((1 : Int) = 0) = False from by decide, if_false, if_true, hlib,
    uuid_generate_time]
  rw [if_pos (by decide : 13 ≤ 36)]
  simp only [next_time_uuid, next_random_uuid] at hsp
  simp only [Nat.reduceSub, hsp, next_time_uuid, next_random_uuid]

/-- Replacing the last 18 characters of a BSD time-based text. -/
theorem bsd_splice_18 (x : dce_uuid_t) (d e f : Nat) :
    strcpy_at (uuid_to_string_text (as_uuid_t x)) 18 ((canon_fields 0 0 0 d e f).drop 18)
      = canon_fields (as_uuid_t x).time_low (as_uuid_t x).time_mid
          (as_uuid_t x).time_hi_and_version d e f := by
  rw [uuid_to_string_text_fields, strcpy_at_of_le _ _ _ (by rw [canon_fields_length]; decide),
    c_str_of_ne_zero _ (drop_ne_zero (canon_fields_ne_zero _ _ _ _ _ _) 18),
    canon_fields_splice_18]

/-- Replacing the last 13 characters of a BSD time-based text. -/
theorem bsd_splice_23 (x : dce_uuid_t) (e f : Nat) :
    strcpy_at (uuid_to_string_text (as_uuid_t x)) 23
        ([hyphen] ++ (canon_fields 0 0 0 0 e f).drop 24)
      = canon_fields (as_uuid_t x).time_low (as_uuid_t x).time_mid
          (as_uuid_t x).time_hi_and_version
          (load16 false (as_uuid_t x).clock_seq_hi_and_reserved (as_uuid_t x).clock_seq_low)
          e f := by
  have hnz : ∀ c ∈ [hyphen] ++ (canon_fields 0 0 0 0 e f).drop 24, c ≠ 0 := by
    intro c hc
    rw [List.mem_append, List.mem_singleton] at hc
    rcases hc with rfl | hc
    · unfold hyphen; decide
    · exact drop_ne_zero (canon_fields_ne_zero _ _ _ _ _ _) 24 c hc
  rw [uuid_to_string_text_fields, strcpy_at_of_le _ _ _ (by rw [canon_fields_length]; decide),
    c_str_of_ne_zero _ hnz, canon_fields_splice_23]

/-- `uuid.c`, BSD: the text of `uuid_generate_v1mc` when the library calls succeed. -/
theorem uuidc_v1mc_bsd_strbuf (h : Host) (hlib : h.lib = UuidLib.bsd) (w : World)
    (hc : (w.created w.ticks).1 = uuid_s_ok) (hs : h.to_string_status = uuid_s_ok) :
    UuidC.uuid_generate_v1mc_strbuf h w
      = (Except.ok (canon_fields (next_created w).time_low (next_created w).time_mid
          (next_created w).time_hi_and_version (next_arc4 w 0 % 16384 + 32768)
          ((next_arc4 w 1 &&& 0xffff) ||| 0x0300) (next_arc4 w 2)),
        { w with draws := w.draws + 3, ticks := w.ticks + 1 }) := by
  simp only [UuidC.uuid_generate_v1mc_strbuf, UuidC.uuid_generate_v1mc_args, hlib, arc4random]
  simp only [UuidC.internal_uuid_create_strbuf]
  simp only [show ((1 : Int) = 0) = False from by decide, if_false, if_true, hlib]
  rw [time_based_bsd_ok h _ _ { w with draws := w.draws + 1 + 1 + 1 } hc hs]
  simp only []
  rw [if_pos (by decide : 18 ≤ 36), uuidc_v1mc_buf_eq _ _ _ (Nat.mod_lt _ (by decide))]
  simp only [Nat.reduceSub]
  rw [bsd_splice_18]
  rfl

/-- `uuid-ossp.c`, BSD: the text of `uuid_generate_v1mc` when the library calls succeed. -/
theorem ossp_v1mc_bsd_strbuf (h : Host) (hlib : h.lib = UuidLib.bsd) (w : World)
    (hc : (w.created w.ticks).1 = uuid_s_ok) (hs : h.to_string_status = uuid_s_ok) :
    UuidOssp.uuid_generate_v1mc_strbuf h w
      = (Except.ok (canon_fields (next_created w).time_low (next_created w).time_mid
          (next_created w).time_hi_and_version
          (load16 false (next_created w).clock_seq_hi_and_reserved (next_created w).clock_seq_low)
          ((next_arc4 w 0 &&& 0xffff) ||| 0x0300) (next_arc4 w 1)),
        { w with draws := w.draws + 2, ticks := w.ticks + 1 }) := by
  simp only [UuidOssp.uuid_generate_v1mc_strbuf, UuidOssp.uuid_generate_v1mc_buf, hlib, arc4random]
  simp only [UuidOssp.uuid_generate_internal_strbuf]
  simp only [show ((1 : Int) = 0) = False from by decide, if_false, if_true, hlib]
  rw [time_based_bsd_ok h _ _ { w with draws := w.draws + 1 + 1 } hc hs]
  simp only []
  rw [if_pos (by decide : 13 ≤ 36), ossp_v1mc_buf_eq _ _ (Nat.mod_lt _ (by decide))]
  simp only [Nat.reduceSub]
  rw [bsd_splice_23]
  rfl

/-- `uuid.c` and `uuid-ossp.c`, BSD: the text of `uuid_generate_v1` when the library calls
succeed. -/
theorem v1_bsd_strbuf (h : Host) (hlib : h.lib = UuidLib.bsd) (w : World)
    (hc : (w.created w.ticks).1 = uuid_s_ok) (hs : h.to_string_status = uuid_s_ok) :
    UuidC.internal_uuid_create_strbuf h 1 none none 0 w
      = (Except.ok (canon_fields (next_created w).time_low (next_created w).time_mid
          (next_created w).time_hi_and_version
          (load16 false (next_created w).clock_seq_hi_and_reserved (next_created w).clock_seq_low)
          (load16 false ((next_created w).node.getD 0 0) ((next_created w).node.getD 1 0))
          (load32 false ((next_created w).node.getD 2 0) ((next_created w).node.getD 3 0)
            ((next_created w).node.getD 4 0) ((next_created w).node.getD 5 0))),
        { w with ticks := w.ticks + 1 }) ∧
    UuidOssp.uuid_generate_internal_strbuf h 1 none none 0 w
      = UuidC.internal_uuid_create_strbuf h 1 none none 0 w := by
  simp only [UuidC.internal_uuid_create_strbuf, UuidOssp.uuid_generate_internal_strbuf]
  simp only [show ((1 : Int) = 0) = False from by decide, if_false, if_true, hlib, and_true]
  rw [time_based_bsd_ok h _ _ _ hc hs]
  simp only []
  rw [uuid_to_string_text_fields]
  rfl

/-! ## V1mc -/

theorem uuidc_v1mc_eq (h : Host) (w : World) :
    UuidC.uuid_generate_v1mc h w = call_uuid_in (UuidC.uuid_generate_v1mc_strbuf h w) := rfl

theorem ossp_v1mc_eq (h : Host) (w : World) :
    UuidOssp.uuid_generate_v1mc h w = call_uuid_in (UuidOssp.uuid_generate_v1mc_strbuf h w) := rfl

theorem canon_bytes_length (a b c d e f : Nat) : (canon_bytes a b c d e f).length = 16 := rfl

/-- The node printed with the multicast suffix has both bits set. -/
theorem canon_bytes_local_multicast (a b c d r f : Nat) :
    node_is_local_multicast (canon_bytes a b c d ((r &&& 0xffff) ||| 0x0300) f) = true := by
  unfold node_is_local_multicast
  rw [canon_bytes_getD_10, (or_0x0300 r).2.1, (or_0x0300 r).2.2]
  rfl

/-- C6: on the BSD paths of both files, when the library calls succeed, the first node octet of
a V1mc UUID has the multicast bit and the local-administration bit set. On the Linux path of
`uuid.c` the result is the first 8 bytes of the time-based UUID followed by the last 8 bytes of
the UUID from `uuid_generate_random`, so the node is whatever that library call returned: for
the random UUID `3d5e9a01-7c2b-4f60-9a17-2c8e4b5d6f70` the first node octet is `0x2c` and both
bits are clear. -/
theorem v1mc_node_bits (h : Host) (w : World) :
    (h.lib = UuidLib.bsd → (w.created w.ticks).1 = uuid_s_ok → h.to_string_status = uuid_s_ok →
      ∃ u1 u2 w1 w2,
        UuidC.uuid_generate_v1mc h w = (Except.ok u1, w1) ∧
        UuidOssp.uuid_generate_v1mc h w = (Except.ok u2, w2) ∧
        node_is_local_multicast u1 = true ∧ node_is_local_multicast u2 = true) ∧
    (h.lib = UuidLib.linux →
      UuidC.uuid_generate_v1mc h w
        = (Except.ok ((next_time_uuid w).take 8 ++ (next_random_uuid w).drop 8),
          { w with ticks := w.ticks + 1, draws := w.draws + 1 })) ∧
    (UuidC.uuid_generate_v1mc (sample_host UuidLib.linux true) sample_world).1
      = Except.ok [0x6b, 0xa7, 0xb8, 0x10, 0x9d, 0xad, 0x11, 0xd1, 0x9a, 0x17,
          0x2c, 0x8e, 0x4b, 0x5d, 0x6f, 0x70] ∧
    node_is_local_multicast [0x6b, 0xa7, 0xb8, 0x10, 0x9d, 0xad, 0x11, 0xd1, 0x9a, 0x17,
      0x2c, 0x8e, 0x4b, 0x5d, 0x6f, 0x70] = false := by
  refine ⟨?_, fun hlib => uuidc_v1mc_linux h hlib w, rfl, rfl⟩
  intro hlib hc hs
  have e1 := uuidc_v1mc_eq h w
  rw [uuidc_v1mc_bsd_strbuf h hlib w hc hs] at e1
  simp only [call_uuid_in, uuid_in_canon_fields] at e1
  have e2 := ossp_v1mc_eq h w
  rw [ossp_v1mc_bsd_strbuf h hlib w hc hs] at e2
  simp only [call_uuid_in, uuid_in_canon_fields] at e2
  exact ⟨_, _, _, _, e1, e2, canon_bytes_local_multicast _ _ _ _ (next_arc4 w 1) _,
    canon_bytes_local_multicast _ _ _ _ (next_arc4 w 0) _⟩

/-- C6 at a sample input: the BSD paths in the sample world. -/
theorem v1mc_node_bits_witness :
    (sample_host UuidLib.bsd true).lib = UuidLib.bsd ∧
    (sample_world.created sample_world.ticks).1 = uuid_s_ok ∧
    (sample_host UuidLib.bsd true).to_string_status = uuid_s_ok ∧
    ∃ u1 u2 w1 w2,
      UuidC.uuid_generate_v1mc (sample_host UuidLib.bsd true) sample_world = (Except.ok u1, w1) ∧
      UuidOssp.uuid_generate_v1mc (sample_host UuidLib.bsd true) sample_world
        = (Except.ok u2, w2) ∧
      node_is_local_multicast u1 = true ∧ node_is_local_multicast u2 = true :=
  ⟨rfl, rfl, rfl, (v1mc_node_bits (sample_host UuidLib.bsd true) sample_world).1 rfl rfl rfl⟩

theorem is_lower_hex_ne_hyphen {c : Nat} (h : is_lower_hex c = true) : c ≠ hyphen := by
  unfold is_lower_hex at h
  unfold hyphen
  simp only [Bool.or_eq_true, Bool.and_eq_true, decide_eq_true_eq] at h
  omega

/-- C7, as stated, fails: in the Linux build of `uuid.c`, with the sample time-based UUID
`6ba7b810-9dad-11d1-80b4-00c04fd430c8` and the sample random UUID, the V1mc result carries the
clock-sequence bytes `9a 17` of the random UUID, not `80 b4`. -/
theorem v1mc_clock_seq_counterexample :
    ¬ ∀ (h : Host) (w : World) (tb u : List Nat),
      (UuidC.uuid_generate_v1 h w).1 = Except.ok tb →
      (UuidC.uuid_generate_v1mc h w).1 = Except.ok u →
      u.take 10 = tb.take 10 := by
  intro H
  have hk := H (sample_host UuidLib.linux true) sample_world
    [0x6b, 0xa7, 0xb8, 0x10, 0x9d, 0xad, 0x11, 0xd1, 0x80, 0xb4, 0x00, 0xc0, 0x4f, 0xd4, 0x30, 0xc8]
    [0x6b, 0xa7, 0xb8, 0x10, 0x9d, 0xad, 0x11, 0xd1, 0x9a, 0x17, 0x2c, 0x8e, 0x4b, 0x5d, 0x6f, 0x70]
    rfl rfl
  exact absurd hk (by decide)

theorem canon_bytes_drop_8 (a b c d e f : Nat) :
    (canon_bytes a b c d e f).drop 8 = store16 false d ++ store16 false e ++ store32 false f := by
  simp [canon_bytes, store32, store16]

theorem canon_bytes_drop_10 (a b c d e f : Nat) :
    (canon_bytes a b c d e f).drop 10 = store16 false e ++ store32 false f := by
  simp [canon_bytes, store32, store16]

/-- The clock-sequence value of the multicast suffix of `uuid.c`. -/
theorem clock_seq_mask (r : Nat) : (r &&& 0x3FFF) ||| 0x8000 = r % 16384 + 32768 := by
  rw [and_3FFF, or_0x8000 (by omega)]

/-- C7, amended: when the library calls succeed, a V1mc UUID of `uuid.c` agrees with the
time-based UUID built from the same library output on its first 8 bytes (`time_low`,
`time_mid`, `time_hi_and_version`, hence the version nibble), and its last 8 bytes, the two
clock-sequence bytes and the six node bytes, are replaced: on Linux by the last 8 bytes of the
UUID from `uuid_generate_random`, on BSD by the bytes of the printed random suffix, which are
those of `(r1 & 0x3FFF) | 0x8000`, `(r2 & 0xffff) | 0x0300` and `r3` for the three `arc4random`
results. In the BSD build of `uuid-ossp.c` it agrees on the first 10 bytes, the two
clock-sequence bytes included, and the six node bytes are replaced by those of
`(r1 & 0xffff) | 0x0300` and `r2`. -/
theorem v1mc_keeps_time_fields (h : Host) (w : World)
    (hc : h.lib = UuidLib.bsd → (w.created w.ticks).1 = uuid_s_ok) (hs : to_string_ok h) :
    ∃ tb u w1 w2,
      UuidC.uuid_generate_v1 h w = (Except.ok tb, w1) ∧
      UuidC.uuid_generate_v1mc h w = (Except.ok u, w2) ∧
      tb.length = 16 ∧ u.length = 16 ∧ u.take 8 = tb.take 8 ∧
      (h.lib = UuidLib.linux → u.drop 8 = (next_random_uuid w).drop 8) ∧
      (h.lib = UuidLib.bsd →
        u.drop 8 = store16 false ((next_arc4 w 0 &&& 0x3FFF) ||| 0x8000)
          ++ store16 false ((next_arc4 w 1 &&& 0xffff) ||| 0x0300)
          ++ store32 false (next_arc4 w 2)) ∧
      (h.lib = UuidLib.bsd → ∃ u2 w3 w4,
        UuidOssp.uuid_generate_v1 h w = (Except.ok tb, w3) ∧
        UuidOssp.uuid_generate_v1mc h w = (Except.ok u2, w4) ∧
        u2.length = 16 ∧ u2.take 10 = tb.take 10 ∧
        u2.drop 10 = store16 false ((next_arc4 w 0 &&& 0xffff) ||| 0x0300)
          ++ store32 false (next_arc4 w 1)) := by
  cases hlib : h.lib with
  | linux =>
    have hv1 := (v1_linux h hlib w).1
    have hmc := uuidc_v1mc_linux h hlib w
    have ht := next_time_uuid_valid w
    have hr := next_random_uuid_valid w
    refine ⟨_, _, _, _, hv1, hmc, ht.1, ?_, ?_, fun _ => ?_, fun hk => (by cases hk),
      fun hk => (by cases hk)⟩
    · simp [ht.1, hr.1]
    · simp [ht.1]
    · simp [ht.1]
  | bsd =>
    have hcr := hc hlib
    have hst : h.to_string_status = uuid_s_ok := by
      rcases hs with hk | hk
      · rw [hlib] at hk; cases hk
      · exact hk
    obtain ⟨t1, t2⟩ := v1_bsd_strbuf h hlib w hcr hst
    have e0 : UuidC.uuid_generate_v1 h w
        = call_uuid_in (UuidC.internal_uuid_create_strbuf h 1 none none 0 w) := rfl
    have e0' : UuidOssp.uuid_generate_v1 h w
        = call_uuid_in (UuidOssp.uuid_generate_internal_strbuf h 1 none none 0 w) := rfl
    rw [t2] at e0'
    rw [t1] at e0 e0'
    simp only [call_uuid_in, uuid_in_canon_fields] at e0 e0'
    have e1 := uuidc_v1mc_eq h w
    rw [uuidc_v1mc_bsd_strbuf h hlib w hcr hst] at e1
    simp only [call_uuid_in, uuid_in_canon_fields] at e1
    have e2 := ossp_v1mc_eq h w
    rw [ossp_v1mc_bsd_strbuf h hlib w hcr hst] at e2
    simp only [call_uuid_in, uuid_in_canon_fields] at e2
    exact ⟨_, _, _, _, e0, e1, canon_bytes_length _ _ _ _ _ _, canon_bytes_length _ _ _ _ _ _,
      canon_bytes_take_8 _ _ _ _ _ _ _ _ _, fun hk => (by cases hk),
      fun _ => (by rw [canon_bytes_drop_8, clock_seq_mask]),
      fun _ => ⟨_, _, _, e0', e2,
        canon_bytes_length _ _ _ _ _ _, canon_bytes_take_10 _ _ _ _ _ _ _ _,
        canon_bytes_drop_10 _ _ _ _ _ _⟩⟩

/-- C7 (amended) at a sample input: the BSD build in the sample world. -/
theorem v1mc_keeps_time_fields_witness :
    ((sample_host UuidLib.bsd false).lib = UuidLib.bsd →
      (sample_world.created sample_world.ticks).1 = uuid_s_ok) ∧
    to_string_ok (sample_host UuidLib.bsd false) ∧
    ∃ tb u w1 w2,
      UuidC.uuid_generate_v1 (sample_host UuidLib.bsd false) sample_world = (Except.ok tb, w1) ∧
      UuidC.uuid_generate_v1mc (sample_host UuidLib.bsd false) sample_world
        = (Except.ok u, w2) ∧
      tb.length = 16 ∧ u.length = 16 ∧ u.take 8 = tb.take 8 ∧
      ((sample_host UuidLib.bsd false).lib = UuidLib.linux →
        u.drop 8 = (next_random_uuid sample_world).drop 8) ∧
      ((sample_host UuidLib.bsd false).lib = UuidLib.bsd →
        u.drop 8 = store16 false ((next_arc4 sample_world 0 &&& 0x3FFF) ||| 0x8000)
          ++ store16 false ((next_arc4 sample_world 1 &&& 0xffff) ||| 0x0300)
          ++ store32 false (next_arc4 sample_world 2)) ∧
      ((sample_host UuidLib.bsd false).lib = UuidLib.bsd → ∃ u2 w3 w4,
        UuidOssp.uuid_generate_v1 (sample_host UuidLib.bsd false) sample_world
          = (Except.ok tb, w3) ∧
        UuidOssp.uuid_generate_v1mc (sample_host UuidLib.bsd false) sample_world
          = (Except.ok u2, w4) ∧
        u2.length = 16 ∧ u2.take 10 = tb.take 10 ∧
        u2.drop 10 = store16 false ((next_arc4 sample_world 0 &&& 0xffff) ||| 0x0300)
          ++ store32 false (next_arc4 sample_world 1)) :=
  ⟨fun _ => rfl, Or.inr rfl,
    v1mc_keeps_time_fields (sample_host UuidLib.bsd false) sample_world (fun _ => rfl)
      (Or.inr rfl)⟩

/-- C8 (failing path): in the Linux build of `uuid-ossp.c` the string passed with `len = 13`
is `strbuf + 24`, the 12 node characters of the random text; `strcpy(strbuf + 23, buf)` then
overwrites the hyphen at index 23 and leaves a text of 35 characters, which is not of the
canonical shape and which `uuid_in` (as specified) rejects; with the sample time-based and
random UUIDs the text is `6ba7b810-9dad-11d1-80b42c8e4b5d6f70`. -/
theorem ossp_v1mc_linux_text (h : Host) (w : World) :
    (UuidOssp.uuid_generate_v1mc_buf { h with lib := UuidLib.linux } w).1.length = 12 ∧
    ∃ txt w1,
      UuidOssp.uuid_generate_v1mc_strbuf { h with lib := UuidLib.linux } w = (Except.ok txt, w1) ∧
      txt = (uuid_unparse (next_time_uuid w)).take 23
        ++ (uuid_unparse (next_random_uuid w)).drop 24 ∧
      txt.length = 35 ∧ txt.getD 23 0 ≠ hyphen ∧ canonical_text txt = false ∧
      UuidOssp.uuid_generate_v1mc { h with lib := UuidLib.linux } w
        = (Except.error PgError.malformed_uuid, w1) ∧
      (UuidOssp.uuid_generate_v1mc_strbuf (sample_host UuidLib.linux true) sample_world).1
        = Except.ok (lit "6ba7b810-9dad-11d1-80b42c8e4b5d6f70") := by
  have ht := next_time_uuid_valid w
  have hr := next_random_uuid_valid w
  have hs := ossp_v1mc_linux_strbuf { h with lib := UuidLib.linux } rfl w
  have hlen : ((uuid_unparse (next_time_uuid w)).take 23
      ++ (uuid_unparse (next_random_uuid w)).drop 24).length = 35 := by
    simp [uuid_unparse_length _ ht.1 ht.2, uuid_unparse_length _ hr.1 hr.2]
  refine ⟨?_, _, _, hs, rfl, hlen, ?_, ?_, ?_, rfl⟩
  · simp only [UuidOssp.uuid_generate_v1mc_buf, uuid_generate_random]
    rw [show uchars 16 (w.random_uuid w.draws) = next_random_uuid w from rfl, List.length_drop,
      uuid_unparse_length _ hr.1 hr.2]
  · rw [uuid_unparse_fields _ ht.2, uuid_unparse_fields _ hr.2, canon_fields_take_23,
      canon_fields_drop_24]
    simp only [hex_fixed, List.nil_append, List.cons_append, List.append_assoc]
    exact is_lower_hex_ne_hyphen (is_lower_hex_hexDigit_mod _)
  · simp only [canonical_text, hlen]
    rfl
  · rw [ossp_v1mc_eq, hs]
    simp only [call_uuid_in, uuid_in, hlen]
    rfl

/-! ## Fixed values and determinism -/

/-- C9: each of the five fixed-value functions hands its 36-character literal to `uuid_in`
unchanged and returns the bytes of that literal, whatever the host and the state of the random
source and of the clock, which are left as they were: `uuid_nil` yields
`00000000-0000-0000-0000-000000000000`, `uuid_ns_dns` yields
`6ba7b810-9dad-11d1-80b4-00c04fd430c8`, and `uuid_ns_url`, `uuid_ns_oid`, `uuid_ns_x500` the
same with the 8th hexadecimal digit 1, 2 and 4; the five values are pairwise distinct. -/
theorem fixed_values (h : Host) (w : World) :
    (UuidC.internal_uuid_create_strbuf h 0 none
        (some (lit "00000000-0000-0000-0000-000000000000")) 36 w
      = (Except.ok (lit "00000000-0000-0000-0000-000000000000"), w) ∧
     UuidC.internal_uuid_create_strbuf h 0 none
        (some (lit "6ba7b810-9dad-11d1-80b4-00c04fd430c8")) 36 w
      = (Except.ok (lit "6ba7b810-9dad-11d1-80b4-00c04fd430c8"), w) ∧
     UuidC.internal_uuid_create_strbuf h 0 none
        (some (lit "6ba7b811-9dad-11d1-80b4-00c04fd430c8")) 36 w
      = (Except.ok (lit "6ba7b811-9dad-11d1-80b4-00c04fd430c8"), w) ∧
     UuidC.internal_uuid_create_strbuf h 0 none
        (some (lit "6ba7b812-9dad-11d1-80b4-00c04fd430c8")) 36 w
      = (Except.ok (lit "6ba7b812-9dad-11d1-80b4-00c04fd430c8"), w) ∧
     UuidC.internal_uuid_create_strbuf h 0 none
        (some (lit "6ba7b814-9dad-11d1-80b4-00c04fd430c8")) 36 w
      = (Except.ok (lit "6ba7b814-9dad-11d1-80b4-00c04fd430c8"), w)) ∧
    (UuidC.uuid_nil h w
      = (Except.ok [0, 0, 0, 0, 0, 0, 0, 0, 0, 0, 0, 0, 0, 0, 0, 0], w) ∧
     UuidC.uuid_ns_dns h w
      = (Except.ok [0x6b, 0xa7, 0xb8, 0x10, 0x9d, 0xad, 0x11, 0xd1, 0x80, 0xb4, 0x00, 0xc0,
          0x4f, 0xd4, 0x30, 0xc8], w) ∧
     UuidC.uuid_ns_url h w
      = (Except.ok [0x6b, 0xa7, 0xb8, 0x11, 0x9d, 0xad, 0x11, 0xd1, 0x80, 0xb4, 0x00, 0xc0,
          0x4f, 0xd4, 0x30, 0xc8], w) ∧
     UuidC.uuid_ns_oid h w
      = (Except.ok [0x6b, 0xa7, 0xb8, 0x12, 0x9d, 0xad, 0x11, 0xd1, 0x80, 0xb4, 0x00, 0xc0,
          0x4f, 0xd4, 0x30, 0xc8], w) ∧
     UuidC.uuid_ns_x500 h w
      = (Except.ok [0x6b, 0xa7, 0xb8, 0x14, 0x9d, 0xad, 0x11, 0xd1, 0x80, 0xb4, 0x00, 0xc0,
          0x4f, 0xd4, 0x30, 0xc8], w)) ∧
    ((UuidC.uuid_nil h w).1 ≠ (UuidC.uuid_ns_dns h w).1 ∧
     (UuidC.uuid_nil h w).1 ≠ (UuidC.uuid_ns_url h w).1 ∧
     (UuidC.uuid_nil h w).1 ≠ (UuidC.uuid_ns_oid h w).1 ∧
     (UuidC.uuid_nil h w).1 ≠ (UuidC.uuid_ns_x500 h w).1 ∧
     (UuidC.uuid_ns_dns h w).1 ≠ (UuidC.uuid_ns_url h w).1 ∧
     (UuidC.uuid_ns_dns h w).1 ≠ (UuidC.uuid_ns_oid h w).1 ∧
     (UuidC.uuid_ns_dns h w).1 ≠ (UuidC.uuid_ns_x500 h w).1 ∧
     (UuidC.uuid_ns_url h w).1 ≠ (UuidC.uuid_ns_oid h w).1 ∧
     (UuidC.uuid_ns_url h w).1 ≠ (UuidC.uuid_ns_x500 h w).1 ∧
     (UuidC.uuid_ns_oid h w).1 ≠ (UuidC.uuid_ns_x500 h w).1) ∧
    (UuidOssp.uuid_nil h w = UuidC.uuid_nil h w ∧
     UuidOssp.uuid_ns_dns h w = UuidC.uuid_ns_dns h w ∧
     UuidOssp.uuid_ns_url h w = UuidC.uuid_ns_url h w ∧
     UuidOssp.uuid_ns_oid h w = UuidC.uuid_ns_oid h w ∧
     UuidOssp.uuid_ns_x500 h w = UuidC.uuid_ns_x500 h w) ∧
    ((lit "00000000-0000-0000-0000-000000000000").length = 36 ∧
     (lit "6ba7b810-9dad-11d1-80b4-00c04fd430c8").length = 36 ∧
     (lit "6ba7b811-9dad-11d1-80b4-00c04fd430c8").length = 36 ∧
     (lit "6ba7b812-9dad-11d1-80b4-00c04fd430c8").length = 36 ∧
     (lit "6ba7b814-9dad-11d1-80b4-00c04fd430c8").length = 36) := by
  have n0 : UuidC.uuid_nil h w
      = (Except.ok [0, 0, 0, 0, 0, 0, 0, 0, 0, 0, 0, 0, 0, 0, 0, 0], w) := rfl
  have n1 : UuidC.uuid_ns_dns h w
      = (Except.ok [0x6b, 0xa7, 0xb8, 0x10, 0x9d, 0xad, 0x11, 0xd1, 0x80, 0xb4, 0x00, 0xc0,
          0x4f, 0xd4, 0x30, 0xc8], w) := rfl
  have n2 : UuidC.uuid_ns_url h w
      = (Except.ok [0x6b, 0xa7, 0xb8, 0x11, 0x9d, 0xad, 0x11, 0xd1, 0x80, 0xb4, 0x00, 0xc0,
          0x4f, 0xd4, 0x30, 0xc8], w) := rfl
  have n3 : UuidC.uuid_ns_oid h w
      = (Except.ok [0x6b, 0xa7, 0xb8, 0x12, 0x9d, 0xad, 0x11, 0xd1, 0x80, 0xb4, 0x00, 0xc0,
          0x4f, 0xd4, 0x30, 0xc8], w) := rfl
  have n4 : UuidC.uuid_ns_x500 h w
      = (Except.ok [0x6b, 0xa7, 0xb8, 0x14, 0x9d, 0xad, 0x11, 0xd1, 0x80, 0xb4, 0x00, 0xc0,
          0x4f, 0xd4, 0x30, 0xc8], w) := rfl
  have o0 : UuidOssp.uuid_nil h w
      = (Except.ok [0, 0, 0, 0, 0, 0, 0, 0, 0, 0, 0, 0, 0, 0, 0, 0], w) := rfl
  have o1 : UuidOssp.uuid_ns_dns h w
      = (Except.ok [0x6b, 0xa7, 0xb8, 0x10, 0x9d, 0xad, 0x11, 0xd1, 0x80, 0xb4, 0x00, 0xc0,
          0x4f, 0xd4, 0x30, 0xc8], w) := rfl
  have o2 : UuidOssp.uuid_ns_url h w
      = (Except.ok [0x6b, 0xa7, 0xb8, 0x11, 0x9d, 0xad, 0x11, 0xd1, 0x80, 0xb4, 0x00, 0xc0,
          0x4f, 0xd4, 0x30, 0xc8], w) := rfl
  have o3 : UuidOssp.uuid_ns_oid h w
      = (Except.ok [0x6b, 0xa7, 0xb8, 0x12, 0x9d, 0xad, 0x11, 0xd1, 0x80, 0xb4, 0x00, 0xc0,
          0x4f, 0xd4, 0x30, 0xc8], w) := rfl
  have o4 : UuidOssp.uuid_ns_x500 h w
      = (Except.ok [0x6b, 0xa7, 0xb8, 0x14, 0x9d, 0xad, 0x11, 0xd1, 0x80, 0xb4, 0x00, 0xc0,
          0x4f, 0xd4, 0x30, 0xc8], w) := rfl
  refine ⟨⟨rfl, rfl, rfl, rfl, rfl⟩, ⟨n0, n1, n2, n3, n4⟩, ?_,
    ⟨o0.trans n0.symm, o1.trans n1.symm, o2.trans n2.symm, o3.trans n3.symm, o4.trans n4.symm⟩,
    ⟨rfl, rfl, rfl, rfl, rfl⟩⟩
  rw [n0, n1, n2, n3, n4]
  simp

/-- The V3 call of `internal_uuid_create` when `uuid_to_string` fails: the error is raised. -/
theorem uuidc_v3_failure (h : Host) (ns p : List Nat) (len : Nat) (w : World)
    (hns : ns.length = 16) (hlen : len ≤ p.length) (hok : ¬ to_string_ok h) :
    UuidC.internal_uuid_create_strbuf h 3 (some ns) (some p) len w
      = (Except.error (PgError.external_routine_exception h.to_string_status), w) ∧
    UuidC.internal_uuid_create h 3 (some ns) (some p) len w
      = (Except.error (PgError.external_routine_exception h.to_string_status), w) := by
  have hlib : h.lib = UuidLib.bsd := by
    cases hk : h.lib with
    | bsd => rfl
    | linux => exact absurd (Or.inl hk) hok
  have hs : h.to_string_status ≠ uuid_s_ok := fun hk => hok (Or.inr hk)
  have key : UuidC.internal_uuid_create_strbuf h 3 (some ns) (some p) len w
      = (Except.error (PgError.external_routine_exception h.to_string_status), w) := by
    rw [uuidc_v3_of_ok h _ _ len w _ (md5_into_uu_ok h ns p len hns hlen),
      name_based_text_error h _ hlib hs]
  refine ⟨key, ?_⟩
  unfold UuidC.internal_uuid_create
  rw [key]
  rfl

/-- The V3 call of `uuid_generate_internal` when `uuid_to_string` fails: the error is
raised. -/
theorem ossp_v3_failure (h : Host) (ns p : List Nat) (len : Nat) (w : World)
    (hns : ns.length = 16) (hlen : len ≤ p.length) (hok : ¬ to_string_ok h) :
    UuidOssp.uuid_generate_internal_strbuf h 3 (some ns) (some p) len w
      = (Except.error (PgError.external_routine_exception h.to_string_status), w) ∧
    UuidOssp.uuid_generate_internal h 3 (some ns) (some p) len w
      = (Except.error (PgError.external_routine_exception h.to_string_status), w) := by
  have hlib : h.lib = UuidLib.bsd := by
    cases hk : h.lib with
    | bsd => rfl
    | linux => exact absurd (Or.inl hk) hok
  have hs : h.to_string_status ≠ uuid_s_ok := fun hk => hok (Or.inr hk)
  have key : UuidOssp.uuid_generate_internal_strbuf h 3 (some ns) (some p) len w
      = (Except.error (PgError.external_routine_exception h.to_string_status), w) := by
    rw [ossp_v3_of_ok h _ _ len w _ (md5_into_uu_ok h ns p len hns hlen),
      name_based_text_error h _ hlib hs]
  refine ⟨key, ?_⟩
  unfold UuidOssp.uuid_generate_internal
  rw [key]
  rfl

/-- The V3 result of `internal_uuid_create` as a function of the host and the arguments. -/
theorem uuidc_v3_run (h : Host) (ns p : List Nat) (len : Nat) (hns : ns.length = 16)
    (hlen : len ≤ p.length) :
    ∃ r, ∀ w, UuidC.internal_uuid_create h 3 (some ns) (some p) len w = (r, w) := by
  by_cases hok : to_string_ok h
  · exact ⟨_, fun w => uuidc_v3_result h ns p len w hns hlen hok⟩
  · exact ⟨_, fun w => (uuidc_v3_failure h ns p len w hns hlen hok).2⟩

/-- C10: for every 16-byte namespace and every name, the V3 result of `internal_uuid_create`
is the same from any two states of the random source and of the clock, and each run leaves the
state as it found it; the result is a UUID when the library calls succeed and the error of
`uuid_to_string` otherwise. The same holds for `uuid_generate_v3`. A V5 call has no result to
repeat: from every state it ends in the write of the 20-byte SHA1 digest at the 16-byte `uu`,
and so does `uuid_generate_v5`. -/
theorem name_based_deterministic (h : Host) (ns p : List Nat) (len : Nat) (w1 w2 : World)
    (hns : ns.length = 16) (hlen : len ≤ p.length) :
    (UuidC.internal_uuid_create h 3 (some ns) (some p) len w1).1
      = (UuidC.internal_uuid_create h 3 (some ns) (some p) len w2).1 ∧
    (UuidC.internal_uuid_create h 3 (some ns) (some p) len w1).2 = w1 ∧
    (UuidC.internal_uuid_create h 3 (some ns) (some p) len w2).2 = w2 ∧
    (to_string_ok h → ∃ u,
      UuidC.internal_uuid_create h 3 (some ns) (some p) len w1 = (Except.ok u, w1) ∧
      UuidC.internal_uuid_create h 3 (some ns) (some p) len w2 = (Except.ok u, w2)) ∧
    (¬ to_string_ok h →
      UuidC.internal_uuid_create h 3 (some ns) (some p) len w1
        = (Except.error (PgError.external_routine_exception h.to_string_status), w1) ∧
      UuidC.internal_uuid_create h 3 (some ns) (some p) len w2
        = (Except.error (PgError.external_routine_exception h.to_string_status), w2)) ∧
    (∀ name : List Nat,
      (UuidC.uuid_generate_v3 h (some ns) (some name) w1).1
        = (UuidC.uuid_generate_v3 h (some ns) (some name) w2).1 ∧
      (UuidC.uuid_generate_v3 h (some ns) (some name) w1).2 = w1 ∧
      (UuidC.uuid_generate_v3 h (some ns) (some name) w2).2 = w2) ∧
    (∀ w, UuidC.internal_uuid_create h 5 (some ns) (some p) len w
      = (Except.error (PgError.out_of_bounds_write 4), w)) ∧
    (∀ (name : List Nat) (w : World), UuidC.uuid_generate_v5 h (some ns) (some name) w
      = (Except.error (PgError.out_of_bounds_write 4), w)) := by
  obtain ⟨r, hr⟩ := uuidc_v3_run h ns p len hns hlen
  refine ⟨?_, ?_, ?_, ?_, ?_, ?_, ?_, ?_⟩
  · rw [hr w1, hr w2]
  · rw [hr w1]
  · rw [hr w2]
  · intro hok
    exact ⟨_, uuidc_v3_result h ns p len w1 hns hlen hok,
      uuidc_v3_result h ns p len w2 hns hlen hok⟩
  · intro hok
    exact ⟨(uuidc_v3_failure h ns p len w1 hns hlen hok).2,
      (uuidc_v3_failure h ns p len w2 hns hlen hok).2⟩
  · intro name
    obtain ⟨r3, h3⟩ := uuidc_v3_run h ns name name.length hns (Nat.le_refl _)
    simp only [UuidC.uuid_generate_v3, h3, and_self]
  · intro w
    exact (uuidc_v5_overflow h ns p len w hns hlen).2
  · intro name w
    exact (uuidc_v5_overflow h ns name name.length w hns (Nat.le_refl _)).2

/-- C10 at a sample input: the name `www` in the sample namespace, from the two sample
worlds. -/
theorem name_based_deterministic_witness :
    sample_time_bytes.length = 16 ∧ 3 ≤ [119, 119, 119].length ∧
    (UuidC.internal_uuid_create (sample_host UuidLib.linux true) 3 (some sample_time_bytes)
        (some [119, 119, 119]) 3 sample_world).1
      = (UuidC.internal_uuid_create (sample_host UuidLib.linux true) 3 (some sample_time_bytes)
        (some [119, 119, 119]) 3 sample_world2).1 ∧
    (UuidC.internal_uuid_create (sample_host UuidLib.linux true) 3 (some sample_time_bytes)
        (some [119, 119, 119]) 3 sample_world).2 = sample_world ∧
    UuidC.internal_uuid_create (sample_host UuidLib.linux true) 5 (some sample_time_bytes)
        (some [119, 119, 119]) 3 sample_world2
      = (Except.error (PgError.out_of_bounds_write 4), sample_world2) :=
  ⟨rfl, by decide,
    (name_based_deterministic (sample_host UuidLib.linux true) sample_time_bytes
      [119, 119, 119] 3 sample_world sample_world2 rfl (by decide)).1,
    (name_based_deterministic (sample_host UuidLib.linux true) sample_time_bytes
      [119, 119, 119] 3 sample_world sample_world2 rfl (by decide)).2.1,
    (name_based_deterministic (sample_host UuidLib.linux true) sample_time_bytes
      [119, 119, 119] 3 sample_world sample_world2 rfl (by decide)).2.2.2.2.2.2.1 sample_world2⟩

/-! ## Errors of the name-based requests -/

/-- Six values that make the random case print the text of given bytes. -/
theorem sprintf_v4_of_bytes (u : List Nat) (hb : ∀ b ∈ u, b < 256)
    (hver : version_of u = 4) (hvar : variant_of u = 2) :
    sprintf_v4
        (load32 false (u.getD 0 0) (u.getD 1 0) (u.getD 2 0) (u.getD 3 0))
        (load16 false (u.getD 4 0) (u.getD 5 0)) (load16 false (u.getD 6 0) (u.getD 7 0))
        (load16 false (u.getD 8 0) (u.getD 9 0)) (load16 false (u.getD 10 0) (u.getD 11 0))
        (load32 false (u.getD 12 0) (u.getD 13 0) (u.getD 14 0) (u.getD 15 0))
      = uuid_unparse u ∧
    load32 false (u.getD 0 0) (u.getD 1 0) (u.getD 2 0) (u.getD 3 0) < 4294967296 ∧
    load16 false (u.getD 4 0) (u.getD 5 0) < 4294967296 ∧
    load16 false (u.getD 6 0) (u.getD 7 0) < 4294967296 ∧
    load16 false (u.getD 8 0) (u.getD 9 0) < 4294967296 ∧
    load16 false (u.getD 10 0) (u.getD 11 0) < 4294967296 ∧
    load32 false (u.getD 12 0) (u.getD 13 0) (u.getD 14 0) (u.getD 15 0) < 4294967296 := by
  have g := getD_lt_256 hb
  have g0 := g 0
  have g1 := g 1
  have g2 := g 2
  have g3 := g 3
  have g4 := g 4
  have g5 := g 5
  have g6 := g 6
  have g7 := g 7
  have g8 := g 8
  have g9 := g 9
  have g10 := g 10
  have g11 := g 11
  have g12 := g 12
  have g13 := g 13
  have g14 := g 14
  have g15 := g 15
  unfold version_of at hver
  unfold variant_of at hvar
  have b1 : load32 false (u.getD 0 0) (u.getD 1 0) (u.getD 2 0) (u.getD 3 0) < 4294967296 := by
    simp only [load32, Bool.false_eq_true, if_false]
    omega
  have b6 : load32 false (u.getD 12 0) (u.getD 13 0) (u.getD 14 0) (u.getD 15 0)
      < 4294967296 := by
    simp only [load32, Bool.false_eq_true, if_false]
    omega
  have e2 : load16 false (u.getD 4 0) (u.getD 5 0) % 65536
      = load16 false (u.getD 4 0) (u.getD 5 0) := by
    simp only [load16, Bool.false_eq_true, if_false]
    omega
  have e3 : load16 false (u.getD 6 0) (u.getD 7 0) % 4096 + 16384
      = load16 false (u.getD 6 0) (u.getD 7 0) := by
    simp only [load16, Bool.false_eq_true, if_false]
    omega
  have e4 : load16 false (u.getD 8 0) (u.getD 9 0) % 16384 + 32768
      = load16 false (u.getD 8 0) (u.getD 9 0) := by
    simp only [load16, Bool.false_eq_true, if_false]
    omega
  have e5 : load16 false (u.getD 10 0) (u.getD 11 0) % 65536
      = load16 false (u.getD 10 0) (u.getD 11 0) := by
    simp only [load16, Bool.false_eq_true, if_false]
    omega
  refine ⟨?_, b1, ?_, ?_, ?_, ?_, b6⟩
  · rw [sprintf_v4_eq _ _ _ _ _ _ b1 b6, e2, e3, e4, e5, uuid_unparse_fields u hb]
  all_goals
    simp only [load16, Bool.false_eq_true, if_false]
    omega

/-- C12: on the `arc4random` path the random (V4) case fixes no bit other than the six patched
ones: for every 16-byte UUID whose version nibble is 4 and whose variant bits are binary 10
there are six 32-bit `arc4random` results for which the text printed is the canonical text of
that UUID, and a state of the random source from which `internal_uuid_create` (and
`uuid_generate_internal`) returns exactly that UUID. -/
theorem v4_reaches_every_uuid (h : Host) (hlib : h.lib = UuidLib.bsd) (u : List Nat)
    (hl : u.length = 16) (hb : ∀ b ∈ u, b < 256)
    (hver : version_of u = 4) (hvar : variant_of u = 2) :
    ∃ r1 r2 r3 r4 r5 r6 : Nat,
      r1 < 4294967296 ∧ r2 < 4294967296 ∧ r3 < 4294967296 ∧ r4 < 4294967296 ∧
      r5 < 4294967296 ∧ r6 < 4294967296 ∧
      sprintf_v4 r1 r2 r3 r4 r5 r6 = uuid_unparse u ∧
      ∃ w w1 : World,
        next_arc4 w 0 = r1 ∧ next_arc4 w 1 = r2 ∧ next_arc4 w 2 = r3 ∧ next_arc4 w 3 = r4 ∧
        next_arc4 w 4 = r5 ∧ next_arc4 w 5 = r6 ∧
        UuidC.internal_uuid_create_strbuf h 4 none none 0 w = (Except.ok (uuid_unparse u), w1) ∧
        UuidC.internal_uuid_create h 4 none none 0 w = (Except.ok u, w1) ∧
        UuidOssp.uuid_generate_internal h 4 none none 0 w = (Except.ok u, w1) := by
  obtain ⟨hs, c1, c2, c3, c4, c5, c6⟩ := sprintf_v4_of_bytes u hb hver hvar
  generalize load32 false (u.getD 0 0) (u.getD 1 0) (u.getD 2 0) (u.getD 3 0) = r1 at hs c1
  generalize load16 false (u.getD 4 0) (u.getD 5 0) = r2 at hs c2
  generalize load16 false (u.getD 6 0) (u.getD 7 0) = r3 at hs c3
  generalize load16 false (u.getD 8 0) (u.getD 9 0) = r4 at hs c4
  generalize load16 false (u.getD 10 0) (u.getD 11 0) = r5 at hs c5
  generalize load32 false (u.getD 12 0) (u.getD 13 0) (u.getD 14 0) (u.getD 15 0) = r6 at hs c6
  have n0 : (world_with_arc4 [r1, r2, r3, r4, r5, r6]).arc4
      (world_with_arc4 [r1, r2, r3, r4, r5, r6]).draws % 4294967296 = r1 := Nat.mod_eq_of_lt c1
  have n1 : (world_with_arc4 [r1, r2, r3, r4, r5, r6]).arc4
      ((world_with_arc4 [r1, r2, r3, r4, r5, r6]).draws + 1) % 4294967296 = r2 :=
    Nat.mod_eq_of_lt c2
  have n2 : (world_with_arc4 [r1, r2, r3, r4, r5, r6]).arc4
      ((world_with_arc4 [r1, r2, r3, r4, r5, r6]).draws + 2) % 4294967296 = r3 :=
    Nat.mod_eq_of_lt c3
  have n3 : (world_with_arc4 [r1, r2, r3, r4, r5, r6]).arc4
      ((world_with_arc4 [r1, r2, r3, r4, r5, r6]).draws + 3) % 4294967296 = r4 :=
    Nat.mod_eq_of_lt c4
  have n4 : (world_with_arc4 [r1, r2, r3, r4, r5, r6]).arc4
      ((world_with_arc4 [r1, r2, r3, r4, r5, r6]).draws + 4) % 4294967296 = r5 :=
    Nat.mod_eq_of_lt c5
  have n5 : (world_with_arc4 [r1, r2, r3, r4, r5, r6]).arc4
      ((world_with_arc4 [r1, r2, r3, r4, r5, r6]).draws + 5) % 4294967296 = r6 :=
    Nat.mod_eq_of_lt c6
  obtain ⟨k1, k2⟩ := v4_arc4random_strbuf h hlib (world_with_arc4 [r1, r2, r3, r4, r5, r6])
  generalize world_with_arc4 [r1, r2, r3, r4, r5, r6] = W at n0 n1 n2 n3 n4 n5 k1 k2
  rw [n0, n1, n2, n3, n4, n5, hs] at k1
  have k3 : UuidC.internal_uuid_create h 4 none none 0 W
      = (Except.ok u, { W with draws := W.draws + 6 }) := by
    unfold UuidC.internal_uuid_create
    rw [k1]
    simp only [call_uuid_in, uuid_in_unparse u hl hb]
  have k4 : UuidOssp.uuid_generate_internal h 4 none none 0 W
      = (Except.ok u, { W with draws := W.draws + 6 }) := by
    unfold UuidOssp.uuid_generate_internal
    rw [k2, k1]
    simp only [call_uuid_in, uuid_in_unparse u hl hb]
  exact ⟨r1, r2, r3, r4, r5, r6, c1, c2, c3, c4, c5, c6, hs, W, _, n0, n1, n2, n3, n4, n5, k1,
    k3, k4⟩

/-- C12 at a sample input: the sample random UUID. -/
theorem v4_reaches_every_uuid_witness :
    (sample_host UuidLib.bsd true).lib = UuidLib.bsd ∧ sample_random_bytes.length = 16 ∧
    (∀ b ∈ sample_random_bytes, b < 256) ∧ version_of sample_random_bytes = 4 ∧
    variant_of sample_random_bytes = 2 ∧
    ∃ r1 r2 r3 r4 r5 r6 : Nat,
      r1 < 4294967296 ∧ r2 < 4294967296 ∧ r3 < 4294967296 ∧ r4 < 4294967296 ∧
      r5 < 4294967296 ∧ r6 < 4294967296 ∧
      sprintf_v4 r1 r2 r3 r4 r5 r6 = uuid_unparse sample_random_bytes := by
  obtain ⟨r1, r2, r3, r4, r5, r6, c1, c2, c3, c4, c5, c6, hs, _⟩ :=
    v4_reaches_every_uuid (sample_host UuidLib.bsd true) rfl sample_random_bytes rfl
      (by decide) (by decide) (by decide)
  exact ⟨rfl, rfl, by decide, by decide, by decide, r1, r2, r3, r4, r5, r6, c1, c2, c3, c4, c5,
    c6, hs⟩

/-! ## The byte-order macros -/

theorem bswap16_bswap16 {x : Nat} (h : x < 65536) : bswap16 (bswap16 x) = x := by
  unfold bswap16
  have a0 : x % 256 < 256 := Nat.mod_lt _ (by decide)
  have a1 : x / 256 % 256 < 256 := Nat.mod_lt _ (by decide)
  have hx : x / 256 % 256 * 256 + x % 256 = x := by omega
  generalize x % 256 = a at a0 hx ⊢
  generalize x / 256 % 256 = b at a1 hx ⊢
  generalize hy : a * 256 + b = y
  have g1 : y % 256 = b := by
    clear hx h
    omega
  have g2 : y / 256 % 256 = a := by
    clear hx h
    omega
  rw [g1, g2]
  exact hx

theorem bswap32_bswap32 {x : Nat} (h : x < 4294967296) : bswap32 (bswap32 x) = x := by
  unfold bswap32
  have a0 : x % 256 < 256 := Nat.mod_lt _ (by decide)
  have a1 : x / 256 % 256 < 256 := Nat.mod_lt _ (by decide)
  have a2 : x / 65536 % 256 < 256 := Nat.mod_lt _ (by decide)
  have a3 : x / 16777216 % 256 < 256 := Nat.mod_lt _ (by decide)
  have hx : x / 16777216 % 256 * 16777216 + x / 65536 % 256 * 65536
      + x / 256 % 256 * 256 + x % 256 = x := by omega
  generalize x % 256 = a at a0 hx ⊢
  generalize x / 256 % 256 = b at a1 hx ⊢
  generalize x / 65536 % 256 = c at a2 hx ⊢
  generalize x / 16777216 % 256 = d at a3 hx ⊢
  generalize hy : a * 16777216 + b * 65536 + c * 256 + d = y
  have g1 : y % 256 = d := by
    clear hx h
    omega
  have g2 : y / 256 % 256 = c := by
    clear hx h
    omega
  have g3 : y / 65536 % 256 = b := by
    clear hx h
    omega
  have g4 : y / 16777216 % 256 = a := by
    clear hx h
    omega
  rw [g1, g2, g3, g4]
  exact hx

/-- C13: for every UUID structure, on little-endian and on big-endian hosts, `UUID_TO_NETWORK`
and `UUID_TO_LOCAL` leave `clock_seq_hi_and_reserved`, `clock_seq_low` and the six node bytes
as they were, in the structure and in its memory (bytes 8 to 15). -/
theorem byte_order_macros_frame (le : Bool) (u : dce_uuid_t) :
    (UUID_TO_NETWORK le u).clock_seq_hi_and_reserved = u.clock_seq_hi_and_reserved ∧
    (UUID_TO_NETWORK le u).clock_seq_low = u.clock_seq_low ∧
    (UUID_TO_NETWORK le u).node = u.node ∧
    (UUID_TO_LOCAL le u).clock_seq_hi_and_reserved = u.clock_seq_hi_and_reserved ∧
    (UUID_TO_LOCAL le u).clock_seq_low = u.clock_seq_low ∧
    (UUID_TO_LOCAL le u).node = u.node ∧
    (to_mem le (UUID_TO_NETWORK le u)).drop 8 = (to_mem le u).drop 8 ∧
    (to_mem le (UUID_TO_LOCAL le u)).drop 8 = (to_mem le u).drop 8 ∧
    (to_mem le u).drop 8 = [u.clock_seq_hi_and_reserved, u.clock_seq_low] ++ u.node := by
  refine ⟨rfl, rfl, rfl, rfl, rfl, rfl, ?_, ?_, ?_⟩ <;>
    cases le <;> simp [to_mem, store32, store16, UUID_TO_NETWORK, UUID_TO_LOCAL]

/-- C15: for every UUID structure (fields within their C types), on little-endian and on
big-endian hosts, `UUID_TO_LOCAL` after `UUID_TO_NETWORK` and `UUID_TO_NETWORK` after
`UUID_TO_LOCAL` give the structure back, hence the same 16 bytes of memory. -/
theorem byte_order_macros_inverse (le : Bool) (u : dce_uuid_t) (h1 : u.time_low < 4294967296)
    (h2 : u.time_mid < 65536) (h3 : u.time_hi_and_version < 65536) :
    UUID_TO_LOCAL le (UUID_TO_NETWORK le u) = u ∧
    UUID_TO_NETWORK le (UUID_TO_LOCAL le u) = u ∧
    to_mem le (UUID_TO_LOCAL le (UUID_TO_NETWORK le u)) = to_mem le u ∧
    to_mem le (UUID_TO_NETWORK le (UUID_TO_LOCAL le u)) = to_mem le u := by
  have e1 : UUID_TO_LOCAL le (UUID_TO_NETWORK le u) = u := by
    cases le
    · rfl
    · simp only [UUID_TO_LOCAL, UUID_TO_NETWORK, ntohl, ntohs, htonl, htons, if_true,
        bswap32_bswap32 h1, bswap16_bswap16 h2, bswap16_bswap16 h3]
  have e2 : UUID_TO_NETWORK le (UUID_TO_LOCAL le u) = u := by
    cases le
    · rfl
    · simp only [UUID_TO_LOCAL, UUID_TO_NETWORK, ntohl, ntohs, htonl, htons, if_true,
        bswap32_bswap32 h1, bswap16_bswap16 h2, bswap16_bswap16 h3]
  exact ⟨e1, e2, by rw [e1], by rw [e2]⟩

/-- C15 at a sample input: the structure read from the sample time-based bytes on a
little-endian host. -/
theorem byte_order_macros_inverse_witness :
    (of_mem true sample_time_bytes).time_low < 4294967296 ∧
    (of_mem true sample_time_bytes).time_mid < 65536 ∧
    (of_mem true sample_time_bytes).time_hi_and_version < 65536 ∧
    UUID_TO_LOCAL true (UUID_TO_NETWORK true (of_mem true sample_time_bytes))
      = of_mem true sample_time_bytes ∧
    UUID_TO_NETWORK true (UUID_TO_LOCAL true (of_mem true sample_time_bytes))
      = of_mem true sample_time_bytes ∧
    (UUID_TO_NETWORK true (of_mem true sample_time_bytes)).time_low = 0x6ba7b810 :=
  ⟨by decide, by decide, by decide,
    (byte_order_macros_inverse true (of_mem true sample_time_bytes) (by decide) (by decide)
      (by decide)).1,
    (byte_order_macros_inverse true (of_mem true sample_time_bytes) (by decide) (by decide)
      (by decide)).2.1, by decide⟩

/-! ## Agreement of the two files -/

/-- Mode 0 of both files copies the string it is given. -/
theorem mode0_strbuf (h : Host) (ns : Option (List Nat)) (q : List Nat) (len : Nat) (w : World) :
    UuidOssp.uuid_generate_internal_strbuf h 0 ns (some q) len w
      = (Except.ok (strlcpy q 37), w) ∧
    UuidC.internal_uuid_create_strbuf h 0 ns (some q) len w = (Except.ok (strlcpy q 37), w) := by
  simp only [UuidOssp.uuid_generate_internal_strbuf, UuidC.internal_uuid_create_strbuf, if_true,
    and_self]

/-- Mode 4 of both files builds the same text from the same random source. -/
theorem mode4_strbuf (h : Host) (ns ptr : Option (List Nat)) (len : Nat) (w : World) :
    ∃ txt w1,
      UuidOssp.uuid_generate_internal_strbuf h 4 ns ptr len w = (Except.ok txt, w1) ∧
      UuidC.internal_uuid_create_strbuf h 4 ns ptr len w = (Except.ok txt, w1) := by
  simp only [UuidOssp.uuid_generate_internal_strbuf, UuidC.internal_uuid_create_strbuf,
    show ((4 : Int) = 0) = False from by decide, show ((4 : Int) = 1) = False from by decide,
    show ((4 : Int) = -1) = False from by decide, show ((4 : Int) = 3) = False from by decide,
    show ((4 : Int) = 5) = False from by decide, if_false, false_and, or_self]
  cases h.lib with
  | linux => exact ⟨_, _, rfl, rfl⟩
  | bsd => exact ⟨_, _, rfl, rfl⟩

/-- C14: with the same host (hash functions, byte order, library) and the same state of the
random source, `uuid_generate_internal` of `uuid-ossp.c` and `internal_uuid_create` of `uuid.c`
hand the same text to `uuid_in` and return the same result in mode 0, in mode 4, and for
`v = 3` with a 16-byte namespace and a name (the same text when the library calls succeed, the
same error of `uuid_to_string` otherwise). For `v = 5` neither produces a text: each ends in
the write of the 20-byte SHA1 digest at the 16-byte `uu` of its own stack frame. -/
theorem implementations_agree (h : Host) (ns p : List Nat) (len : Nat) (w : World)
    (hns : ns.length = 16) (hlen : len ≤ p.length) :
    (∀ (nsq : Option (List Nat)) (q : List Nat) (n : Nat),
      UuidOssp.uuid_generate_internal_strbuf h 0 nsq (some q) n w
        = (Except.ok (strlcpy q 37), w) ∧
      UuidC.internal_uuid_create_strbuf h 0 nsq (some q) n w = (Except.ok (strlcpy q 37), w) ∧
      UuidOssp.uuid_generate_internal h 0 nsq (some q) n w
        = UuidC.internal_uuid_create h 0 nsq (some q) n w) ∧
    (∀ (nsq ptrq : Option (List Nat)) (n : Nat), ∃ txt w1,
      UuidOssp.uuid_generate_internal_strbuf h 4 nsq ptrq n w = (Except.ok txt, w1) ∧
      UuidC.internal_uuid_create_strbuf h 4 nsq ptrq n w = (Except.ok txt, w1) ∧
      UuidOssp.uuid_generate_internal h 4 nsq ptrq n w
        = UuidC.internal_uuid_create h 4 nsq ptrq n w) ∧
    (to_string_ok h → ∃ txt u,
      UuidOssp.uuid_generate_internal_strbuf h 3 (some ns) (some p) len w = (Except.ok txt, w) ∧
      UuidC.internal_uuid_create_strbuf h 3 (some ns) (some p) len w = (Except.ok txt, w) ∧
      UuidOssp.uuid_generate_internal h 3 (some ns) (some p) len w = (Except.ok u, w) ∧
      UuidC.internal_uuid_create h 3 (some ns) (some p) len w = (Except.ok u, w)) ∧
    (¬ to_string_ok h →
      UuidOssp.uuid_generate_internal h 3 (some ns) (some p) len w
        = (Except.error (PgError.external_routine_exception h.to_string_status), w) ∧
      UuidC.internal_uuid_create h 3 (some ns) (some p) len w
        = (Except.error (PgError.external_routine_exception h.to_string_status), w)) ∧
    UuidOssp.uuid_generate_internal_strbuf h 5 (some ns) (some p) len w
      = (Except.error (PgError.out_of_bounds_write 4), w) ∧
    UuidC.internal_uuid_create_strbuf h 5 (some ns) (some p) len w
      = (Except.error (PgError.out_of_bounds_write 4), w) := by
  refine ⟨?_, ?_, ?_, ?_, (ossp_v5_overflow h ns p len w hns hlen).1,
    (uuidc_v5_overflow h ns p len w hns hlen).1⟩
  · intro nsq q n
    obtain ⟨e1, e2⟩ := mode0_strbuf h nsq q n w
    refine ⟨e1, e2, ?_⟩
    unfold UuidOssp.uuid_generate_internal UuidC.internal_uuid_create
    rw [e1, e2]
  · intro nsq ptrq n
    obtain ⟨txt, w1, e1, e2⟩ := mode4_strbuf h nsq ptrq n w
    refine ⟨txt, w1, e1, e2, ?_⟩
    unfold UuidOssp.uuid_generate_internal UuidC.internal_uuid_create
    rw [e1, e2]
  · intro hok
    exact ⟨_, _, ossp_v3_strbuf h ns p len w hns hlen hok, uuidc_v3_strbuf h ns p len w hns hlen hok,
      ossp_v3_result h ns p len w hns hlen hok, uuidc_v3_result h ns p len w hns hlen hok⟩
  · intro hok
    exact ⟨(ossp_v3_failure h ns p len w hns hlen hok).2,
      (uuidc_v3_failure h ns p len w hns hlen hok).2⟩

/-- C14 at a sample input: the name `www` in the sample namespace on a big-endian BSD host. -/
theorem implementations_agree_witness :
    sample_time_bytes.length = 16 ∧ 3 ≤ [119, 119, 119].length ∧
    to_string_ok (sample_host UuidLib.bsd false) ∧
    (∃ txt u,
      UuidOssp.uuid_generate_internal_strbuf (sample_host UuidLib.bsd false) 3
        (some sample_time_bytes) (some [119, 119, 119]) 3 sample_world
          = (Except.ok txt, sample_world) ∧
      UuidC.internal_uuid_create_strbuf (sample_host UuidLib.bsd false) 3
        (some sample_time_bytes) (some [119, 119, 119]) 3 sample_world
          = (Except.ok txt, sample_world) ∧
      UuidOssp.uuid_generate_internal (sample_host UuidLib.bsd false) 3
        (some sample_time_bytes) (some [119, 119, 119]) 3 sample_world
          = (Except.ok u, sample_world) ∧
      UuidC.internal_uuid_create (sample_host UuidLib.bsd false) 3
        (some sample_time_bytes) (some [119, 119, 119]) 3 sample_world
          = (Except.ok u, sample_world)) ∧
    UuidOssp.uuid_generate_internal_strbuf (sample_host UuidLib.bsd false) 5
        (some sample_time_bytes) (some [119, 119, 119]) 3 sample_world
      = (Except.error (PgError.out_of_bounds_write 4), sample_world) ∧
    UuidC.internal_uuid_create_strbuf (sample_host UuidLib.bsd false) 5
        (some sample_time_bytes) (some [119, 119, 119]) 3 sample_world
      = (Except.error (PgError.out_of_bounds_write 4), sample_world) :=
  ⟨rfl, by decide, Or.inr rfl,
    (implementations_agree (sample_host UuidLib.bsd false) sample_time_bytes [119, 119, 119] 3
      sample_world rfl (by decide)).2.2.1 (Or.inr rfl),
    (implementations_agree (sample_host UuidLib.bsd false) sample_time_bytes [119, 119, 119] 3
      sample_world rfl (by decide)).2.2.2.2.1,
    (implementations_agree (sample_host UuidLib.bsd false) sample_time_bytes [119, 119, 119] 3
      sample_world rfl (by decide)).2.2.2.2.2⟩

/-! ## The multicast suffix of `uuid.c` -/

theorem parse_hex_fixed_4 (x : Nat) :
    parse_hex_pairs (hex_fixed 4 x) = some [x / 256 % 256, x % 256] := by
  have p4 : x / 16 / 16 / 16 % 16 * 16 + x / 16 / 16 % 16 = x / 256 % 256 := by omega
  simp only [hex_fixed, List.nil_append, List.cons_append, parse_hex_pairs,
    hexval_hexDigit_mod, p4, hex_pair_value]

/-- C16: on the BSD path of `uuid.c`, whatever three 32-bit values `arc4random` returns, the
suffix that `uuid_generate_v1mc` prints with `-%04x-%04x%08lx` and passes with `len = 18` has
exactly 18 characters (19 bytes with its terminator, within `buf[20]`), none of them NUL: a
hyphen, four digits encoding a 16-bit value whose two high bits are binary 10 and whose low
14 bits are those of the first draw (so the first digit is one of `8`, `9`, `a`, `b`), a
hyphen, and twelve digits of the node, whose first octet has both 0x01 and 0x02 set. -/
theorem uuidc_v1mc_suffix (h : Host) (hlib : h.lib = UuidLib.bsd) (w : World) :
    ∃ buf cs nd : _,
      UuidC.uuid_generate_v1mc_args h w
        = ((1, some buf, 18), { w with draws := w.draws + 3 }) ∧
      buf = UuidC.v1mc_buf (next_arc4 w 0) (next_arc4 w 1) (next_arc4 w 2) ∧
      buf.length = 18 ∧ buf.length + 1 ≤ 20 ∧ c_str buf = buf ∧
      buf = [hyphen] ++ hex_fixed 4 cs ++ [hyphen] ++ hex_fixed 4 nd
        ++ hex_fixed 8 (next_arc4 w 2) ∧
      cs < 65536 ∧ cs / 16384 = 2 ∧ cs % 16384 = next_arc4 w 0 % 16384 ∧
      parse_hex_pairs ((buf.drop 1).take 4) = some [cs / 256 % 256, cs % 256] ∧
      buf.getD 1 0 ∈ [56, 57, 97, 98] ∧
      nd = ((next_arc4 w 1 &&& 0xffff) ||| 0x0300) ∧ nd < 65536 ∧
      parse_hex_pairs ((buf.drop 6).take 4) = some [nd / 256 % 256, nd % 256] ∧
      (nd / 256 % 256).testBit 0 = true ∧ (nd / 256 % 256).testBit 1 = true := by
  have hbuf := uuidc_v1mc_buf_eq (next_arc4 w 0) (next_arc4 w 1) (next_arc4 w 2)
    (Nat.mod_lt _ (by decide))
  rw [canon_fields_drop_18] at hbuf
  obtain ⟨y1, y2, y3⟩ := or_0x0300 (next_arc4 w 1)
  generalize hnd : (next_arc4 w 1 &&& 0xffff) ||| 0x0300 = nd at hbuf y1 y2 y3
  generalize hcs : next_arc4 w 0 % 16384 + 32768 = cs at hbuf
  have hargs : UuidC.uuid_generate_v1mc_args h w
      = ((1, some (UuidC.v1mc_buf (next_arc4 w 0) (next_arc4 w 1) (next_arc4 w 2)), 18),
        { w with draws := w.draws + 3 }) := by
    simp only [UuidC.uuid_generate_v1mc_args, hlib, arc4random]
    rfl
  have hnz : ∀ c ∈ [hyphen] ++ hex_fixed 4 cs ++ [hyphen] ++ hex_fixed 4 nd
      ++ hex_fixed 8 (next_arc4 w 2), c ≠ 0 := by
    intro c hc
    simp only [List.mem_append, List.mem_singleton] at hc
    rcases hc with (((rfl | hc) | rfl) | hc) | hc
    all_goals first
      | exact hex_fixed_ne_zero _ _ c hc
      | (unfold hyphen; decide)
  refine ⟨_, cs, nd, hargs, rfl, ?_, ?_, ?_, hbuf, by omega, by omega, by omega, ?_, ?_, rfl,
    y1, ?_, y2, y3⟩
  · rw [hbuf]
    simp [hex_fixed_length]
  · rw [hbuf]
    simp [hex_fixed_length]
  · rw [hbuf]
    exact c_str_of_ne_zero _ hnz
  · rw [hbuf, ← parse_hex_fixed_4 cs]
    simp only [hex_fixed, List.nil_append, List.cons_append, List.append_assoc]
    rfl
  · rw [hbuf]
    have c : cs / 16 / 16 / 16 % 16 = 8 ∨ cs / 16 / 16 / 16 % 16 = 9 ∨
        cs / 16 / 16 / 16 % 16 = 10 ∨ cs / 16 / 16 / 16 % 16 = 11 := by omega
    simp only [hex_fixed, List.nil_append, List.cons_append, List.append_assoc]
    rcases c with c | c | c | c <;> simp [c, hexDigit]
  · rw [hbuf, ← parse_hex_fixed_4 nd]
    simp only [hex_fixed, List.nil_append, List.cons_append, List.append_assoc]
    rfl

/-- C16 at a sample input: the suffix printed in the sample world. -/
theorem uuidc_v1mc_suffix_witness :
    (sample_host UuidLib.bsd true).lib = UuidLib.bsd ∧
    ∃ buf,
      UuidC.uuid_generate_v1mc_args (sample_host UuidLib.bsd true) sample_world
        = ((1, some buf, 18), { sample_world with draws := sample_world.draws + 3 }) ∧
      buf.length = 18 ∧ buf.getD 1 0 ∈ [56, 57, 97, 98] := by
  obtain ⟨buf, cs, nd, e, _, l, _, _, _, _, _, _, _, g, _⟩ :=
    uuidc_v1mc_suffix (sample_host UuidLib.bsd true) rfl sample_world
  exact ⟨rfl, buf, e, l, g⟩

end PgUuid
